import Mathlib

/-!
# libexif: the WAMR embedding and invocation layer

A shallow embedding of `src/libexif.c` (the host side of a WAMR instance that runs
exiftool) together with theorems about its call protocol.

The C code is stateful and talks to three collaborators: the caller-supplied
allocator, the POSIX file system, and the WAMR execution engine with its guest.
Their state is one explicit record, `World`, threaded through every function.
What a collaborator answers is not decided by the library, so the `World` also
carries, for every such call, the list of answers still to come (the `*_plan`
fields); each call consumes the head of its list.  Theorems quantify over the
whole `World`, hence over every behaviour of the collaborators.

`exif__run` is one C function; it is embedded as its consecutive parts
(`exif__run_prepare`, `exif__run_call`, `exif__run_query`, `exif__run_result`,
`exif__run_cleanup`), each naming the source lines it stands for, so that a
property of a call that reaches the run entry point can name the state there.

Conventions
* a byte is a `Nat`; a C string (`CStr`) is the list of its bytes before the
  terminating NUL;
* a host pointer obtained from the allocator is `Option Buf`: `none` is NULL,
  `some b` carries the address and the bytes stored there;
* guest addresses (`uint64_t` offsets in the source) are `Nat`, 0 meaning failure;
  the cast `(int32_t)` keeps the low 32 bits;
* `int` counts (`argc`, `ntags`, `ntail`) are the lengths of the lists they count;
* a library call whose result the source neither tests nor uses (`ftruncate`, `lseek` to the
  start, `fseek`, `close`, `unlink`, `fclose`) is taken to succeed: the channel is then empty
  or rewound, the directory entry is gone.  A call whose result the source uses can fail:
  `lseek` to the end and `ftell` with -1, `fopen` with NULL (`lseek_plan`, `ftell_plan`,
  `fopen_plan`), like `mkstemps`, `write`, `read`, `fread` and the allocator.
-/

namespace Libexif

/-! ## Data model -/

abbrev Bytes := List Nat

abbrev CStr := List Nat

/-- The bytes of an ASCII string literal of the source. -/
def ascii (s : String) : CStr := s.toList.map Char.toNat

/-- Length as `strlen` computes it: the C string is held as the bytes before its NUL. -/
def strlen (s : CStr) : Nat := s.length

/-- Does `s` start with `p`?  (helper of `strstr`) -/
def starts_with : CStr → CStr → Bool
  | _, [] => true
  | [], _ :: _ => false
  | a :: s, b :: p => a == b && starts_with s p

/-- Substring test `strstr(hay, needle) != NULL`. -/
def strstr : CStr → CStr → Bool
  | [], needle => starts_with [] needle
  | a :: hay, needle => starts_with (a :: hay) needle || strstr hay needle

/-- Text that `snprintf(buf, size, "%s", s)` stores in a buffer of `size` bytes. -/
def snprintf_s (size : Nat) (s : CStr) : CStr := s.take (size - 1)

/-- The value of a 32-bit pattern read as `int32_t`. -/
def int32 (n : Nat) : Int :=
  if n % 2 ^ 32 < 2 ^ 31 then ((n % 2 ^ 32 : Nat) : Int) else ((n % 2 ^ 32 : Nat) : Int) - 2 ^ 32

/-- The 32-bit pattern of an `int32_t` read as `uint32_t`. -/
def uint32 (v : Int) : Nat := (v % 2 ^ 32).toNat

/-- The value of a `long` or `off_t` converted to `size_t` (64 bits). -/
def size_t (v : Int) : Nat := (v % 2 ^ 64).toNat

/-- A non-NULL host pointer: its address and the bytes it points to. -/
structure Buf where
  addr : Nat
  bytes : Bytes
deriving DecidableEq, Repr

/-- The guest entry points resolved by `exif_create`. -/
inductive Fn
  | zeroperl_init
  | zeroperl_reset
  | zeroperl_run_file
  | zeroperl_flush
  | zeroperl_last_error
  | zeroperl_free_interpreter
deriving DecidableEq, Repr

/-- How `wasm_runtime_call_wasm_a` ends: it returns true with the i32 result `v`, or it
returns false and `wasm_runtime_get_exception` then yields `exc` (NULL when the engine
raised nothing). -/
inductive Outcome
  | ret (v : Int)
  | trap (exc : Option CStr)
deriving DecidableEq, Repr

/-- A block of guest linear memory obtained with `wasm_runtime_module_malloc`. -/
inductive GBlock
  | uninit (size : Nat)
  | bytes (b : Bytes)
  | words (ws : List Nat)
deriving DecidableEq, Repr

/-- Everything one invocation of a guest function does, as seen from the host. -/
structure GuestStep where
  /-- result of `wasm_runtime_call_wasm_a` -/
  outcome : Outcome
  /-- value of `wasm_func_get_result_count` for the function -/
  nresults : Nat
  /-- bytes the guest writes to its standard output during the call -/
  output : Bytes
  /-- what `wasm_runtime_get_wasi_exit_code` reports afterwards -/
  wasi_exit_code : Nat
  /-- strings the guest stores NUL-terminated in its own memory, by address -/
  strings : List (Nat × CStr)
  /-- files the guest creates or rewrites (`some`) or removes (`none`) -/
  files : List (CStr × Option Bytes)
deriving DecidableEq, Repr

/-- What the guest saw when one of its functions was invoked. -/
structure CallRec where
  fn : Fn
  args : List Nat
  mem : List (Nat × GBlock)
deriving DecidableEq, Repr

/-- The state of the library's collaborators, and their answers still to come. -/
structure World where
  /-- addresses the next `alloc->alloc` calls return (0 or exhausted: NULL) -/
  alloc_plan : List Nat
  /-- sizes passed to `alloc->alloc` so far -/
  alloc_log : List Nat
  /-- addresses passed to `alloc->free` so far (0 for NULL) -/
  free_log : List Nat
  /-- regular files by path -/
  files : List (CStr × Bytes)
  /-- replacement of the XXXXXX of the next `mkstemps` templates (`none`: it fails) -/
  mkstemps_plan : List (Option CStr)
  /-- results of the next `write` calls (exhausted: everything asked is written) -/
  write_plan : List Int
  /-- item counts the next `fread` calls deliver at most (exhausted: all) -/
  fread_plan : List Nat
  /-- whether the next `ftell` calls succeed (exhausted: they do) -/
  ftell_plan : List Bool := []
  /-- whether the next `fopen` calls succeed on a file that is there (exhausted: they do) -/
  fopen_plan : List Bool := []
  /-- whether the next `lseek` calls to the end of the channel succeed (exhausted: they do) -/
  lseek_plan : List Bool := []
  /-- content of the captured-output channel `ctx->stdout_fd` -/
  stdout : Bytes
  /-- file offset of `ctx->stdout_fd` -/
  stdout_pos : Nat
  /-- results of the next `read` calls on the channel (exhausted: everything asked) -/
  read_plan : List Int
  /-- value of `wasm_runtime_thread_env_inited()` -/
  thread_env : Bool
  /-- what `wasm_runtime_init_thread_env()` answers -/
  init_thread_env_ok : Bool
  /-- pending exception of the module instance -/
  exception : Option CStr
  /-- value of `wasm_runtime_get_wasi_exit_code` -/
  wasi_exit_code : Nat
  /-- live guest blocks allocated by the host, by offset -/
  gmem : List (Nat × GBlock)
  /-- offsets the next `wasm_runtime_module_malloc` calls return (0 or exhausted: failure) -/
  malloc_plan : List Nat
  /-- offsets returned by successful `wasm_runtime_module_malloc` calls so far -/
  malloc_log : List Nat
  /-- offsets passed to `wasm_runtime_module_free` so far -/
  gfree_log : List Nat
  /-- strings in guest-owned memory -/
  guest_strings : List (Nat × CStr)
  /-- behaviour of the next guest function invocations (exhausted: return 0) -/
  guest_plan : List GuestStep
  /-- guest function invocations so far -/
  calls : List CallRec
  /-- text held in `ctx->errbuf` -/
  errbuf : CStr
  /-- the value an uninitialised `int32_t` local holds -/
  indeterminate : Int
  /-- calls of the transform hook so far: data address (0 for NULL) and length -/
  hook_calls : List (Nat × Nat)
deriving DecidableEq, Repr

/-- Hook type `exif_transform_fn`: from the data (NULL or its bytes), its length and the hook context
to the returned string (NULL, or its address and text). -/
abbrev exif_transform_fn := Option Bytes → Nat → Nat → Option Buf

/-- Per-operation options `exif_options_t`. -/
structure exif_options_t where
  args : List CStr
  config_path : Option CStr
  tags : List CStr
  transform : Option exif_transform_fn
  transform_ctx : Nat

/-- Named buffer `exif_buf_t`; `len` is the length of `data`. -/
structure exif_buf_t where
  data : Bytes
  filename : CStr

/-- Operation result `exif_result_t`. -/
structure exif_result_t where
  success : Bool
  data : Option Buf
  data_len : Nat
  error : Option Buf
  exit_code : Int
deriving DecidableEq, Repr

/-- The fields of `struct exif` the call path reads; the handles of the engine, the
channel and `errbuf` live in the `World`. -/
structure exif where
  script_path : CStr
deriving DecidableEq, Repr

/-! ## Allocator indirection (`exif_allocator_t`) -/

/-- Call `alloc->alloc(size, alloc->ctx)`: the address returned, 0 for NULL. -/
def alloc_alloc (w : World) (size : Nat) : Nat × World :=
  match w.alloc_plan with
  | [] => (0, { w with alloc_log := w.alloc_log ++ [size] })
  | a :: rest => (a, { w with alloc_plan := rest, alloc_log := w.alloc_log ++ [size] })

/-- Address of a host pointer, 0 for NULL. -/
def addr_of (p : Option Buf) : Nat :=
  match p with
  | none => 0
  | some b => b.addr

/-- Call `alloc->free(ptr, size, alloc->ctx)`. -/
def alloc_free (w : World) (p : Option Buf) : World :=
  { w with free_log := w.free_log ++ [addr_of p] }

/-- The pointer `alloc_alloc` returned, filled with `bytes` by the `memcpy` that follows
(NULL is left alone: `if (p) memcpy(p, ...)`). -/
def filled (a : Nat) (bytes : Bytes) : Option Buf :=
  if a = 0 then none else some ⟨a, bytes⟩

/-! ## File system and captured-output channel -/

/-- Content of the regular file at `path`, if there is one. -/
def fs_read (fs : List (CStr × Bytes)) (path : CStr) : Option Bytes :=
  match fs with
  | [] => none
  | (p, c) :: rest => if p = path then some c else fs_read rest path

/-- Remove the directory entry `path` (`unlink`). -/
def fs_unlink (fs : List (CStr × Bytes)) (path : CStr) : List (CStr × Bytes) :=
  fs.filter (fun e => e.1 ≠ path)

/-- Create or replace the file at `path`. -/
def fs_set (fs : List (CStr × Bytes)) (path : CStr) (content : Bytes) : List (CStr × Bytes) :=
  (path, content) :: fs_unlink fs path

/-- Append `bytes` to the file at `path` (a sequential `write` on a fresh descriptor). -/
def fs_append (fs : List (CStr × Bytes)) (path : CStr) (bytes : Bytes) : List (CStr × Bytes) :=
  fs_set fs path ((fs_read fs path).getD [] ++ bytes)

/-- Call `unlink(path)`. -/
def unlink (w : World) (path : CStr) : World :=
  { w with files := fs_unlink w.files path }

/-- Call `ftell(file)` on a stream positioned at the end of a file of `len` bytes: the offset,
or -1 when the call fails.  It fails when the next answer of `ftell_plan` says so, and when the
offset does not fit `long`. -/
def ftell (w : World) (len : Nat) : Int × World :=
  (if w.ftell_plan.headD true = true ∧ len < 2 ^ 63 then (len : Int) else -1,
   { w with ftell_plan := w.ftell_plan.tail })

/-- Call `fopen(path, "rb")`: the content of the file the stream reads, `none` for NULL.  It
fails when there is no file at `path`, and when the next answer of `fopen_plan` says so. -/
def fopen (w : World) (path : CStr) : Option Bytes × World :=
  (if w.fopen_plan.headD true = true then fs_read w.files path else none,
   { w with fopen_plan := w.fopen_plan.tail })

/-- Code of the character X. -/
def char_X : Nat := 88

/-- Call `mkstemps(template, suffixlen)`: on success the template with its XXXXXX replaced,
which names the new empty file; `none` for -1.  As in libc the template must end in XXXXXX
followed by `suffixlen` bytes. -/
def mkstemps (w : World) (template : CStr) (suffixlen : Nat) : Option CStr × World :=
  let answer := w.mkstemps_plan.headD none
  let w1 := { w with mkstemps_plan := w.mkstemps_plan.tail }
  if template.length < 6 + suffixlen then (none, w1)
  else
    let stem := template.take (template.length - suffixlen - 6)
    let mid := (template.drop (template.length - suffixlen - 6)).take 6
    let ext := template.drop (template.length - suffixlen)
    if mid ≠ List.replicate 6 char_X then (none, w1)
    else
      match answer with
      | none => (none, w1)
      | some name =>
        let path := stem ++ name ++ ext
        (some path, { w1 with files := fs_set w1.files path [] })

/-- The bytes of a file of content `content` after `out` is written at offset `pos`. -/
def chan_write (content : Bytes) (pos : Nat) (out : Bytes) : Bytes :=
  if out = [] then content
  else (content ++ List.replicate (pos - content.length) 0).take pos ++ out
        ++ content.drop (pos + out.length)

/-- Call `lseek(ctx->stdout_fd, 0, SEEK_END)` on the open channel: the size of the file, or
-1 when the call fails.  It fails when the next answer of `lseek_plan` says so, and when the
size does not fit `off_t`. -/
def lseek_end (w : World) : Int × World :=
  if w.lseek_plan.headD true = true ∧ w.stdout.length < 2 ^ 63 then
    ((w.stdout.length : Int),
     { w with stdout_pos := w.stdout.length, lseek_plan := w.lseek_plan.tail })
  else (-1, { w with lseek_plan := w.lseek_plan.tail })

/-- Call `lseek(ctx->stdout_fd, 0, SEEK_SET)`. -/
def lseek_set (w : World) : World :=
  { w with stdout_pos := 0 }

/-- Call `ftruncate(ctx->stdout_fd, 0)`. -/
def ftruncate (w : World) : World :=
  { w with stdout := [] }

/-- Call `read(ctx->stdout_fd, buf, count)`: the result (negative on error, never more than
`count` nor than what is left in the file) and the bytes delivered. -/
def read_stdout_fd (w : World) (count : Nat) : Int × Bytes × World :=
  let left := w.stdout.drop w.stdout_pos
  let most := min count left.length
  let r : Int := w.read_plan.headD (most : Int)
  let w1 := { w with read_plan := w.read_plan.tail }
  if r < 0 then (-1, [], w1)
  else
    let n := min r.toNat most
    ((n : Int), left.take n, { w1 with stdout_pos := w1.stdout_pos + n })

/-! ## The execution engine (WAMR) -/

/-- Behaviour of a guest function once the plan is exhausted: it returns 0. -/
def default_step : GuestStep :=
  { outcome := .ret 0, nresults := 1, output := [], wasi_exit_code := 0, strings := [], files := [] }

/-- Apply the guest's file operations. -/
def guest_files (fs : List (CStr × Bytes)) : List (CStr × Option Bytes) → List (CStr × Bytes)
  | [] => fs
  | (p, some c) :: rest => guest_files (fs_set fs p c) rest
  | (p, none) :: rest => guest_files (fs_unlink fs p) rest

/-- Call `wasm_runtime_call_wasm_a(ctx->env, fn, ..., args)`: the guest runs one step. -/
def wasm_runtime_call_wasm_a (w : World) (fn : Fn) (args : List Nat) : Outcome × World :=
  let step := w.guest_plan.headD default_step
  (step.outcome,
   { w with
     guest_plan := w.guest_plan.tail
     calls := w.calls ++ [⟨fn, args, w.gmem⟩]
     stdout := chan_write w.stdout w.stdout_pos step.output
     stdout_pos := w.stdout_pos + step.output.length
     wasi_exit_code := step.wasi_exit_code
     guest_strings := step.strings ++ w.guest_strings
     files := guest_files w.files step.files
     exception := match step.outcome with
       | .trap e => e
       | .ret _ => w.exception })

/-- Call `wasm_func_get_result_count(func, ctx->inst)` for the function invoked next. -/
def wasm_func_get_result_count (w : World) : Nat :=
  (w.guest_plan.headD default_step).nresults

/-- Call `wasm_runtime_get_exception(ctx->inst)`. -/
def wasm_runtime_get_exception (w : World) : Option CStr := w.exception

/-- Call `wasm_runtime_clear_exception(ctx->inst)`. -/
def wasm_runtime_clear_exception (w : World) : World :=
  { w with exception := none }

/-- Replace the content of the live block at `off`. -/
def set_block (g : List (Nat × GBlock)) (off : Nat) (b : GBlock) : List (Nat × GBlock) :=
  match g with
  | [] => []
  | (a, c) :: rest => if a = off then (a, b) :: rest else (a, c) :: set_block rest off b

/-- Drop the live block at `off`. -/
def drop_block (g : List (Nat × GBlock)) (off : Nat) : List (Nat × GBlock) :=
  match g with
  | [] => []
  | (a, c) :: rest => if a = off then rest else (a, c) :: drop_block rest off

/-- The live block at `off`. -/
def block_at (g : List (Nat × GBlock)) (off : Nat) : Option GBlock :=
  match g with
  | [] => none
  | (a, c) :: rest => if a = off then some c else block_at rest off

/-- Call `wasm_runtime_module_malloc(ctx->inst, size, &native)`: the offset, 0 on failure. -/
def wasm_runtime_module_malloc (w : World) (size : Nat) : Nat × World :=
  match w.malloc_plan with
  | [] => (0, w)
  | a :: rest =>
    if a = 0 then (0, { w with malloc_plan := rest })
    else (a, { w with malloc_plan := rest
                      gmem := w.gmem ++ [(a, .uninit size)]
                      malloc_log := w.malloc_log ++ [a] })

/-- Call `wasm_runtime_module_free(ctx->inst, off)`. -/
def wasm_runtime_module_free (w : World) (off : Nat) : World :=
  { w with gmem := drop_block w.gmem off, gfree_log := w.gfree_log ++ [off] }

/-- Call `wasm_runtime_addr_app_to_native(ctx->inst, off)` for a string of the guest: the
text found there, `none` for NULL. -/
def wasm_runtime_addr_app_to_native (w : World) (off : Nat) : Option CStr :=
  match w.guest_strings.find? (fun e => e.1 = off) with
  | none => none
  | some e => some e.2

/-! ## Helpers of `libexif.c`

A function that changes the state returns its C result paired with the state after it;
`.1` is the result and `.2` the state (for two results: `.1`, `.2.1` and the state `.2.2`). -/

/-- Source `exif__wasm_alloc_string`: a guest copy of `str` with its NUL; 0 on failure. -/
def exif__wasm_alloc_string (w : World) (str : CStr) : Nat × World :=
  let len := strlen str + 1
  let m := wasm_runtime_module_malloc w len
  let offset := m.1
  if offset = 0 then (0, m.2)
  else (offset, { m.2 with gmem := set_block m.2.gmem offset (.bytes (str ++ [0])) })

/-- Source `exif__wasm_read_cstring`: NULL for offset 0, else the native view of the guest
address. -/
def exif__wasm_read_cstring (w : World) (offset : Nat) : Option CStr :=
  if offset = 0 then none else wasm_runtime_addr_app_to_native w offset

/-- Source `exif__call_wasm`: whether the call succeeded, and the value stored through `out`
(`none` when nothing is stored).  On failure the exception text goes to `ctx->errbuf` (a NULL
text prints as libc prints it) and the exception is cleared. -/
def exif__call_wasm (w : World) (func : Fn) : Bool × Option Int × World :=
  let nresults := wasm_func_get_result_count w
  let c := wasm_runtime_call_wasm_a w func []
  match c.1 with
  | .trap _ =>
    (false, none,
     wasm_runtime_clear_exception { c.2 with
       errbuf := snprintf_s 512 ((wasm_runtime_get_exception c.2).getD (ascii "(null)")) })
  | .ret v => (true, if nresults ≠ 0 then some v else none, c.2)

/-- Source `exif__err_result`. -/
def exif__err_result (w : World) (msg : CStr) (code : Int) : exif_result_t × World :=
  let len := strlen msg + 1
  let error := alloc_alloc w len
  ({ success := false, data := none, data_len := 0, error := filled error.1 msg,
     exit_code := code },
   error.2)

/-- Source `exif__ok_result`. -/
def exif__ok_result (data : Option Buf) (len : Nat) (code : Int) : exif_result_t :=
  { success := true, data := data, data_len := len, error := none, exit_code := code }

/-- Source `exif__read_stdout`: the buffer, `*out_len` and the state. -/
def exif__read_stdout (w : World) : Option Buf × Nat × World :=
  let size := (lseek_end w).1
  let w1 := (lseek_end w).2
  if size ≤ 0 then (none, 0, w1)
  else
    let buf := alloc_alloc (lseek_set w1) (size_t (size + 1))
    if buf.1 = 0 then (none, 0, buf.2)
    else
      let rd := read_stdout_fd buf.2 (size_t size)
      let n := rd.1
      let out_len := if n > 0 then n.toNat else 0
      (some ⟨buf.1, rd.2.1.take out_len⟩, out_len, rd.2.2)

/-- Code of the character '.'. -/
def char_dot : Nat := 46

/-- Source `exif__suffix_of`: what follows the last '.', NULL when there is none. -/
def exif__suffix_of : CStr → Option CStr
  | [] => none
  | c :: rest =>
    match exif__suffix_of rest with
    | some s => some s
    | none => if c = char_dot then some rest else none

/-- The `while (remaining > 0)` loop of `exif__write_tmpfile` on the descriptor of `path`:
whether every `write` succeeded, the answers of `write` left, and the files.  A `write`
returns at most what it was asked for. -/
def write_loop (path : CStr) : List Int → Bytes → List (CStr × Bytes) →
    Bool × List Int × List (CStr × Bytes)
  | plan, [], fs => (true, plan, fs)
  | [], b :: src, fs => (true, [], fs_append fs path (b :: src))
  | written :: plan, b :: src, fs =>
    if written < 0 then (false, plan, fs)
    else
      let n := min written.toNat (src.length + 1)
      write_loop path plan ((b :: src).drop n) (fs_append fs path ((b :: src).take n))

/-- The template `snprintf` builds from `stem` and the optional suffix. -/
def tmp_template (stem : CStr) (suffix : Option CStr) : CStr :=
  snprintf_s 256
    (stem ++ (match suffix with | some _ => ascii "." | none => [])
          ++ (match suffix with | some s => s | none => []))

/-- The `suffixlen` argument passed to `mkstemps`. -/
def tmp_suffixlen (suffix : Option CStr) : Nat :=
  match suffix with
  | some s => strlen s + 1
  | none => 0

/-- Source `exif__write_tmpfile`: the owned path, NULL on failure. -/
def exif__write_tmpfile (w : World) (data : Bytes) (suffix : Option CStr) : Option Buf × World :=
  let fd := mkstemps w (tmp_template (ascii "/tmp/libexif_XXXXXX") suffix) (tmp_suffixlen suffix)
  match fd.1 with
  | none => (none, fd.2)
  | some path_buf =>
    let wr := write_loop path_buf fd.2.write_plan data fd.2.files
    let w1 := { fd.2 with write_plan := wr.2.1, files := wr.2.2 }
    if wr.1 = false then (none, unlink w1 path_buf)
    else
      let path_len := strlen path_buf + 1
      let path := alloc_alloc w1 path_len
      (filled path.1 path_buf, path.2)

/-- Source `exif__read_file`: the buffer, `*out_len` (left as it was when the buffer is NULL)
and the state.  `fread` is asked for `(size_t)size` items and delivers at most what the file
holds; the bytes it delivers are taken as stored, whether or not the block has room for them. -/
def exif__read_file (w : World) (path : CStr) (out_len : Nat) : Option Buf × Nat × World :=
  let file := fopen w path
  match file.1 with
  | none => (none, out_len, file.2)
  | some content =>
    let size := ftell file.2 content.length
    let buf := alloc_alloc size.2 (size_t (size.1 + 1))
    if buf.1 = 0 then (none, out_len, buf.2)
    else
      let most := min (size_t size.1) content.length
      let n := min (buf.2.fread_plan.headD most) most
      (some ⟨buf.1, content.take n⟩, n, { buf.2 with fread_plan := buf.2.fread_plan.tail })

/-! ## `exif__run` -/

/-- Call `wasm_runtime_init_thread_env()`. -/
def wasm_runtime_init_thread_env (w : World) : Bool × World :=
  if w.init_thread_env_ok then (true, { w with thread_env := true }) else (false, w)

/-- Call `wasm_runtime_destroy_thread_env()`. -/
def wasm_runtime_destroy_thread_env (w : World) : World :=
  { w with thread_env := false }

/-- The locals of `exif__run` its cleanup reads: `wasm_ptrs[0 .. nargs)`, `argv_off` and
`script_off`; `nargs` is the length of `wasm_ptrs`. -/
structure RunLocals where
  wasm_ptrs : List Nat
  argv_off : Nat
  script_off : Nat
deriving DecidableEq, Repr

/-- One marshaling loop of `exif__run`:
`wasm_ptrs[nargs] = exif__wasm_alloc_string(ctx, s); if (!wasm_ptrs[nargs]) goto oom; nargs++`
for each `s`.  False stands for `goto oom`. -/
def marshal_strings (w : World) (wasm_ptrs : List Nat) : List CStr → Bool × List Nat × World
  | [] => (true, wasm_ptrs, w)
  | s :: rest =>
    let a := exif__wasm_alloc_string w s
    if a.1 = 0 then (false, wasm_ptrs, a.2)
    else marshal_strings a.2 (wasm_ptrs ++ [a.1]) rest

/-- The extra args of the options (`nopt_args` of them). -/
def opt_args (opts : Option exif_options_t) : List CStr :=
  match opts with
  | some o => o.args
  | none => []

/-- The `-config <path>` pair (`nconfig_args` is 2 or 0). -/
def config_args (opts : Option exif_options_t) : List CStr :=
  match opts with
  | some o =>
    match o.config_path with
    | some path => [ascii "-config", path]
    | none => []
  | none => []

/-- The write tags of the options (`ntag_args` of them). -/
def tag_args (opts : Option exif_options_t) : List CStr :=
  match opts with
  | some o => o.tags
  | none => []

/-- Source lines 230-239 of `exif__run`: the argument vector and the program path. -/
def exif__run_argv (w : World) (ctx : exif) (ptrs : List Nat) : Bool × RunLocals × World :=
  let m := wasm_runtime_module_malloc w (ptrs.length * 4)
  let argv_off := m.1
  if argv_off = 0 then (false, ⟨ptrs, 0, 0⟩, m.2)
  else
    let w1 := { m.2 with
      gmem := set_block m.2.gmem argv_off (.words (ptrs.map (fun p => p % 2 ^ 32))) }
    let s := exif__wasm_alloc_string w1 ctx.script_path
    let script_off := s.1
    if script_off = 0 then (false, ⟨ptrs, argv_off, 0⟩, s.2)
    else (true, ⟨ptrs, argv_off, script_off⟩, s.2)

/-- Marshaling part of `exif__run` (source lines 203-239): the four string sections, then
the argument vector and the program path.  False stands for `goto oom`. -/
def exif__run_marshal (w : World) (ctx : exif) (tail : List CStr)
    (opts : Option exif_options_t) : Bool × RunLocals × World :=
  let s1 := marshal_strings w [] (opt_args opts)
  if s1.1 = false then (false, ⟨s1.2.1, 0, 0⟩, s1.2.2)
  else
    let s2 := marshal_strings s1.2.2 s1.2.1 (config_args opts)
    if s2.1 = false then (false, ⟨s2.2.1, 0, 0⟩, s2.2.2)
    else
      let s3 := marshal_strings s2.2.2 s2.2.1 (tag_args opts)
      if s3.1 = false then (false, ⟨s3.2.1, 0, 0⟩, s3.2.2)
      else
        let s4 := marshal_strings s3.2.2 s3.2.1 tail
        if s4.1 = false then (false, ⟨s4.2.1, 0, 0⟩, s4.2.2)
        else exif__run_argv s4.2.2 ctx s4.2.1

/-- The `cleanup:` block of `exif__run` (source lines 291-297). -/
def exif__run_cleanup (w : World) (l : RunLocals) (thread_env_owned : Bool) : World :=
  let w1 := l.wasm_ptrs.foldl
    (fun w p => if p ≠ 0 then wasm_runtime_module_free w p else w) w
  let w2 := if l.argv_off ≠ 0 then wasm_runtime_module_free w1 l.argv_off else w1
  let w3 := if l.script_off ≠ 0 then wasm_runtime_module_free w2 l.script_off else w2
  if thread_env_owned then wasm_runtime_destroy_thread_env w3 else w3

/-- A non-NULL `const char *wasm_error`: it points to `ctx->errbuf` or into guest memory. -/
inductive ErrText
  | errbuf
  | guest (off : Nat)
deriving DecidableEq, Repr

/-- The text a non-NULL `wasm_error` points to, read in the current state. -/
def ErrText.deref (w : World) : ErrText → CStr
  | .errbuf => w.errbuf
  | .guest off => (wasm_runtime_addr_app_to_native w off).getD []

/-- Source lines 241-265 of `exif__run`: truncate and rewind the channel, invoke the run
entry point and classify the outcome: `exit_code`, `wasm_error` and the state. -/
def exif__run_call (w : World) (l : RunLocals) : Int × Option ErrText × World :=
  let w1 := lseek_set (ftruncate w)
  let call_args := [l.script_off % 2 ^ 32, l.wasm_ptrs.length, l.argv_off % 2 ^ 32]
  let c := wasm_runtime_call_wasm_a w1 .zeroperl_run_file call_args
  match c.1 with
  | .ret v => (v, none, c.2)
  | .trap _ =>
    match wasm_runtime_get_exception c.2 with
    | some exc =>
      if strstr exc (ascii "wasi proc exit") then
        (int32 c.2.wasi_exit_code, none, wasm_runtime_clear_exception c.2)
      else
        (-1, some .errbuf, wasm_runtime_clear_exception { c.2 with errbuf := snprintf_s 512 exc })
    | none =>
      (-1, some .errbuf,
       wasm_runtime_clear_exception { c.2 with errbuf := snprintf_s 512 (ascii "unknown") })

/-- Source lines 269-275 of `exif__run`: the last-error query, made when no error was
recorded. -/
def exif__run_last_error (w : World) (wasm_error : Option ErrText) : Option ErrText × World :=
  match wasm_error with
  | some e => (some e, w)
  | none =>
    let c := exif__call_wasm w .zeroperl_last_error
    let error_ptr : Int := c.2.1.getD 0
    match exif__wasm_read_cstring c.2.2 (uint32 error_ptr) with
    | some (_ :: _) => (some (.guest (uint32 error_ptr)), c.2.2)
    | _ => (none, c.2.2)

/-- Source lines 267-275 of `exif__run`: flush, then the last-error query. -/
def exif__run_query (w : World) (wasm_error : Option ErrText) : Option ErrText × World :=
  exif__run_last_error (exif__call_wasm w .zeroperl_flush).2.2 wasm_error

/-- Source lines 277-285 of `exif__run`: build the result. -/
def exif__run_result (w : World) (wasm_error : Option ErrText) (exit_code : Int) :
    exif_result_t × World :=
  match wasm_error with
  | some e => exif__err_result w (e.deref w) exit_code
  | none =>
    if exit_code ≠ 0 then exif__err_result w (ascii "exiftool exited with error") exit_code
    else
      let out := exif__read_stdout w
      (exif__ok_result out.1 out.2.1 exit_code, out.2.2)

/-- Source lines 241-286 of `exif__run`: from the invocation to the result. -/
def exif__run_invoke (w : World) (l : RunLocals) : exif_result_t × World :=
  let c := exif__run_call w l
  let q := exif__run_query c.2.2 c.2.1
  exif__run_result q.2 q.1 c.1

/-- Source lines 190-195 of `exif__run`: make sure the thread has an engine environment.
False stands for the early return. -/
def exif__run_thread_env (w : World) : Bool × World :=
  if !w.thread_env then wasm_runtime_init_thread_env w else (true, w)

/-- Source lines 177-239 and 288-289 of `exif__run`: everything before the run entry point
is invoked.  An error is the result of a call that ends early (with its cleanup done, as the
source does); otherwise the locals, `thread_env_owned` and the state at the invocation. -/
def exif__run_prepare (w : World) (ctx : exif) (tail : List CStr)
    (opts : Option exif_options_t) : Except (exif_result_t × World) (RunLocals × Bool × World) :=
  let env := exif__run_thread_env w
  if env.1 = false then
    .error (exif__err_result env.2 (ascii "failed to init WAMR thread env") (-1))
  else
    let thread_env_owned := !w.thread_env
    let reset := exif__call_wasm env.2 .zeroperl_reset
    let rc : Int := reset.2.1.getD w.indeterminate
    if reset.1 = false ∨ rc ≠ 0 then
      let e := exif__err_result reset.2.2 (ascii "zeroperl_reset failed") rc
      .error (e.1, exif__run_cleanup e.2 ⟨[], 0, 0⟩ thread_env_owned)
    else
      let m := exif__run_marshal reset.2.2 ctx tail opts
      if m.1 = false then
        let e := exif__err_result m.2.2 (ascii "WASM memory allocation failed") (-1)
        .error (e.1, exif__run_cleanup e.2 m.2.1 thread_env_owned)
      else .ok (m.2.1, thread_env_owned, m.2.2)

/-- Source `exif__run`. -/
def exif__run (w : World) (ctx : exif) (tail : List CStr) (opts : Option exif_options_t) :
    exif_result_t × World :=
  match exif__run_prepare w ctx tail opts with
  | .error early => early
  | .ok (l, thread_env_owned, w1) =>
    let r := exif__run_invoke w1 l
    (r.1, exif__run_cleanup r.2 l thread_env_owned)

/-! ## Public call surface -/

/-- Source `exif__read_defaults`. -/
def exif__read_defaults : List CStr :=
  [ascii "-json", ascii "-a", ascii "-s", ascii "-n", ascii "-G1", ascii "-b"]

/-- Source `exif__apply_transform`. -/
def exif__apply_transform (w : World) (result : exif_result_t) (opts : Option exif_options_t) :
    exif_result_t × World :=
  match opts with
  | none => (result, w)
  | some o =>
    match o.transform with
    | none => (result, w)
    | some transform =>
      if result.success = false then (result, w)
      else
        let transformed :=
          transform (result.data.map (fun b => b.bytes)) result.data_len o.transform_ctx
        let w1 := { w with hook_calls := w.hook_calls ++ [(addr_of result.data, result.data_len)] }
        let w2 := alloc_free w1 result.data
        ({ result with
            data := transformed
            data_len := match transformed with
              | some t => strlen t.bytes
              | none => 0 },
         w2)

/-- Source `exif_read`. -/
def exif_read (w : World) (ctx : exif) (path : CStr) (opts : Option exif_options_t) :
    exif_result_t × World :=
  let tail := exif__read_defaults ++ [path]
  let r := exif__run w ctx tail opts
  exif__apply_transform r.2 r.1 opts

/-- Source `exif_read_buf`. -/
def exif_read_buf (w : World) (ctx : exif) (input : exif_buf_t) (opts : Option exif_options_t) :
    exif_result_t × World :=
  let t := exif__write_tmpfile w input.data (exif__suffix_of input.filename)
  match t.1 with
  | none => exif__err_result t.2 (ascii "failed to write temp file") (-1)
  | some tmp_path =>
    let tail := exif__read_defaults ++ [tmp_path.bytes]
    let r := exif__run t.2 ctx tail opts
    let result := exif__apply_transform r.2 r.1 opts
    (result.1, alloc_free (unlink result.2 tmp_path.bytes) (some tmp_path))

/-- Source `exif_write`. -/
def exif_write (w : World) (ctx : exif) (in_path : CStr) (out_path : Option CStr)
    (opts : Option exif_options_t) : exif_result_t × World :=
  match out_path with
  | some out_path => exif__run w ctx [ascii "-o", out_path, in_path] opts
  | none => exif__run w ctx [ascii "-overwrite_original", in_path] opts

/-- Source lines 498-503 of `exif_write_buf`: on success the data becomes the bytes of the
output file. -/
def exif_write_buf_collect (w : World) (result : exif_result_t) (out_path : CStr) :
    exif_result_t × World :=
  if result.success then
    let f := exif__read_file (alloc_free w result.data) out_path result.data_len
    match f.1 with
    | none => exif__err_result f.2.2 (ascii "output file not produced") (-1)
    | some data => ({ result with data := some data, data_len := f.2.1 }, f.2.2)
  else (result, w)

/-- Source `exif_write_buf`. -/
def exif_write_buf (w : World) (ctx : exif) (input : exif_buf_t) (opts : Option exif_options_t) :
    exif_result_t × World :=
  let suffix := exif__suffix_of input.filename
  let t := exif__write_tmpfile w input.data suffix
  match t.1 with
  | none => exif__err_result t.2 (ascii "failed to write input temp file") (-1)
  | some in_path =>
    let fd := mkstemps t.2 (tmp_template (ascii "/tmp/libexif_out_XXXXXX") suffix)
      (tmp_suffixlen suffix)
    match fd.1 with
    | none =>
      let e := exif__err_result fd.2 (ascii "failed to create output temp") (-1)
      (e.1, alloc_free (unlink e.2 in_path.bytes) (some in_path))
    | some out_path =>
      let r := exif__run (unlink fd.2 out_path) ctx [ascii "-o", out_path, in_path.bytes] opts
      let result := exif_write_buf_collect r.2 r.1 out_path
      (result.1, alloc_free (unlink (unlink result.2 out_path) in_path.bytes) (some in_path))

/-! ## Context lifecycle (`exif_create`, `exif_destroy`)

The engine-level resources and the descriptor of the captured-output channel are not part of
the `World`; `exif_create` and `exif_destroy` run on a `Host`, which adds the answers of the
engine's constructors and the sequence of acquisitions and releases made so far.  The two
embedded resources (`resources/zeroperl.aot`, `resources/exiftool`) are parameters. -/

/-- Runtime configuration `exif_config_t`; a size of 0 selects the default.  The allocator it
names is the one whose behaviour the `World` carries. -/
structure exif_config_t where
  wasm_stack_size : Nat
  wasm_heap_size : Nat
  exec_stack_size : Nat
deriving DecidableEq, Repr

/-- Macro `DEFAULT_STACK`: `8u << 20`. -/
def DEFAULT_STACK : Nat := 8 * 2 ^ 20

/-- Macro `DEFAULT_HEAP`: `32u << 20`. -/
def DEFAULT_HEAP : Nat := 32 * 2 ^ 20

/-- Size of `struct exif` (`sizeof *ctx`) on an LP64 platform: fourteen pointer-sized slots
and the 512 bytes of `errbuf`. -/
def sizeof_exif : Nat := 14 * 8 + 512

/-- A successful call that acquires or releases a resource of the engine or a descriptor, or
that configures the module. -/
inductive Event
  | wasm_runtime_init
  | wasm_runtime_destroy
  | wasm_runtime_register_natives
  | wasm_runtime_load
  | wasm_runtime_unload
  | wasm_runtime_set_wasi_args_ex (stdout_fd : Int)
  | wasm_runtime_instantiate (stack_size heap_size : Nat)
  | wasm_runtime_deinstantiate
  | wasm_runtime_create_exec_env (stack_size : Nat)
  | wasm_runtime_destroy_exec_env
  | mkstemp (fd : Int)
  | close (fd : Int)
deriving DecidableEq, Repr

/-- The process around a context: the `World`, the calls made on the engine and on
descriptors so far, and what the engine's constructors answer. -/
structure Host where
  world : World
  /-- successful acquisitions, configurations and releases so far, in order -/
  events : List Event
  /-- what `wasm_runtime_init()` answers -/
  wasm_runtime_init_ok : Bool
  /-- what `wasm_runtime_register_natives` answers -/
  wasm_runtime_register_natives_ok : Bool
  /-- whether `wasm_runtime_load` returns a module -/
  wasm_runtime_load_ok : Bool
  /-- the descriptor a successful `mkstemp` returns: the lowest one free in the process -/
  free_fd : Nat
  /-- whether `wasm_runtime_instantiate` returns an instance -/
  wasm_runtime_instantiate_ok : Bool
  /-- whether `wasm_runtime_create_exec_env` returns an environment -/
  wasm_runtime_create_exec_env_ok : Bool
  /-- the functions `wasm_runtime_lookup_function` finds in the instance -/
  exports : List Fn
deriving DecidableEq, Repr

/-- The fields of `struct exif` that `exif_create` fills and `exif_destroy` tests.  A handle
of the engine is a `Bool`, true for non-NULL; `addr` is the address of the struct itself. -/
structure exif_handles where
  addr : Nat
  module : Bool
  inst : Bool
  env : Bool
  fn_reset : Bool
  fn_run_file : Bool
  fn_flush : Bool
  fn_last_error : Bool
  fn_free_interp : Bool
  wasm_buf : Option Buf
  stdout_fd : Int
  script_path : Option Buf
deriving DecidableEq, Repr

/-- Record a call on the engine or on a descriptor. -/
def Host.log (h : Host) (e : Event) : Host := { h with events := h.events ++ [e] }

/-- Continue in the state `w` of the collaborators. -/
def Host.on (h : Host) (w : World) : Host := { h with world := w }

/-- Call `wasm_runtime_lookup_function(ctx->inst, name)`: whether a function is found. -/
def wasm_runtime_lookup_function (h : Host) (fn : Fn) : Bool := decide (fn ∈ h.exports)

/-- Source `exif_destroy`. -/
def exif_destroy (h : Host) (ctx : Option exif_handles) : Host :=
  match ctx with
  | none => h
  | some c =>
    let h1 := if c.fn_free_interp && c.env then
        h.on (exif__call_wasm h.world .zeroperl_free_interpreter).2.2
      else h
    let h2 := if c.env then h1.log .wasm_runtime_destroy_exec_env else h1
    let h3 := if c.inst then h2.log .wasm_runtime_deinstantiate else h2
    let h4 := if c.module then h3.log .wasm_runtime_unload else h3
    let h5 := match c.wasm_buf with
      | some b => h4.on (alloc_free h4.world (some b))
      | none => h4
    let h6 := h5.log .wasm_runtime_destroy
    let h7 := if c.stdout_fd > 0 then h6.log (.close c.stdout_fd) else h6
    let h8 := match c.script_path with
      | some p => h7.on (alloc_free (unlink h7.world p.bytes) (some p))
      | none => h7
    h8.on (alloc_free h8.world (some ⟨c.addr, []⟩))

/-- Label `fail_runtime` of `exif_create`. -/
def fail_runtime (h : Host) : Option exif_handles × Host :=
  (none, h.log .wasm_runtime_destroy)

/-- Label `fail_buf` of `exif_create`. -/
def fail_buf (h : Host) (wasm_buf : Buf) : Option exif_handles × Host :=
  fail_runtime (h.on (alloc_free h.world (some wasm_buf)))

/-- Label `fail_module` of `exif_create`. -/
def fail_module (h : Host) (wasm_buf : Buf) : Option exif_handles × Host :=
  fail_buf (h.log .wasm_runtime_unload) wasm_buf

/-- Label `fail_ctx` of `exif_create`. -/
def fail_ctx (h : Host) (ctx : exif_handles) : Option exif_handles × Host :=
  (none, exif_destroy h (some ctx))

/-- Source lines 342-377 of `exif_create`: the scratch file of the captured-output channel,
the instance, the execution environment, the entry points and the interpreter's init. -/
def exif_create_instance (h : Host) (ctx : exif_handles)
    (wasm_stack wasm_heap exec_stack : Nat) : Option exif_handles × Host :=
  let m := mkstemps h.world (ascii "/tmp/libexif_stdout_XXXXXX") 0
  match m.1 with
  | none => fail_ctx (h.on m.2) { ctx with stdout_fd := -1 }
  | some stdout_tmpl =>
    let ctx1 := { ctx with stdout_fd := (h.free_fd : Int) }
    let h1 := (h.on (unlink m.2 stdout_tmpl)).log (.mkstemp ctx1.stdout_fd)
    let h2 := h1.log (.wasm_runtime_set_wasi_args_ex ctx1.stdout_fd)
    if h2.wasm_runtime_instantiate_ok = false then fail_ctx h2 ctx1
    else
      let ctx2 := { ctx1 with inst := true }
      let h3 := h2.log (.wasm_runtime_instantiate wasm_stack wasm_heap)
      if h3.wasm_runtime_create_exec_env_ok = false then fail_ctx h3 ctx2
      else
        let h4 := h3.log (.wasm_runtime_create_exec_env exec_stack)
        let ctx3 := { ctx2 with
          env := true
          fn_reset := wasm_runtime_lookup_function h4 .zeroperl_reset
          fn_run_file := wasm_runtime_lookup_function h4 .zeroperl_run_file
          fn_flush := wasm_runtime_lookup_function h4 .zeroperl_flush
          fn_last_error := wasm_runtime_lookup_function h4 .zeroperl_last_error
          fn_free_interp := wasm_runtime_lookup_function h4 .zeroperl_free_interpreter }
        let fn_init := wasm_runtime_lookup_function h4 .zeroperl_init
        if fn_init = false ∨ ctx3.fn_reset = false ∨ ctx3.fn_run_file = false
            ∨ ctx3.fn_flush = false then
          fail_ctx h4 ctx3
        else
          let c := exif__call_wasm h4.world .zeroperl_init
          let rc : Int := c.2.1.getD h4.world.indeterminate
          if c.1 = false ∨ rc ≠ 0 then fail_ctx (h4.on c.2.2) ctx3
          else (some ctx3, h4.on c.2.2)

/-- Source lines 315-340 of `exif_create`, for the embedded module image `zeroperl_aot` and
the embedded program text `exiftool_script`: the engine, the module and the context with its
script temp file.  An error is the state in which `exif_create` returns NULL (with the unwinding
done, as the source does); otherwise the context so far and the state. -/
def exif_create_context (h : Host) (zeroperl_aot exiftool_script : Bytes) :
    Except Host (exif_handles × Host) :=
  if h.wasm_runtime_init_ok = false then .error h
  else
    let h1 := h.log .wasm_runtime_init
    if h1.wasm_runtime_register_natives_ok = false then .error (fail_runtime h1).2
    else
      let h2 := h1.log .wasm_runtime_register_natives
      let b := alloc_alloc h2.world zeroperl_aot.length
      let h3 := h2.on b.2
      match filled b.1 zeroperl_aot with
      | none => .error (fail_runtime h3).2
      | some wasm_buf =>
        if h3.wasm_runtime_load_ok = false then .error (fail_buf h3 wasm_buf).2
        else
          let h4 := h3.log .wasm_runtime_load
          let c := alloc_alloc h4.world sizeof_exif
          let h5 := h4.on c.2
          if c.1 = 0 then .error (fail_module h5 wasm_buf).2
          else
            let ctx : exif_handles :=
              { addr := c.1, module := true, inst := false, env := false, fn_reset := false,
                fn_run_file := false, fn_flush := false, fn_last_error := false,
                fn_free_interp := false, wasm_buf := some wasm_buf, stdout_fd := 0,
                script_path := none }
            let t := exif__write_tmpfile h5.world exiftool_script none
            let h6 := h5.on t.2
            match t.1 with
            | none => .error (fail_ctx h6 ctx).2
            | some script_path => .ok ({ ctx with script_path := some script_path }, h6)

/-- Source `exif_create`: the context, NULL on failure. -/
def exif_create (h : Host) (zeroperl_aot exiftool_script : Bytes) (cfg : Option exif_config_t) :
    Option exif_handles × Host :=
  let wasm_stack := match cfg with
    | some c => if c.wasm_stack_size ≠ 0 then c.wasm_stack_size else DEFAULT_STACK
    | none => DEFAULT_STACK
  let wasm_heap := match cfg with
    | some c => if c.wasm_heap_size ≠ 0 then c.wasm_heap_size else DEFAULT_HEAP
    | none => DEFAULT_HEAP
  let exec_stack := match cfg with
    | some c => if c.exec_stack_size ≠ 0 then c.exec_stack_size else DEFAULT_STACK
    | none => DEFAULT_STACK
  match exif_create_context h zeroperl_aot exiftool_script with
  | .error unwound => (none, unwound)
  | .ok (ctx, h6) => exif_create_instance h6 ctx wasm_stack wasm_heap exec_stack

/-! ## Definitions used to state and prove the properties -/

/-- The part of the state that belongs to the host-made guest allocations. -/
def gheap (w : World) : List (Nat × GBlock) × List Nat × List Nat × List Nat :=
  (w.gmem, w.malloc_plan, w.malloc_log, w.gfree_log)

/-- The offsets of a list of blocks. -/
def keys (g : List (Nat × GBlock)) : List Nat := g.map Prod.fst

/-- The engine never hands out an offset that is live or that it hands out again. -/
def allocator_fresh (w : World) : Prop :=
  (keys w.gmem ++ w.malloc_plan.filter (fun a => a ≠ 0)).Nodup

instance (w : World) : Decidable (allocator_fresh w) := by
  unfold allocator_fresh; infer_instance

/-- State `w1` is `w` after the guest allocations `blocks` were made, in that order, and
nothing else happened. -/
def Grew (w w1 : World) (blocks : List (Nat × GBlock)) : Prop :=
  w1 = { w with malloc_plan := w1.malloc_plan
                gmem := w.gmem ++ blocks
                malloc_log := w.malloc_log ++ keys blocks } ∧
  ∃ used, w.malloc_plan = used ++ w1.malloc_plan ∧ used.filter (fun a => a ≠ 0) = keys blocks

/-- The block an allocation of a string leaves behind: none when it failed. -/
def string_block (off : Nat) (s : CStr) : List (Nat × GBlock) :=
  if off = 0 then [] else [(off, .bytes (s ++ [0]))]

/-- The blocks a marshaling loop leaves behind. -/
def str_blocks (offs : List Nat) (strs : List CStr) : List (Nat × GBlock) :=
  List.zipWith (fun a s => (a, GBlock.bytes (s ++ [0]))) offs strs

/-- The blocks the argument vector and the program path leave behind. -/
def argv_blocks (l : RunLocals) (ctx : exif) : List (Nat × GBlock) :=
  (if l.argv_off = 0 then []
   else [(l.argv_off, GBlock.words (l.wasm_ptrs.map (fun p => p % 2 ^ 32)))])
  ++ string_block l.script_off ctx.script_path

/-- The strings `exif__run` marshals, in the order of its four sections. -/
def marshaled (opts : Option exif_options_t) (tail : List CStr) : List CStr :=
  opt_args opts ++ config_args opts ++ tag_args opts ++ tail

/-- The guarded release the cleanup applies to each recorded offset. -/
def free_guarded (w : World) (p : Nat) : World :=
  if p ≠ 0 then wasm_runtime_module_free w p else w

/-- The blocks a call of `exif__run` holds when its locals are `l`. -/
def call_blocks (l : RunLocals) (ctx : exif) (strs : List CStr) : List (Nat × GBlock) :=
  str_blocks l.wasm_ptrs strs ++ argv_blocks l ctx

/-- The record of the run entry point's invocation made from state `w` with locals `l`. -/
def run_record (w : World) (l : RunLocals) : CallRec :=
  ⟨.zeroperl_run_file, [l.script_off % 2 ^ 32, l.wasm_ptrs.length, l.argv_off % 2 ^ 32], w.gmem⟩

/-- The last-error invocation, made exactly when no error was recorded. -/
def last_error_record (w : World) (e : Option ErrText) : List CallRec :=
  match e with
  | some _ => []
  | none => [⟨.zeroperl_last_error, [], w.gmem⟩]

/-- The state in which `exif__run` starts marshaling. -/
def reset_state (w : World) : World :=
  (exif__call_wasm (exif__run_thread_env w).2 .zeroperl_reset).2.2

/-- The argument list as the specification words it: the extra args, the `-config` pair when
a config path is set, the tags, then the positional tail; only the tail without options. -/
def claimed_arguments (opts : Option exif_options_t) (tail : List CStr) : List CStr :=
  match opts with
  | none => tail
  | some o =>
    o.args ++ (match o.config_path with
      | some path => [ascii "-config", path]
      | none => []) ++ o.tags ++ tail
/-- The argument count as the specification words it: `argc`, plus 2 when a config path is
set, plus `ntags`, plus `ntail`; `ntail` alone without options. -/
def claimed_count (opts : Option exif_options_t) (ntail : Nat) : Nat :=
  match opts with
  | none => ntail
  | some o => o.args.length + (if o.config_path.isSome then 2 else 0) + o.tags.length + ntail

/-- What a call of `exif__run` from state `before` to state `after` handed to the guest:
after the reset, the run entry point was invoked with the address of the program path,
`argc = strs.length`, and the address of an argument vector whose `i`-th entry is the address
of a NUL-terminated copy of the `i`-th string of `strs`. -/
def GuestRan (before after : World) (script : CStr) (strs : List CStr) : Prop :=
  ∃ (script_off argv_off : Nat) (mem : List (Nat × GBlock)) (later : List CallRec)
    (argv : List Nat),
    after.calls = before.calls ++ ⟨.zeroperl_reset, [], before.gmem⟩
      :: ⟨.zeroperl_run_file, [script_off, strs.length, argv_off], mem⟩ :: later ∧
    block_at mem script_off = some (.bytes (script ++ [0])) ∧
    block_at mem argv_off = some (.words argv) ∧
    argv.map (block_at mem) = strs.map (fun s => some (.bytes (s ++ [0])))

/-- Every offset the engine hands out is a wasm32 address. -/
def wasm32_addresses (w : World) : Prop := ∀ a ∈ w.malloc_plan, a < 2 ^ 32

instance (w : World) : Decidable (wasm32_addresses w) := by
  unfold wasm32_addresses; infer_instance

/-- The exit code `exif__run` holds once the run entry point returned or trapped
(source line 265), for a call that reached it in state `w` with locals `l`. -/
def run_exit_code (w : World) (l : RunLocals) : Int := (exif__run_call w l).1

/-- The error recorded for a trapped exception (`wasm_error` at source line 265). -/
def run_trapped (w : World) (l : RunLocals) : Option ErrText := (exif__run_call w l).2.1

/-- The error after the last-error query (`wasm_error` at source line 276). -/
def run_error (w : World) (l : RunLocals) : Option ErrText :=
  (exif__run_query (exif__run_call w l).2.2 (exif__run_call w l).2.1).1

/-- The state in which the result is built (source line 277). -/
def run_state (w : World) (l : RunLocals) : World :=
  (exif__run_query (exif__run_call w l).2.2 (exif__run_call w l).2.1).2

/-- The failure Result built in state `w` from a text and a code: the error field holds a
copy of the text, in the buffer the allocator returned for it (NULL if it returned NULL). -/
def failure (w : World) (text : CStr) (code : Int) : exif_result_t :=
  { success := false, data := none, data_len := 0,
    error := filled (alloc_alloc w (strlen text + 1)).1 text, exit_code := code }

/-- The success Result built in state `w`: the data is what `exif__read_stdout` reads back
from the captured-output channel. -/
def captured (w : World) : exif_result_t :=
  { success := true, data := (exif__read_stdout w).1, data_len := (exif__read_stdout w).2.1,
    error := none, exit_code := 0 }

/-- The state after the flush entry point was invoked (source line 267). -/
def flushed (w : World) (l : RunLocals) : World :=
  (exif__call_wasm (exif__run_call w l).2.2 .zeroperl_flush).2.2

/-- The last-error invocation `exif__run` makes when no error was recorded (source line 271):
whether it succeeded, the value stored in `error_ptr`, and the state after it. -/
def last_error_call (w : World) (l : RunLocals) : Bool × Option Int × World :=
  exif__call_wasm (flushed w l) .zeroperl_last_error

/-- The next `k` guest allocations succeed: the engine has `k` more offsets to hand out and
none of them is 0. -/
def allocations_succeed (w : World) (k : Nat) : Prop :=
  k ≤ w.malloc_plan.length ∧ ∀ a ∈ w.malloc_plan.take k, a ≠ 0

instance (w : World) (k : Nat) : Decidable (allocations_succeed w k) := by
  unfold allocations_succeed; infer_instance

/-- The reset entry point is invoked successfully and returns 0. -/
def reset_succeeds (w : World) : Prop :=
  (exif__call_wasm (exif__run_thread_env w).2 .zeroperl_reset).1 = true ∧
  (exif__call_wasm (exif__run_thread_env w).2 .zeroperl_reset).2.1.getD w.indeterminate = 0

instance (w : World) : Decidable (reset_succeeds w) := by
  unfold reset_succeeds; infer_instance

/-- State `w1` differs from `w` at most in the guest heap and in the thread's engine
environment. -/
def heap_only (w w1 : World) : Prop :=
  w1 = { w with gmem := w1.gmem, malloc_plan := w1.malloc_plan, malloc_log := w1.malloc_log,
                gfree_log := w1.gfree_log, thread_env := w1.thread_env }

/-- The extension a temp path gets for a suffix: a dot and the suffix, nothing for NULL. -/
def extension_of (suffix : Option CStr) : CStr :=
  match suffix with
  | some s => char_dot :: s
  | none => []

/-- The `mkstemps` call of `exif_write_buf` for the output (source line 487): the path it
named, `none` when it failed, and the state after it. -/
def output_created (w : World) (input : exif_buf_t) : Option CStr × World :=
  mkstemps (exif__write_tmpfile w input.data (exif__suffix_of input.filename)).2
    (tmp_template (ascii "/tmp/libexif_out_XXXXXX") (exif__suffix_of input.filename))
    (tmp_suffixlen (exif__suffix_of input.filename))

/-- The guest run of `exif_write_buf` (source line 496), once the input was spilled to
`in_path` and the output path `out_path` was named and unlinked: its Result and the state
after it. -/
def guest_write (w : World) (ctx : exif) (input : exif_buf_t) (opts : Option exif_options_t)
    (in_path : Buf) (out_path : CStr) : exif_result_t × World :=
  exif__run (unlink (output_created w input).2 out_path) ctx
    [ascii "-o", out_path, in_path.bytes] opts

/-- The read-back of the output file by `exif_write_buf` (source lines 499-500), after the
captured output was released. -/
def output_read (w : World) (ctx : exif) (input : exif_buf_t) (opts : Option exif_options_t)
    (in_path : Buf) (out_path : CStr) : Option Buf × Nat × World :=
  exif__read_file
    (alloc_free (guest_write w ctx input opts in_path out_path).2
      (guest_write w ctx input opts in_path out_path).1.data)
    out_path (guest_write w ctx input opts in_path out_path).1.data_len

/-- The bytes the guest writes to the captured-output channel during a call that reached the
run entry point in state `w`: what the run entry point writes, then the flush, then the
last-error query when it is made. -/
def written_during (w : World) (l : RunLocals) : Bytes :=
  (w.guest_plan.headD default_step).output
    ++ (w.guest_plan.tail.headD default_step).output
    ++ (match run_trapped w l with
        | none => (w.guest_plan.tail.tail.headD default_step).output
        | some _ => [])

/-- The `lseek` call made to the end of a channel of `len` bytes in state `w` reports
`len`. -/
def lseek_reports (w : World) (len : Nat) : Prop :=
  w.lseek_plan.headD true = true ∧ len < 2 ^ 63

instance (w : World) (len : Nat) : Decidable (lseek_reports w len) := by
  unfold lseek_reports; infer_instance

/-- Reading the channel back works in state `w`: `lseek` reports its size, the allocator
returns a buffer and `read` delivers all the bytes asked for. -/
def reads_back (w : World) : Prop :=
  lseek_reports w w.stdout.length ∧ w.alloc_plan.headD 0 ≠ 0 ∧
  (w.stdout.length : Int) ≤ w.read_plan.headD (w.stdout.length : Int)

instance (w : World) : Decidable (reads_back w) := by
  unfold reads_back; infer_instance

/-- The bytes and the length a Result carries as data. -/
def content (r : exif_result_t) : Option Bytes × Nat := (r.data.map (fun b => b.bytes), r.data_len)

/-- What `exif_create` acquires besides memory and files. -/
inductive Resource
  | runtime
  | module
  | module_inst
  | exec_env
  | descriptor (fd : Int)
deriving DecidableEq, Repr

/-- The resource a call acquires. -/
def Event.acquires : Event → Option Resource
  | .wasm_runtime_init => some .runtime
  | .wasm_runtime_load => some .module
  | .wasm_runtime_instantiate _ _ => some .module_inst
  | .wasm_runtime_create_exec_env _ => some .exec_env
  | .mkstemp fd => some (.descriptor fd)
  | _ => none

/-- The resource a call releases. -/
def Event.releases : Event → Option Resource
  | .wasm_runtime_destroy => some .runtime
  | .wasm_runtime_unload => some .module
  | .wasm_runtime_deinstantiate => some .module_inst
  | .wasm_runtime_destroy_exec_env => some .exec_env
  | .close fd => some (.descriptor fd)
  | _ => none

/-- The resources held after a sequence of calls, starting from `held`; `none` when a call
releases a resource that is not held (a double release). -/
def held_after : List Resource → List Event → Option (List Resource)
  | held, [] => some held
  | held, e :: rest =>
    match e.releases with
    | some r => if r ∈ held then held_after (held.erase r) rest else none
    | none =>
      match e.acquires with
      | some r => held_after (r :: held) rest
      | none => held_after held rest

/-- The calls made on the engine and on descriptors between two states of the process. -/
def new_events (before after : Host) : List Event := after.events.drop before.events.length

/-- The non-NULL addresses the allocator returned between two states. -/
def handed_out (before after : World) : List Nat :=
  (before.alloc_plan.take (before.alloc_plan.length - after.alloc_plan.length)).filter
    (fun a => a ≠ 0)

/-- The addresses passed to the allocator's free between two states. -/
def freed (before after : World) : List Nat := after.free_log.drop before.free_log.length

/-- The releases `exif_destroy` makes on the engine and on the descriptor for a context, in
order. -/
def destroy_events (c : exif_handles) : List Event :=
  (if c.env then [.wasm_runtime_destroy_exec_env] else [])
    ++ (if c.inst then [.wasm_runtime_deinstantiate] else [])
    ++ (if c.module then [.wasm_runtime_unload] else [])
    ++ [.wasm_runtime_destroy]
    ++ (if c.stdout_fd > 0 then [.close c.stdout_fd] else [])

/-- The addresses `exif_destroy` passes to the allocator's free for a context, in order. -/
def destroy_frees (c : exif_handles) : List Nat :=
  (match c.wasm_buf with | some b => [b.addr] | none => [])
    ++ (match c.script_path with | some p => [p.addr] | none => [])
    ++ [c.addr]

/-- Between the states `w` and `u` the allocator returned, besides NULLs, exactly the
addresses that were passed to its free since and those in `live`. -/
def ledger (w u : World) (live : List Nat) : Prop :=
  ∃ used fr, w.alloc_plan = used ++ u.alloc_plan ∧ u.free_log = w.free_log ++ fr ∧
    (fr ++ live).Perm (used.filter (fun a => a ≠ 0))

/-- Between the states `w` and `u` every call of the allocator's alloc was made with a size
of at least 1: the log of sizes grew by non-zero sizes only. -/
def allocs_ok (w u : World) : Prop :=
  u.alloc_log.take w.alloc_log.length = w.alloc_log ∧
  ∀ s ∈ u.alloc_log.drop w.alloc_log.length, 1 ≤ s

instance (w u : World) : Decidable (allocs_ok w u) := by
  unfold allocs_ok; infer_instance

/-- The `fopen` call made in state `w` opens the file when there is one. -/
def fopen_opens (w : World) : Prop := w.fopen_plan.headD true = true

instance (w : World) : Decidable (fopen_opens w) := by
  unfold fopen_opens; infer_instance

/-- The `ftell` call made in state `w` on a file of `len` bytes reports `len`. -/
def ftell_reports (w : World) (len : Nat) : Prop :=
  w.ftell_plan.headD true = true ∧ len < 2 ^ 63

instance (w : World) (len : Nat) : Decidable (ftell_reports w len) := by
  unfold ftell_reports; infer_instance

/-- State `u` has the allocator, the answers of `read` and `lseek` and the record of hook
calls of `w`: nothing was allocated, freed, read from the channel or passed to a hook in
between. -/
def host_kept (w u : World) : Prop :=
  u.alloc_plan = w.alloc_plan ∧ u.alloc_log = w.alloc_log ∧ u.free_log = w.free_log ∧
  u.hook_calls = w.hook_calls ∧ u.read_plan = w.read_plan ∧ u.lseek_plan = w.lseek_plan

/-- Between the states `w` and `u` the allocator's alloc was called exactly `k` times. -/
def alloc_calls (w u : World) (k : Nat) : Prop :=
  u.alloc_plan = w.alloc_plan.drop k ∧ u.alloc_log.length = w.alloc_log.length + k

/-- What the allocator returned to the last call of alloc made between the states `w` and
`u` (0 for NULL). -/
def last_answer (w u : World) : Nat :=
  w.alloc_plan.getD (u.alloc_log.length - w.alloc_log.length - 1) 0

/-- The shape of the Result `r` of an operation that took the state from `w` to `u`: a
success has no error; a failure has no data, and its error is NULL exactly when the allocator
returned NULL to the last alloc call of the operation (the one made for the error text). -/
def result_shape (w u : World) (r : exif_result_t) : Prop :=
  (r.success = true → r.error = none) ∧
  (r.success = false →
    r.data = none ∧ r.data_len = 0 ∧ (r.error = none ↔ last_answer w u = 0))

/-- The guest run of `exif_read_buf` (source line 454), once the input was spilled to
`tmp_path`: its Result and the state after it. -/
def guest_read (w : World) (ctx : exif) (input : exif_buf_t) (opts : Option exif_options_t)
    (tmp_path : Buf) : exif_result_t × World :=
  exif__run (exif__write_tmpfile w input.data (exif__suffix_of input.filename)).2 ctx
    (exif__read_defaults ++ [tmp_path.bytes]) opts

/-! ## Concrete scenarios -/

/-- A state in which every collaborator works: the thread has an engine environment, the
allocators have memory, and every guest function returns 0 without output. -/
def calm : World :=
  { alloc_plan := [4096, 8192, 12288], alloc_log := [], free_log := [], files := [],
    mkstemps_plan := [], write_plan := [], fread_plan := [], stdout := [], stdout_pos := 0,
    read_plan := [], thread_env := true, init_thread_env_ok := true, exception := none,
    wasi_exit_code := 0, gmem := [], malloc_plan := [64, 128, 192, 256], malloc_log := [],
    gfree_log := [], guest_strings := [], guest_plan := [], calls := [], errbuf := [],
    indeterminate := 32767, hook_calls := [] }

/-- A context whose program text was spilled to `/tmp/x`. -/
def demo_ctx : exif := ⟨ascii "/tmp/x"⟩

/-- The locals of a call on `calm` with the single argument `a.jpg` at the run entry point. -/
def demo_locals : RunLocals := ⟨[64], 128, 192⟩

/-- The guest memory of that call at the run entry point. -/
def demo_mem : List (Nat × GBlock) :=
  [(64, .bytes (ascii "a.jpg" ++ [0])), (128, .words [64]), (192, .bytes (ascii "/tmp/x" ++ [0]))]

/-- The run entry point traps (not an exit) and the flush that follows traps as well. -/
def trap_then_flush_trap : World :=
  { calm with
    guest_plan :=
      [default_step,
       { default_step with outcome := .trap (some (ascii "Exception: unreachable")) },
       { default_step with
         outcome := .trap (some (ascii "Exception: out of bounds memory access")) }] }

/-- The invocation of the reset entry point itself fails. -/
def reset_traps : World :=
  { calm with
    guest_plan := [{ default_step with outcome := .trap (some (ascii "Exception: unreachable")) }] }

/-- The guest ends with the WASI process-exit signal and status 3. -/
def exits_with_3 : World :=
  { calm with
    guest_plan :=
      [default_step,
       { default_step with
         outcome := .trap (some (ascii "Exception: wasi proc exit")), wasi_exit_code := 3 }] }

/-- The guest returns 1 and leaves the message `boom` at address 700 for its last-error
accessor to return. -/
def reports_boom : World :=
  { calm with
    guest_plan :=
      [default_step,
       { default_step with outcome := .ret 1, strings := [(700, ascii "boom")] },
       default_step,
       { default_step with outcome := .ret 700 }] }

/-- A hook that returns the two bytes `ok` at address 900 whatever it is given. -/
def demo_hook : exif_transform_fn := fun _ _ _ => some ⟨900, ascii "ok"⟩

/-- Options that carry `demo_hook` and nothing else. -/
def demo_hook_opts : exif_options_t :=
  { args := [], config_path := none, tags := [], transform := some demo_hook, transform_ctx := 0 }

/-- The state in which a call started in `w` reaches the run entry point when the reset
succeeded and the marshaling left the blocks `mem` (allocated in the order of `mem`), with
`left` the offsets the engine has still to hand out. -/
def at_entry (w : World) (mem : List (Nat × GBlock)) (left : List Nat) : World :=
  { w with
    guest_plan := w.guest_plan.tail
    calls := w.calls ++ [⟨.zeroperl_reset, [], w.gmem⟩]
    gmem := w.gmem ++ mem
    malloc_plan := left
    malloc_log := w.malloc_log ++ mem.map Prod.fst }

/-- The engine runs out of guest memory at the second allocation. -/
def short_of_memory : World := { calm with malloc_plan := [64, 0] }

/-- As `calm`, with room for the nine allocations of a read and a name for one temp file. -/
def roomy : World :=
  { calm with
    malloc_plan := [64, 128, 192, 256, 320, 384, 448, 512, 576, 640]
    mkstemps_plan := [some (ascii "abcdef")] }

/-- The locals of a read on `roomy` at the run entry point. -/
def read_locals : RunLocals := ⟨[64, 128, 192, 256, 320, 384, 448], 512, 576⟩

/-- The guest memory of a read of `path` on `roomy` at the run entry point. -/
def read_mem (path : CStr) : List (Nat × GBlock) :=
  [(64, .bytes (ascii "-json" ++ [0])), (128, .bytes (ascii "-a" ++ [0])),
   (192, .bytes (ascii "-s" ++ [0])), (256, .bytes (ascii "-n" ++ [0])),
   (320, .bytes (ascii "-G1" ++ [0])), (384, .bytes (ascii "-b" ++ [0])),
   (448, .bytes (path ++ [0])), (512, .words [64, 128, 192, 256, 320, 384, 448]),
   (576, .bytes (ascii "/tmp/x" ++ [0]))]

/-- A named buffer of three bytes. -/
def demo_input : exif_buf_t := ⟨[255, 216, 255], ascii "photo.jpg"⟩

/-- The owned path of the temp file `exif_read_buf` spills `demo_input` to on `roomy`. -/
def demo_tmp_path : Buf := ⟨4096, ascii "/tmp/libexif_abcdef.jpg"⟩

/-- The state of `roomy` after `demo_input` was spilled. -/
def roomy_spilled : World :=
  { roomy with
    alloc_plan := [8192, 12288]
    alloc_log := [24]
    mkstemps_plan := []
    files := [(ascii "/tmp/libexif_abcdef.jpg", [255, 216, 255])] }

/-- A successful Result holding the two bytes of an empty JSON object. -/
def demo_result : exif_result_t := exif__ok_result (some ⟨4096, ascii "{}"⟩) 2 0

/-- The locals of a write to a new location on `roomy` at the run entry point. -/
def write_locals : RunLocals := ⟨[64, 128, 192], 256, 320⟩

/-- The guest memory of a write of `in_path` to `out_path` on `roomy` at the run entry point. -/
def write_mem (out_path in_path : CStr) : List (Nat × GBlock) :=
  [(64, .bytes (ascii "-o" ++ [0])), (128, .bytes (out_path ++ [0])),
   (192, .bytes (in_path ++ [0])), (256, .words [64, 128, 192]),
   (320, .bytes (ascii "/tmp/x" ++ [0]))]

/-- The locals of a write in place on `roomy` at the run entry point. -/
def overwrite_locals : RunLocals := ⟨[64, 128], 192, 256⟩

/-- The guest memory of a write in place of `in_path` on `roomy` at the run entry point. -/
def overwrite_mem (in_path : CStr) : List (Nat × GBlock) :=
  [(64, .bytes (ascii "-overwrite_original" ++ [0])), (128, .bytes (in_path ++ [0])),
   (192, .words [64, 128]), (256, .bytes (ascii "/tmp/x" ++ [0]))]

/-- As `roomy`, with an allocator that returns NULL once and then has memory again. -/
def no_path_memory : World := { roomy with alloc_plan := [0, 4096] }

/-- As `roomy`, with names for two temp files and a guest that, when run, prints a line and
writes four bytes to the output path. -/
def guest_writes_output : World :=
  { roomy with
    mkstemps_plan := [some (ascii "abcdef"), some (ascii "ghijkl")]
    guest_plan :=
      [default_step,
       { default_step with
         output := ascii "    1 image files created\n"
         files := [(ascii "/tmp/libexif_out_ghijkl.jpg", some [255, 216, 0, 217])] }] }

/-- The run entry point traps with "Exception: unreachable"; the flush and the last-error
query that follow return. -/
def run_traps : World :=
  { calm with
    guest_plan :=
      [default_step,
       { default_step with outcome := .trap (some (ascii "Exception: unreachable")) }] }

/-- The guest prints `{}` in each of two calls; the channel still holds the output of an
earlier call. -/
def prints_twice : World :=
  { calm with
    stdout := ascii "earlier output"
    stdout_pos := 14
    malloc_plan := [64, 128, 192, 256, 320, 384]
    guest_plan :=
      [default_step, { default_step with output := ascii "{}" }, default_step, default_step,
       default_step, { default_step with output := ascii "{}" }] }

/-- A process in which every step of `exif_create` works; 3 is the lowest free descriptor. -/
def sound_host : Host :=
  { world := { calm with mkstemps_plan := [some (ascii "abcdef"), some (ascii "ghijkl")] }
    events := []
    wasm_runtime_init_ok := true
    wasm_runtime_register_natives_ok := true
    wasm_runtime_load_ok := true
    free_fd := 3
    wasm_runtime_instantiate_ok := true
    wasm_runtime_create_exec_env_ok := true
    exports := [.zeroperl_init, .zeroperl_reset, .zeroperl_run_file, .zeroperl_flush,
      .zeroperl_last_error, .zeroperl_free_interpreter] }

/-- As `sound_host`, with an allocator that has memory for the module image and for the
context and then returns NULL. -/
def no_room_for_path : Host :=
  { sound_host with world := { sound_host.world with alloc_plan := [4096, 8192, 0] } }

/-- As `sound_host`, in a process whose descriptor 0 is free and whose engine cannot
instantiate the module. -/
def stdin_closed : Host :=
  { sound_host with free_fd := 0, wasm_runtime_instantiate_ok := false }

/-- As `sound_host`, with an engine that cannot instantiate the module. -/
def no_instance : Host := { sound_host with wasm_runtime_instantiate_ok := false }

/-- A four-byte module image. -/
def demo_aot : Bytes := [0, 97, 111, 116]

/-- A one-line program text. -/
def demo_script : Bytes := ascii "#!/usr/bin/perl"

/-- As `calm`, with an allocator that returns NULL and a guest whose run entry point
returns 1. -/
def fails_without_memory : World :=
  { calm with alloc_plan := [], guest_plan := [default_step, { default_step with outcome := .ret 1 }] }

/-- As `roomy`, with a guest that prints `{}` when run. -/
def roomy_prints : World :=
  { roomy with guest_plan := [default_step, { default_step with output := ascii "{}" }] }

/-- As `roomy`, with a guest that returns 1 and reports the error `boom`. -/
def roomy_fails : World := { roomy with guest_plan := reports_boom.guest_plan }

/-- As `run_traps`, with an allocator that returns NULL. -/
def trap_without_memory : World := { run_traps with alloc_plan := [] }

/-- The run entry point traps with an exception text of 600 bytes. -/
def long_exception : World :=
  { calm with
    guest_plan :=
      [default_step, { default_step with outcome := .trap (some (List.replicate 600 120)) }] }

/-- The guest prints `{}` and returns 0; the allocator returns NULL. -/
def prints_without_memory : World :=
  { calm with
    alloc_plan := []
    guest_plan := [default_step, { default_step with output := ascii "{}" }] }

/-- The guest prints `{}` and ends with the WASI process-exit signal and status 0; the `read`
of the channel then fails. -/
def exits_with_0_unread : World :=
  { calm with
    read_plan := [-1]
    guest_plan :=
      [default_step,
       { default_step with
         outcome := .trap (some (ascii "Exception: wasi proc exit")), wasi_exit_code := 0,
         output := ascii "{}" }] }

/-- As `exits_with_0_unread`, with a `read` that works. -/
def exits_with_0 : World := { exits_with_0_unread with read_plan := [] }

/-- As `prints_twice`, with a `read` that delivers one byte the first time it is called. -/
def prints_twice_short_read : World := { prints_twice with read_plan := [1] }

/-- The guest prints `{}` and returns 0; `lseek` to the end of the channel then fails. -/
def prints_unsized : World :=
  { calm with
    lseek_plan := [false]
    guest_plan := [default_step, { default_step with output := ascii "{}" }] }

/-- As `guest_writes_output`, with an `ftell` that fails. -/
def ftell_fails : World := { guest_writes_output with ftell_plan := [false] }

theorem exif__run_of_prepare_ok {w : World} {ctx : exif} {tail : List CStr}
    {opts : Option exif_options_t} {l : RunLocals} {owned : Bool} {w1 : World}
    (h : exif__run_prepare w ctx tail opts = .ok (l, owned, w1)) :
    exif__run w ctx tail opts =
      ((exif__run_invoke w1 l).1, exif__run_cleanup (exif__run_invoke w1 l).2 l owned) := by
  simp only [exif__run, h]

theorem exif__run_of_prepare_error {w : World} {ctx : exif} {tail : List CStr}
    {opts : Option exif_options_t} {early : exif_result_t × World}
    (h : exif__run_prepare w ctx tail opts = .error early) :
    exif__run w ctx tail opts = early := by
  simp only [exif__run, h]

@[simp] theorem gheap_alloc_alloc (w : World) (n : Nat) : gheap (alloc_alloc w n).2 = gheap w := by
  unfold alloc_alloc; split <;> rfl

@[simp] theorem gheap_alloc_free (w : World) (p : Option Buf) : gheap (alloc_free w p) = gheap w :=
  rfl

@[simp] theorem gheap_unlink (w : World) (p : CStr) : gheap (unlink w p) = gheap w := rfl

@[simp] theorem gheap_err_result (w : World) (m : CStr) (c : Int) :
    gheap (exif__err_result w m c).2 = gheap w := by
  simp [exif__err_result]

@[simp] theorem gheap_call_wasm_a (w : World) (f : Fn) (a : List Nat) :
    gheap (wasm_runtime_call_wasm_a w f a).2 = gheap w := rfl

@[simp] theorem gheap_call_wasm (w : World) (f : Fn) :
    gheap (exif__call_wasm w f).2.2 = gheap w := by
  unfold exif__call_wasm
  dsimp only
  split <;> rfl

@[simp] theorem gheap_read_stdout_fd (w : World) (n : Nat) :
    gheap (read_stdout_fd w n).2.2 = gheap w := by
  unfold read_stdout_fd
  dsimp only
  split <;> rfl

theorem lseek_end_spec (w : World) :
    (lseek_reports w w.stdout.length → (lseek_end w).1 = (w.stdout.length : Int)) ∧
    (¬ lseek_reports w w.stdout.length → (lseek_end w).1 = -1) ∧
    ∃ pos, (lseek_end w).2 = { w with stdout_pos := pos, lseek_plan := w.lseek_plan.tail } := by
  unfold lseek_end lseek_reports
  refine ⟨fun h => ?_, fun h => ?_, ?_⟩
  · rw [if_pos h]
  · rw [if_neg h]
  · split
    · exact ⟨_, rfl⟩
    · exact ⟨w.stdout_pos, rfl⟩

@[simp] theorem gheap_lseek_end (w : World) : gheap (lseek_end w).2 = gheap w := by
  obtain ⟨pos, h⟩ := (lseek_end_spec w).2.2
  rw [h]
  rfl

@[simp] theorem gheap_read_stdout (w : World) : gheap (exif__read_stdout w).2.2 = gheap w := by
  unfold exif__read_stdout
  dsimp only
  split
  · exact gheap_lseek_end w
  · split
    · rw [gheap_alloc_alloc]
      exact gheap_lseek_end w
    · rw [gheap_read_stdout_fd, gheap_alloc_alloc]
      exact gheap_lseek_end w

@[simp] theorem gheap_run_call (w : World) (l : RunLocals) :
    gheap (exif__run_call w l).2.2 = gheap w := by
  unfold exif__run_call
  dsimp only
  repeat' split
  all_goals rfl

@[simp] theorem gheap_run_last_error (w : World) (e : Option ErrText) :
    gheap (exif__run_last_error w e).2 = gheap w := by
  unfold exif__run_last_error
  dsimp only
  repeat' split
  all_goals simp

@[simp] theorem gheap_run_query (w : World) (e : Option ErrText) :
    gheap (exif__run_query w e).2 = gheap w := by
  simp [exif__run_query]

@[simp] theorem gheap_run_result (w : World) (e : Option ErrText) (c : Int) :
    gheap (exif__run_result w e c).2 = gheap w := by
  unfold exif__run_result
  dsimp only
  repeat' split
  all_goals simp

@[simp] theorem gheap_run_invoke (w : World) (l : RunLocals) :
    gheap (exif__run_invoke w l).2 = gheap w := by
  simp [exif__run_invoke]

@[simp] theorem gheap_init_thread_env (w : World) :
    gheap (wasm_runtime_init_thread_env w).2 = gheap w := by
  unfold wasm_runtime_init_thread_env; split <;> rfl

@[simp] theorem gheap_destroy_thread_env (w : World) :
    gheap (wasm_runtime_destroy_thread_env w) = gheap w := rfl

theorem gmem_of_gheap {w w1 : World} (h : gheap w1 = gheap w) : w1.gmem = w.gmem :=
  congrArg (fun t => t.1) h

theorem malloc_plan_of_gheap {w w1 : World} (h : gheap w1 = gheap w) :
    w1.malloc_plan = w.malloc_plan :=
  congrArg (fun t => t.2.1) h

theorem malloc_log_of_gheap {w w1 : World} (h : gheap w1 = gheap w) :
    w1.malloc_log = w.malloc_log :=
  congrArg (fun t => t.2.2.1) h

theorem gfree_log_of_gheap {w w1 : World} (h : gheap w1 = gheap w) :
    w1.gfree_log = w.gfree_log :=
  congrArg (fun t => t.2.2.2) h

@[simp] theorem keys_nil : keys [] = [] := rfl

@[simp] theorem keys_cons (e : Nat × GBlock) (g : List (Nat × GBlock)) :
    keys (e :: g) = e.1 :: keys g := rfl

@[simp] theorem keys_append (g h : List (Nat × GBlock)) : keys (g ++ h) = keys g ++ keys h := by
  simp [keys]

theorem set_block_fresh (g : List (Nat × GBlock)) (a : Nat) (c b : GBlock) (rest : List (Nat × GBlock))
    (h : a ∉ keys g) : set_block (g ++ (a, c) :: rest) a b = g ++ (a, b) :: rest := by
  induction g with
  | nil => simp [set_block]
  | cons e g ih =>
    obtain ⟨k, v⟩ := e
    simp only [keys_cons, List.mem_cons, not_or] at h
    have hk : ¬ k = a := fun hka => h.1 hka.symm
    simp [set_block, hk, ih h.2]

theorem drop_block_fresh (g : List (Nat × GBlock)) (a : Nat) (c : GBlock) (rest : List (Nat × GBlock))
    (h : a ∉ keys g) : drop_block (g ++ (a, c) :: rest) a = g ++ rest := by
  induction g with
  | nil => simp [drop_block]
  | cons e g ih =>
    obtain ⟨k, v⟩ := e
    simp only [keys_cons, List.mem_cons, not_or] at h
    have hk : ¬ k = a := fun hka => h.1 hka.symm
    simp [drop_block, hk, ih h.2]

theorem block_at_fresh (g : List (Nat × GBlock)) (a : Nat) (c : GBlock) (rest : List (Nat × GBlock))
    (h : a ∉ keys g) : block_at (g ++ (a, c) :: rest) a = some c := by
  induction g with
  | nil => simp [block_at]
  | cons e g ih =>
    obtain ⟨k, v⟩ := e
    simp only [keys_cons, List.mem_cons, not_or] at h
    have hk : ¬ k = a := fun hka => h.1 hka.symm
    simp [block_at, hk, ih h.2]

/-- Looking up the offsets of a duplicate-free list of blocks returns the blocks. -/
theorem block_at_keys (g h rest : List (Nat × GBlock)) (hn : (keys g ++ keys h).Nodup) :
    (keys h).map (block_at (g ++ h ++ rest)) = h.map (fun e => some e.2) := by
  induction h generalizing g with
  | nil => simp
  | cons e h ih =>
    obtain ⟨k, v⟩ := e
    have hk : k ∉ keys g := by
      intro hmem
      have := List.disjoint_of_nodup_append hn hmem
      simp at this
    have h1 : block_at (g ++ (k, v) :: h ++ rest) k = some v := by
      have := block_at_fresh g k v (h ++ rest) hk
      simpa using this
    have h2 := ih (g ++ [(k, v)]) (by simpa [List.append_assoc] using hn)
    simp only [keys_cons, List.map_cons, h1]
    simp only [List.append_assoc, List.singleton_append, List.cons_append, List.nil_append]
      at h2 ⊢
    rw [h2]

theorem Grew.refl (w : World) : Grew w w [] := by
  refine ⟨by simp, [], by simp⟩

theorem Grew.trans {w w1 w2 : World} {b1 b2 : List (Nat × GBlock)}
    (h1 : Grew w w1 b1) (h2 : Grew w1 w2 b2) : Grew w w2 (b1 ++ b2) := by
  obtain ⟨e1, u1, p1, f1⟩ := h1
  obtain ⟨e2, u2, p2, f2⟩ := h2
  refine ⟨?_, u1 ++ u2, ?_, ?_⟩
  · rw [e2]; rw [e1]; simp [List.append_assoc]
  · rw [p1, p2]; simp
  · rw [List.filter_append, f1, f2, keys_append]

theorem Grew.gmem {w w1 : World} {b : List (Nat × GBlock)} (h : Grew w w1 b) :
    w1.gmem = w.gmem ++ b := by
  have := congrArg World.gmem h.1
  simpa using this

theorem Grew.malloc_log {w w1 : World} {b : List (Nat × GBlock)} (h : Grew w w1 b) :
    w1.malloc_log = w.malloc_log ++ keys b := by
  have := congrArg World.malloc_log h.1
  simpa using this

theorem Grew.gfree_log {w w1 : World} {b : List (Nat × GBlock)} (h : Grew w w1 b) :
    w1.gfree_log = w.gfree_log := by
  have := congrArg World.gfree_log h.1
  simpa using this

theorem Grew.calls {w w1 : World} {b : List (Nat × GBlock)} (h : Grew w w1 b) :
    w1.calls = w.calls := by
  have := congrArg World.calls h.1
  simpa using this

theorem Grew.fresh {w w1 : World} {b : List (Nat × GBlock)} (h : Grew w w1 b)
    (hf : allocator_fresh w) : allocator_fresh w1 := by
  obtain ⟨u, p, f⟩ := h.2
  unfold allocator_fresh at *
  rw [h.gmem, keys_append, List.append_assoc, ← f, ← List.filter_append, ← p]
  exact hf

theorem Grew.nodup {w w1 : World} {b : List (Nat × GBlock)} (h : Grew w w1 b)
    (hf : allocator_fresh w) : (keys w.gmem ++ keys b).Nodup := by
  have := h.fresh hf
  unfold allocator_fresh at this
  rw [h.gmem, keys_append, List.append_assoc] at this
  have h2 := List.Nodup.sublist (List.Sublist.append_left
    (List.sublist_append_left (keys b) (w1.malloc_plan.filter (fun a => a ≠ 0))) (keys w.gmem)) this
  exact h2

theorem Grew.nonzero {w w1 : World} {b : List (Nat × GBlock)} (h : Grew w w1 b) :
    ∀ a ∈ keys b, a ≠ 0 := by
  obtain ⟨u, p, f⟩ := h.2
  intro a ha
  rw [← f] at ha
  simpa using (List.mem_filter.mp ha).2

theorem Grew.small {w w1 : World} {b : List (Nat × GBlock)} (h : Grew w w1 b) (n : Nat)
    (hs : ∀ a ∈ w.malloc_plan, a < n) : (∀ a ∈ keys b, a < n) ∧ ∀ a ∈ w1.malloc_plan, a < n := by
  obtain ⟨u, p, f⟩ := h.2
  constructor
  · intro a ha
    rw [← f] at ha
    exact hs a (by rw [p]; exact List.mem_append_left _ (List.mem_filter.mp ha).1)
  · intro a ha
    exact hs a (by rw [p]; exact List.mem_append_right _ ha)

theorem fresh_head {w : World} {a : Nat} {rest : List Nat} (hf : allocator_fresh w)
    (hp : w.malloc_plan = a :: rest) (ha : a ≠ 0) : a ∉ keys w.gmem := by
  unfold allocator_fresh at hf
  rw [hp, List.filter_cons_of_pos (by simpa using ha)] at hf
  intro hmem
  have := List.disjoint_of_nodup_append hf hmem
  simp at this

theorem alloc_string_grew (w : World) (s : CStr) (hf : allocator_fresh w) :
    Grew w (exif__wasm_alloc_string w s).2 (string_block (exif__wasm_alloc_string w s).1 s) := by
  unfold exif__wasm_alloc_string wasm_runtime_module_malloc string_block
  cases hp : w.malloc_plan with
  | nil =>
    simp only [if_true]
    exact ⟨by cases w; simp_all, [], by simp [hp]⟩
  | cons a rest =>
    by_cases ha : a = 0
    · subst ha
      simp only [if_true]
      exact ⟨by simp, [0], by simp [hp]⟩
    · have hk := fresh_head hf hp ha
      simp only [ha, if_false]
      refine ⟨?_, [a], by simp [hp], by simp [ha]⟩
      have := set_block_fresh w.gmem a (.uninit (strlen s + 1)) (.bytes (s ++ [0])) [] hk
      simp [this]

theorem keys_str_blocks (offs : List Nat) (strs : List CStr) (h : offs.length ≤ strs.length) :
    keys (str_blocks offs strs) = offs := by
  induction offs generalizing strs with
  | nil => simp [str_blocks]
  | cons a offs ih =>
    cases strs with
    | nil => simp at h
    | cons s strs =>
      simp only [List.length_cons, Nat.add_le_add_iff_right] at h
      have := ih strs h
      simp only [str_blocks] at this ⊢
      simp [this]

theorem marshal_strings_grew (strs : List CStr) : ∀ (w : World) (ptrs : List Nat),
    allocator_fresh w →
    ∃ offs, (marshal_strings w ptrs strs).2.1 = ptrs ++ offs ∧ offs.length ≤ strs.length ∧
      ((marshal_strings w ptrs strs).1 = true → offs.length = strs.length) ∧
      Grew w (marshal_strings w ptrs strs).2.2 (str_blocks offs strs) := by
  induction strs with
  | nil =>
    intro w ptrs _
    exact ⟨[], by simp [marshal_strings], by simp, by simp, by simpa [marshal_strings, str_blocks] using Grew.refl w⟩
  | cons s strs ih =>
    intro w ptrs hf
    have hg := alloc_string_grew w s hf
    unfold marshal_strings
    dsimp only
    by_cases h0 : (exif__wasm_alloc_string w s).1 = 0
    · simp only [h0, if_true]
      refine ⟨[], by simp, by simp, by simp, ?_⟩
      simpa [string_block, h0, str_blocks] using hg
    · simp only [h0, if_false]
      obtain ⟨offs, e1, e2, e3, e4⟩ :=
        ih (exif__wasm_alloc_string w s).2 (ptrs ++ [(exif__wasm_alloc_string w s).1]) (hg.fresh hf)
      refine ⟨(exif__wasm_alloc_string w s).1 :: offs, by simp [e1], by simpa using e2,
        fun hb => by simpa using e3 hb, ?_⟩
      have := hg.trans e4
      simpa [string_block, h0, str_blocks] using this

theorem marshal_strings_append (a b : List CStr) : ∀ (w : World) (ptrs : List Nat),
    marshal_strings w ptrs (a ++ b) =
      if (marshal_strings w ptrs a).1 = false then marshal_strings w ptrs a
      else marshal_strings (marshal_strings w ptrs a).2.2 (marshal_strings w ptrs a).2.1 b := by
  induction a with
  | nil => intro w ptrs; simp [marshal_strings]
  | cons s a ih =>
    intro w ptrs
    simp only [List.cons_append, marshal_strings]
    by_cases h0 : (exif__wasm_alloc_string w s).1 = 0
    · simp [h0]
    · simp only [h0, if_false]
      exact ih _ _

theorem malloc_grew (w : World) (n : Nat) :
    Grew w (wasm_runtime_module_malloc w n).2
      (if (wasm_runtime_module_malloc w n).1 = 0 then []
       else [((wasm_runtime_module_malloc w n).1, .uninit n)]) := by
  unfold wasm_runtime_module_malloc
  cases hp : w.malloc_plan with
  | nil =>
    simp only [if_true]
    exact ⟨by cases w; simp_all, [], by simp [hp]⟩
  | cons a rest =>
    by_cases ha : a = 0
    · subst ha
      simp only [if_true]
      exact ⟨by simp, [0], by simp [hp]⟩
    · simp only [ha, if_false]
      exact ⟨by simp, [a], by simp [hp], by simp [ha]⟩

theorem Grew.set_last {w m : World} {a : Nat} {c : GBlock} (h : Grew w m [(a, c)])
    (hf : allocator_fresh w) (b : GBlock) :
    Grew w { m with gmem := set_block m.gmem a b } [(a, b)] := by
  have hn := h.nodup hf
  have hk : a ∉ keys w.gmem := by
    intro hmem
    have := List.disjoint_of_nodup_append hn hmem
    simp at this
  have hs : set_block m.gmem a b = w.gmem ++ [(a, b)] := by
    rw [h.gmem]; exact set_block_fresh w.gmem a c b [] hk
  obtain ⟨e, u, p, f⟩ := h
  refine ⟨?_, u, p, by simpa using f⟩
  rw [hs]
  cases m
  cases w
  simp only [World.mk.injEq, keys_cons, keys_nil] at e ⊢
  simp only [e, and_self]

theorem run_argv_grew (w : World) (ctx : exif) (ptrs : List Nat) (hf : allocator_fresh w) :
    (exif__run_argv w ctx ptrs).2.1.wasm_ptrs = ptrs ∧
    Grew w (exif__run_argv w ctx ptrs).2.2 (argv_blocks (exif__run_argv w ctx ptrs).2.1 ctx) ∧
    ((exif__run_argv w ctx ptrs).1 = true →
      (exif__run_argv w ctx ptrs).2.1.argv_off ≠ 0 ∧
      (exif__run_argv w ctx ptrs).2.1.script_off ≠ 0) := by
  have hm := malloc_grew w (ptrs.length * 4)
  unfold exif__run_argv
  dsimp only
  generalize wasm_runtime_module_malloc w (ptrs.length * 4) = m at hm ⊢
  by_cases h0 : m.1 = 0
  · rw [if_pos h0] at hm ⊢
    refine ⟨rfl, ?_, by simp⟩
    simpa [argv_blocks, string_block] using hm
  · rw [if_neg h0] at hm ⊢
    have h1 := hm.set_last hf (.words (ptrs.map (fun p => p % 2 ^ 32)))
    have hs := alloc_string_grew _ ctx.script_path (h1.fresh hf)
    have h2 := h1.trans hs
    generalize exif__wasm_alloc_string
      { m.2 with gmem := set_block m.2.gmem m.1 (.words (ptrs.map (fun p => p % 2 ^ 32))) }
      ctx.script_path = s at h2 ⊢
    by_cases h3 : s.1 = 0
    · rw [if_pos h3]
      refine ⟨rfl, ?_, by simp⟩
      simpa [argv_blocks, string_block, h0, h3] using h2
    · rw [if_neg h3]
      refine ⟨rfl, ?_, fun _ => ⟨h0, h3⟩⟩
      simpa [argv_blocks, string_block, h0, h3] using h2

theorem run_marshal_eq (w : World) (ctx : exif) (tail : List CStr) (opts : Option exif_options_t) :
    exif__run_marshal w ctx tail opts =
      if (marshal_strings w [] (marshaled opts tail)).1 = false then
        (false, ⟨(marshal_strings w [] (marshaled opts tail)).2.1, 0, 0⟩,
          (marshal_strings w [] (marshaled opts tail)).2.2)
      else exif__run_argv (marshal_strings w [] (marshaled opts tail)).2.2 ctx
        (marshal_strings w [] (marshaled opts tail)).2.1 := by
  unfold exif__run_marshal marshaled
  dsimp only
  rw [marshal_strings_append (opt_args opts ++ config_args opts ++ tag_args opts) tail,
    marshal_strings_append (opt_args opts ++ config_args opts) (tag_args opts),
    marshal_strings_append (opt_args opts) (config_args opts)]
  generalize marshal_strings w [] (opt_args opts) = s1
  obtain ⟨b1, p1, w1⟩ := s1
  cases b1
  · simp
  · simp only [Bool.true_eq_false, if_false]
    generalize marshal_strings w1 p1 (config_args opts) = s2
    obtain ⟨b2, p2, w2⟩ := s2
    cases b2
    · simp
    · simp only [Bool.true_eq_false, if_false]
      generalize marshal_strings w2 p2 (tag_args opts) = s3
      obtain ⟨b3, p3, w3⟩ := s3
      cases b3
      · simp
      · simp only [Bool.true_eq_false, if_false]

theorem run_marshal_grew (w : World) (ctx : exif) (tail : List CStr)
    (opts : Option exif_options_t) (hf : allocator_fresh w) :
    Grew w (exif__run_marshal w ctx tail opts).2.2
      (str_blocks (exif__run_marshal w ctx tail opts).2.1.wasm_ptrs (marshaled opts tail)
        ++ argv_blocks (exif__run_marshal w ctx tail opts).2.1 ctx) ∧
    (exif__run_marshal w ctx tail opts).2.1.wasm_ptrs.length ≤ (marshaled opts tail).length ∧
    ((exif__run_marshal w ctx tail opts).1 = true →
      (exif__run_marshal w ctx tail opts).2.1.wasm_ptrs.length = (marshaled opts tail).length ∧
      (exif__run_marshal w ctx tail opts).2.1.argv_off ≠ 0 ∧
      (exif__run_marshal w ctx tail opts).2.1.script_off ≠ 0) := by
  rw [run_marshal_eq]
  obtain ⟨offs, e1, e2, e3, e4⟩ := marshal_strings_grew (marshaled opts tail) w [] hf
  simp only [List.nil_append] at e1
  generalize marshal_strings w [] (marshaled opts tail) = s at e1 e3 e4 ⊢
  obtain ⟨b, p, w1⟩ := s
  simp only at e1 e3 e4
  subst e1
  cases b
  · simp only [if_true]
    refine ⟨?_, e2, by simp⟩
    simpa [argv_blocks, string_block] using e4
  · simp only [Bool.true_eq_false, if_false]
    obtain ⟨a1, a2, a3⟩ := run_argv_grew w1 ctx p (e4.fresh hf)
    rw [a1]
    exact ⟨e4.trans a2, e2, fun hh => ⟨e3 rfl, a3 hh⟩⟩

theorem free_guarded_spec (offs : List Nat) : ∀ (blocks g0 : List (Nat × GBlock)) (w : World),
    w.gmem = g0 ++ blocks → offs.filter (fun a => a ≠ 0) = keys blocks →
    (keys g0 ++ keys blocks).Nodup →
    gheap (offs.foldl free_guarded w)
      = (g0, w.malloc_plan, w.malloc_log, w.gfree_log ++ keys blocks) := by
  induction offs with
  | nil =>
    intro blocks g0 w hg hk _
    have hb : blocks = [] := by
      cases blocks with
      | nil => rfl
      | cons e b => simp at hk
    subst hb
    simp [gheap, hg]
  | cons p offs ih =>
    intro blocks g0 w hg hk hn
    by_cases hp : p = 0
    · subst hp
      have hk1 : offs.filter (fun a => a ≠ 0) = keys blocks := by simpa using hk
      simpa [free_guarded] using ih blocks g0 w hg hk1 hn
    · rw [List.filter_cons_of_pos (by simpa using hp)] at hk
      cases blocks with
      | nil => simp at hk
      | cons e b =>
        obtain ⟨k, v⟩ := e
        simp only [keys_cons, List.cons.injEq] at hk
        obtain ⟨rfl, hk2⟩ := hk
        have hnot : p ∉ keys g0 := by
          intro hmem
          have := List.disjoint_of_nodup_append hn hmem
          simp at this
        have hn2 : (keys g0 ++ keys b).Nodup := by
          have hsub : (keys g0 ++ keys b).Sublist (keys g0 ++ keys ((p, v) :: b)) :=
            List.Sublist.append_left (List.sublist_cons_self p (keys b)) (keys g0)
          exact hn.sublist hsub
        have hstep : (wasm_runtime_module_free w p).gmem = g0 ++ b := by
          simp only [wasm_runtime_module_free, hg]
          exact drop_block_fresh g0 p v b hnot
        have := ih b g0 (wasm_runtime_module_free w p) hstep hk2 hn2
        simp only [List.foldl_cons, free_guarded, hp, ne_eq, not_false_eq_true, if_true]
        simp only [free_guarded] at this
        rw [this]
        simp [wasm_runtime_module_free]

theorem cleanup_gheap (w : World) (l : RunLocals) (owned : Bool) :
    gheap (exif__run_cleanup w l owned)
      = gheap ((l.wasm_ptrs ++ [l.argv_off, l.script_off]).foldl free_guarded w) := by
  unfold exif__run_cleanup
  simp only [List.foldl_append, List.foldl_cons, List.foldl_nil]
  cases owned <;> rfl

theorem cleanup_nothing (w : World) (owned : Bool) :
    gheap (exif__run_cleanup w ⟨[], 0, 0⟩ owned) = gheap w := by
  rw [cleanup_gheap]
  rfl

theorem filter_nonzero_self (l : List Nat) (h : ∀ a ∈ l, a ≠ 0) :
    l.filter (fun a => a ≠ 0) = l := by
  rw [List.filter_eq_self]
  intro a ha
  simpa using h a ha

theorem keys_argv_blocks (l : RunLocals) (ctx : exif) :
    keys (argv_blocks l ctx) = [l.argv_off, l.script_off].filter (fun a => a ≠ 0) := by
  unfold argv_blocks string_block
  by_cases h1 : l.argv_off = 0 <;> by_cases h2 : l.script_off = 0 <;> simp [h1, h2, List.filter]

theorem cleanup_releases_gheap {w0 w1 w2 : World} {l : RunLocals} {ctx : exif} {strs : List CStr}
    (hg : Grew w0 w1 (call_blocks l ctx strs)) (hf : allocator_fresh w0)
    (hlen : l.wasm_ptrs.length ≤ strs.length) (h12 : gheap w2 = gheap w1) (owned : Bool) :
    gheap (exif__run_cleanup w2 l owned)
      = (w0.gmem, w1.malloc_plan, w0.malloc_log ++ keys (call_blocks l ctx strs),
          w0.gfree_log ++ keys (call_blocks l ctx strs)) := by
  have hkeys : keys (call_blocks l ctx strs)
      = l.wasm_ptrs ++ [l.argv_off, l.script_off].filter (fun a => a ≠ 0) := by
    simp only [call_blocks, keys_append, keys_str_blocks _ _ hlen, keys_argv_blocks]
  have hnz : ∀ a ∈ l.wasm_ptrs, a ≠ 0 := by
    intro a ha
    exact hg.nonzero a (by rw [hkeys]; exact List.mem_append_left _ ha)
  have hfil : (l.wasm_ptrs ++ [l.argv_off, l.script_off]).filter (fun a => a ≠ 0)
      = keys (call_blocks l ctx strs) := by
    rw [List.filter_append, filter_nonzero_self _ hnz, hkeys]
  have hgm : w2.gmem = w0.gmem ++ call_blocks l ctx strs := by
    rw [gmem_of_gheap h12]; exact hg.gmem
  rw [cleanup_gheap, free_guarded_spec _ _ _ _ hgm hfil (hg.nodup hf)]
  rw [malloc_plan_of_gheap h12, malloc_log_of_gheap h12, gfree_log_of_gheap h12,
    hg.malloc_log, hg.gfree_log]

/-- The cleanup gives back exactly what the call allocated. -/
theorem cleanup_releases {w0 w1 w2 : World} {l : RunLocals} {ctx : exif} {strs : List CStr}
    (hg : Grew w0 w1 (call_blocks l ctx strs)) (hf : allocator_fresh w0)
    (hlen : l.wasm_ptrs.length ≤ strs.length) (h12 : gheap w2 = gheap w1) (owned : Bool) :
    (exif__run_cleanup w2 l owned).gmem = w0.gmem ∧
    (exif__run_cleanup w2 l owned).malloc_log = w0.malloc_log ++ keys (call_blocks l ctx strs) ∧
    (exif__run_cleanup w2 l owned).gfree_log = w0.gfree_log ++ keys (call_blocks l ctx strs) := by
  have h := cleanup_releases_gheap hg hf hlen h12 owned
  exact ⟨congrArg (fun t => t.1) h, congrArg (fun t => t.2.2.1) h, congrArg (fun t => t.2.2.2) h⟩

@[simp] theorem calls_alloc_alloc (w : World) (n : Nat) : (alloc_alloc w n).2.calls = w.calls := by
  unfold alloc_alloc; split <;> rfl

@[simp] theorem calls_err_result (w : World) (m : CStr) (c : Int) :
    (exif__err_result w m c).2.calls = w.calls := by
  simp [exif__err_result]

@[simp] theorem calls_call_wasm (w : World) (f : Fn) :
    (exif__call_wasm w f).2.2.calls = w.calls ++ [⟨f, [], w.gmem⟩] := by
  unfold exif__call_wasm
  dsimp only
  split <;> rfl

@[simp] theorem calls_read_stdout_fd (w : World) (n : Nat) :
    (read_stdout_fd w n).2.2.calls = w.calls := by
  unfold read_stdout_fd
  dsimp only
  split <;> rfl

@[simp] theorem calls_lseek_end (w : World) : (lseek_end w).2.calls = w.calls := by
  obtain ⟨pos, h⟩ := (lseek_end_spec w).2.2
  rw [h]

@[simp] theorem calls_read_stdout (w : World) : (exif__read_stdout w).2.2.calls = w.calls := by
  unfold exif__read_stdout
  dsimp only
  split
  · exact calls_lseek_end w
  · split
    · rw [calls_alloc_alloc]
      exact calls_lseek_end w
    · rw [calls_read_stdout_fd, calls_alloc_alloc]
      exact calls_lseek_end w

@[simp] theorem calls_run_call (w : World) (l : RunLocals) :
    (exif__run_call w l).2.2.calls = w.calls ++ [run_record w l] := by
  unfold exif__run_call
  dsimp only
  repeat' split
  all_goals rfl

@[simp] theorem calls_run_last_error (w : World) (e : Option ErrText) :
    (exif__run_last_error w e).2.calls = w.calls ++ last_error_record w e := by
  unfold exif__run_last_error last_error_record
  dsimp only
  repeat' split
  all_goals simp_all

@[simp] theorem calls_run_query (w : World) (e : Option ErrText) :
    (exif__run_query w e).2.calls
      = w.calls ++ ⟨.zeroperl_flush, [], w.gmem⟩ :: last_error_record w e := by
  have h := gmem_of_gheap (gheap_call_wasm w .zeroperl_flush)
  simp [exif__run_query, last_error_record, h]

@[simp] theorem calls_run_result (w : World) (e : Option ErrText) (c : Int) :
    (exif__run_result w e c).2.calls = w.calls := by
  unfold exif__run_result
  dsimp only
  repeat' split
  all_goals simp

theorem calls_run_invoke (w : World) (l : RunLocals) :
    (exif__run_invoke w l).2.calls
      = w.calls ++ run_record w l :: ⟨.zeroperl_flush, [], w.gmem⟩
          :: last_error_record w (exif__run_call w l).2.1 := by
  have h := gmem_of_gheap (gheap_run_call w l)
  simp [exif__run_invoke, last_error_record, h]

theorem calls_foldl_free (offs : List Nat) : ∀ w : World,
    (offs.foldl free_guarded w).calls = w.calls := by
  induction offs with
  | nil => intro w; rfl
  | cons p offs ih =>
    intro w
    simp only [List.foldl_cons, ih]
    unfold free_guarded
    split <;> rfl

@[simp] theorem calls_cleanup (w : World) (l : RunLocals) (owned : Bool) :
    (exif__run_cleanup w l owned).calls = w.calls := by
  have h : (exif__run_cleanup w l owned).calls
      = ((l.wasm_ptrs ++ [l.argv_off, l.script_off]).foldl free_guarded w).calls := by
    unfold exif__run_cleanup
    simp only [List.foldl_append, List.foldl_cons, List.foldl_nil]
    cases owned <;> rfl
  rw [h, calls_foldl_free]

theorem fresh_of_gheap {w w1 : World} (h : gheap w1 = gheap w) (hf : allocator_fresh w) :
    allocator_fresh w1 := by
  unfold allocator_fresh at *
  rw [gmem_of_gheap h, malloc_plan_of_gheap h]
  exact hf

@[simp] theorem gheap_run_thread_env (w : World) :
    gheap (exif__run_thread_env w).2 = gheap w := by
  unfold exif__run_thread_env
  split <;> simp

@[simp] theorem calls_run_thread_env (w : World) : (exif__run_thread_env w).2.calls = w.calls := by
  unfold exif__run_thread_env wasm_runtime_init_thread_env
  repeat' split
  all_goals rfl

theorem gheap_reset_state (w : World) : gheap (reset_state w) = gheap w := by
  simp [reset_state]

theorem calls_reset_state (w : World) :
    (reset_state w).calls = w.calls ++ [⟨.zeroperl_reset, [], w.gmem⟩] := by
  simp [reset_state, gmem_of_gheap (gheap_run_thread_env w)]

/-- A call that reaches the run entry point holds the blocks of all its arguments. -/
theorem prepare_ok {w : World} {ctx : exif} {tail : List CStr} {opts : Option exif_options_t}
    {l : RunLocals} {owned : Bool} {w1 : World}
    (h : exif__run_prepare w ctx tail opts = .ok (l, owned, w1)) (hf : allocator_fresh w) :
    Grew (reset_state w) w1 (call_blocks l ctx (marshaled opts tail)) ∧
    l.wasm_ptrs.length = (marshaled opts tail).length ∧ l.argv_off ≠ 0 ∧ l.script_off ≠ 0 := by
  have hm := run_marshal_grew (reset_state w) ctx tail opts
    (fresh_of_gheap (gheap_reset_state w) hf)
  unfold exif__run_prepare at h
  simp only [reset_state] at hm
  dsimp only at h
  split at h
  · exact absurd h (by simp)
  · split at h
    · exact absurd h (by simp)
    · split at h
      · exact absurd h (by simp)
      · rename_i hb
        simp only [Except.ok.injEq, Prod.mk.injEq] at h
        obtain ⟨rfl, _, rfl⟩ := h
        have hb1 := hm.2.2 (by simpa using hb)
        exact ⟨hm.1, hb1.1, hb1.2⟩

/-- A call that ends early has given back whatever it allocated. -/
theorem prepare_error {w : World} {ctx : exif} {tail : List CStr} {opts : Option exif_options_t}
    {r : exif_result_t} {w1 : World}
    (h : exif__run_prepare w ctx tail opts = .error (r, w1)) (hf : allocator_fresh w) :
    ∃ made : List Nat, made.Nodup ∧ w1.gmem = w.gmem ∧
      w1.malloc_log = w.malloc_log ++ made ∧ w1.gfree_log = w.gfree_log ++ made := by
  have hf1 := fresh_of_gheap (gheap_reset_state w) hf
  have hm := run_marshal_grew (reset_state w) ctx tail opts hf1
  have h0 := gheap_reset_state w
  unfold exif__run_prepare at h
  simp only [reset_state] at hm hf1 h0
  dsimp only at h
  split at h
  · simp only [Except.error.injEq] at h
    have hw : w1 = (exif__err_result (exif__run_thread_env w).2
        (ascii "failed to init WAMR thread env") (-1)).2 := by rw [h]
    have hg : gheap w1 = gheap w := by
      rw [hw, gheap_err_result]; exact gheap_run_thread_env w
    exact ⟨[], List.nodup_nil, gmem_of_gheap hg, by simp [malloc_log_of_gheap hg],
      by simp [gfree_log_of_gheap hg]⟩
  · split at h
    · simp only [Except.error.injEq, Prod.mk.injEq] at h
      obtain ⟨_, rfl⟩ := h
      have hg := (cleanup_nothing (exif__err_result
          (exif__call_wasm (exif__run_thread_env w).2 .zeroperl_reset).2.2
          (ascii "zeroperl_reset failed")
          ((exif__call_wasm (exif__run_thread_env w).2 .zeroperl_reset).2.1.getD
            w.indeterminate)).2 (!w.thread_env)).trans
        ((gheap_err_result _ _ _).trans h0)
      exact ⟨[], List.nodup_nil, gmem_of_gheap hg, by simp [malloc_log_of_gheap hg],
        by simp [gfree_log_of_gheap hg]⟩
    · split at h
      · simp only [Except.error.injEq, Prod.mk.injEq] at h
        obtain ⟨_, rfl⟩ := h
        have hc := cleanup_releases hm.1 hf1 hm.2.1 (gheap_err_result _
          (ascii "WASM memory allocation failed") (-1)) (!w.thread_env)
        refine ⟨keys (call_blocks (exif__run_marshal
          (exif__call_wasm (exif__run_thread_env w).2 .zeroperl_reset).2.2 ctx tail opts).2.1
          ctx (marshaled opts tail)), ?_, ?_, ?_, ?_⟩
        · have := hm.1.nodup hf1
          exact (List.nodup_append.mp this).2.1
        · rw [hc.1]; exact gmem_of_gheap h0
        · rw [hc.2.1, malloc_log_of_gheap h0]
        · rw [hc.2.2, gfree_log_of_gheap h0]
      · exact absurd h (by simp)

theorem marshaled_eq_claimed (opts : Option exif_options_t) (tail : List CStr) :
    marshaled opts tail = claimed_arguments opts tail := by
  unfold marshaled claimed_arguments opt_args config_args tag_args
  cases opts with
  | none => simp
  | some o => cases o.config_path <;> simp

theorem str_blocks_values (offs : List Nat) (strs : List CStr) (h : offs.length = strs.length) :
    (str_blocks offs strs).map (fun e => some e.2)
      = strs.map (fun s => some (GBlock.bytes (s ++ [0]))) := by
  induction offs generalizing strs with
  | nil =>
    cases strs with
    | nil => rfl
    | cons s strs => simp at h
  | cons a offs ih =>
    cases strs with
    | nil => simp at h
    | cons s strs =>
      simp only [List.length_cons, Nat.add_right_cancel_iff] at h
      have := ih strs h
      simp only [str_blocks] at this ⊢
      simp [this]

theorem map_mod_small (l : List Nat) (n : Nat) (h : ∀ a ∈ l, a < n) :
    l.map (fun p => p % n) = l := by
  induction l with
  | nil => rfl
  | cons a l ih =>
    simp only [List.map_cons, List.cons.injEq]
    exact ⟨Nat.mod_eq_of_lt (h a (List.mem_cons_self a l)),
      ih (fun b hb => h b (List.mem_cons_of_mem a hb))⟩

/-- What the run entry point finds in guest memory when the call reaches it. -/
theorem run_entry_view {w : World} {ctx : exif} {tail : List CStr} {opts : Option exif_options_t}
    {l : RunLocals} {owned : Bool} {w1 : World}
    (h : exif__run_prepare w ctx tail opts = .ok (l, owned, w1))
    (hf : allocator_fresh w) (h32 : ∀ a ∈ w.malloc_plan, a < 2 ^ 32) :
    (exif__run w ctx tail opts).2.calls
      = w.calls ++ ⟨.zeroperl_reset, [], w.gmem⟩
          :: ⟨.zeroperl_run_file, [l.script_off, l.wasm_ptrs.length, l.argv_off], w1.gmem⟩
          :: ⟨.zeroperl_flush, [], w1.gmem⟩ :: last_error_record w1 (exif__run_call w1 l).2.1 ∧
    l.wasm_ptrs.length = (marshaled opts tail).length ∧
    block_at w1.gmem l.argv_off = some (.words l.wasm_ptrs) ∧
    l.wasm_ptrs.map (block_at w1.gmem)
      = (marshaled opts tail).map (fun s => some (.bytes (s ++ [0]))) ∧
    block_at w1.gmem l.script_off = some (.bytes (ctx.script_path ++ [0])) := by
  obtain ⟨hg, hlen, ha, hs⟩ := prepare_ok h hf
  have hf0 := fresh_of_gheap (gheap_reset_state w) hf
  have hn := hg.nodup hf0
  have hsmall := (hg.small (2 ^ 32) (by
    rw [malloc_plan_of_gheap (gheap_reset_state w)]; exact h32)).1
  have hk : keys (call_blocks l ctx (marshaled opts tail))
      = l.wasm_ptrs ++ [l.argv_off, l.script_off] := by
    simp only [call_blocks, keys_append, keys_str_blocks _ _ (le_of_eq hlen), keys_argv_blocks]
    simp [List.filter, ha, hs]
  have hptr : l.wasm_ptrs.map (fun p => p % 2 ^ 32) = l.wasm_ptrs :=
    map_mod_small _ _ (fun a ha => hsmall a (by rw [hk]; exact List.mem_append_left _ ha))
  have hargv : l.argv_off % 2 ^ 32 = l.argv_off :=
    Nat.mod_eq_of_lt (hsmall _ (by rw [hk]; simp))
  have hscr : l.script_off % 2 ^ 32 = l.script_off :=
    Nat.mod_eq_of_lt (hsmall _ (by rw [hk]; simp))
  have hlook := block_at_keys (reset_state w).gmem (call_blocks l ctx (marshaled opts tail)) [] hn
  rw [List.append_nil, ← hg.gmem, hk] at hlook
  simp only [call_blocks, argv_blocks, string_block, ha, hs, if_false, List.map_append,
    str_blocks_values _ _ hlen, hptr, List.map_cons, List.map_nil, List.singleton_append] at hlook
  have hl2 := List.append_inj hlook (by simp [hlen])
  have hl3 := hl2.2
  simp only [List.cons.injEq, and_true] at hl3
  refine ⟨?_, hlen, hl3.1, hl2.1, hl3.2⟩
  rw [exif__run_of_prepare_ok h]
  simp only [calls_cleanup, calls_run_invoke, run_record, hargv, hscr, hg.calls,
    calls_reset_state]
  simp

@[simp] theorem gheap_mkstemps (w : World) (t : CStr) (n : Nat) :
    gheap (mkstemps w t n).2 = gheap w := by
  unfold mkstemps
  dsimp only
  repeat' split
  all_goals rfl

@[simp] theorem calls_mkstemps (w : World) (t : CStr) (n : Nat) :
    (mkstemps w t n).2.calls = w.calls := by
  unfold mkstemps
  dsimp only
  repeat' split
  all_goals rfl

@[simp] theorem gheap_write_tmpfile (w : World) (d : Bytes) (s : Option CStr) :
    gheap (exif__write_tmpfile w d s).2 = gheap w := by
  unfold exif__write_tmpfile
  dsimp only
  split
  · simp
  · split
    · simp only [gheap_unlink]
      exact gheap_mkstemps w _ _
    · simp only [gheap_alloc_alloc]
      exact gheap_mkstemps w _ _

@[simp] theorem calls_write_tmpfile (w : World) (d : Bytes) (s : Option CStr) :
    (exif__write_tmpfile w d s).2.calls = w.calls := by
  unfold exif__write_tmpfile
  dsimp only
  split
  · simp
  · split
    · exact calls_mkstemps w _ _
    · simp only [calls_alloc_alloc]
      exact calls_mkstemps w _ _

@[simp] theorem calls_apply_transform (w : World) (r : exif_result_t) (o : Option exif_options_t) :
    (exif__apply_transform w r o).2.calls = w.calls := by
  unfold exif__apply_transform
  repeat' split
  all_goals rfl

theorem claimed_arguments_split (opts : Option exif_options_t) (tail : List CStr) :
    claimed_arguments opts tail = claimed_arguments opts [] ++ tail := by
  unfold claimed_arguments
  cases opts <;> simp

theorem guest_ran_of_prepare {w : World} {ctx : exif} {tail : List CStr}
    {opts : Option exif_options_t} {l : RunLocals} {owned : Bool} {w1 : World}
    (h : exif__run_prepare w ctx tail opts = .ok (l, owned, w1))
    (hf : allocator_fresh w) (h32 : wasm32_addresses w) :
    GuestRan w (exif__run w ctx tail opts).2 ctx.script_path (claimed_arguments opts tail) := by
  obtain ⟨h1, h2, h3, h4, h5⟩ := run_entry_view h hf h32
  rw [← marshaled_eq_claimed]
  exact ⟨l.script_off, l.argv_off, w1.gmem, _, l.wasm_ptrs, by rw [h1, h2], h5, h3, h4⟩

theorem claimed_arguments_length (opts : Option exif_options_t) (tail : List CStr) :
    (claimed_arguments opts tail).length = claimed_count opts tail.length := by
  unfold claimed_arguments claimed_count
  cases opts with
  | none => rfl
  | some o =>
    cases hc : o.config_path with
    | none => simp [hc]; omega
    | some p => simp [hc]; omega

theorem oom_exit_code {w : World} {ctx : exif} {tail : List CStr} {opts : Option exif_options_t}
    (henv : (exif__run_thread_env w).1 = true)
    (hreset : (exif__call_wasm (exif__run_thread_env w).2 .zeroperl_reset).1 = true)
    (hrc : (exif__call_wasm (exif__run_thread_env w).2 .zeroperl_reset).2.1.getD w.indeterminate
      = 0)
    (hoom : (exif__run_marshal (reset_state w) ctx tail opts).1 = false) :
    (exif__run w ctx tail opts).1
      = failure (exif__run_marshal (reset_state w) ctx tail opts).2.2
          (ascii "WASM memory allocation failed") (-1) := by
  unfold reset_state at hoom ⊢
  unfold exif__run exif__run_prepare
  dsimp only
  rw [if_neg (by simp [henv]), if_neg (by simp [hreset, hrc]), if_pos hoom]
  rfl

theorem reaches_entry {w : World} {ctx : exif} {tail : List CStr} {opts : Option exif_options_t}
    (henv : (exif__run_thread_env w).1 = true)
    (hreset : (exif__call_wasm (exif__run_thread_env w).2 .zeroperl_reset).1 = true)
    (hrc : (exif__call_wasm (exif__run_thread_env w).2 .zeroperl_reset).2.1.getD w.indeterminate
      = 0)
    (hok : (exif__run_marshal (reset_state w) ctx tail opts).1 = true) :
    exif__run_prepare w ctx tail opts
      = .ok ((exif__run_marshal (reset_state w) ctx tail opts).2.1, !w.thread_env,
          (exif__run_marshal (reset_state w) ctx tail opts).2.2) := by
  unfold reset_state at hok ⊢
  unfold exif__run_prepare
  dsimp only
  rw [if_neg (by simp [henv]), if_neg (by simp [hreset, hrc]), if_neg (by simp [hok])]

theorem malloc_answer (w : World) (n : Nat) :
    (wasm_runtime_module_malloc w n).1 = w.malloc_plan.headD 0 ∧
    (wasm_runtime_module_malloc w n).2.malloc_plan = w.malloc_plan.tail := by
  unfold wasm_runtime_module_malloc
  cases hp : w.malloc_plan with
  | nil => simp [hp]
  | cons a rest =>
    by_cases ha : a = 0
    · simp [ha]
    · simp [ha]

theorem alloc_string_answer (w : World) (s : CStr) :
    (exif__wasm_alloc_string w s).1 = w.malloc_plan.headD 0 ∧
    (exif__wasm_alloc_string w s).2.malloc_plan = w.malloc_plan.tail := by
  have hm := malloc_answer w (strlen s + 1)
  unfold exif__wasm_alloc_string
  dsimp only
  by_cases h0 : (wasm_runtime_module_malloc w (strlen s + 1)).1 = 0
  · rw [if_pos h0]
    exact ⟨by rw [← hm.1, h0], hm.2⟩
  · rw [if_neg h0]
    exact ⟨hm.1, hm.2⟩

theorem allocations_succeed_zero (w : World) : allocations_succeed w 0 := by
  simp [allocations_succeed]

theorem allocations_succeed_succ (w w1 : World) (k : Nat)
    (ht : w1.malloc_plan = w.malloc_plan.tail) :
    allocations_succeed w (k + 1) ↔ w.malloc_plan.headD 0 ≠ 0 ∧ allocations_succeed w1 k := by
  unfold allocations_succeed
  rw [ht]
  cases hp : w.malloc_plan with
  | nil => simp
  | cons a rest =>
    simp only [List.length_cons, Nat.add_le_add_iff_right, List.take_succ_cons, List.mem_cons,
      forall_eq_or_imp, List.headD_cons, List.tail_cons, ne_eq]
    tauto

theorem marshal_strings_ok_iff (strs : List CStr) : ∀ (w : World) (ptrs : List Nat),
    ((marshal_strings w ptrs strs).1 = true ↔ allocations_succeed w strs.length) ∧
    ((marshal_strings w ptrs strs).1 = true →
      (marshal_strings w ptrs strs).2.2.malloc_plan = w.malloc_plan.drop strs.length) := by
  induction strs with
  | nil =>
    intro w ptrs
    simp [marshal_strings, allocations_succeed_zero]
  | cons s strs ih =>
    intro w ptrs
    have ha := alloc_string_answer w s
    have hs := allocations_succeed_succ w (exif__wasm_alloc_string w s).2 strs.length ha.2
    unfold marshal_strings
    dsimp only
    by_cases h0 : (exif__wasm_alloc_string w s).1 = 0
    · rw [if_pos h0]
      simp only [List.length_cons, hs, ← ha.1, h0]
      simp
    · rw [if_neg h0]
      obtain ⟨i1, i2⟩ := ih (exif__wasm_alloc_string w s).2 (ptrs ++ [(exif__wasm_alloc_string w s).1])
      refine ⟨?_, ?_⟩
      · rw [i1, List.length_cons, hs, ← ha.1]
        simp [h0]
      · intro hb
        rw [i2 hb, ha.2]
        simp

theorem run_argv_ok_iff (w : World) (ctx : exif) (ptrs : List Nat) :
    (exif__run_argv w ctx ptrs).1 = true ↔ allocations_succeed w 2 := by
  have hm := malloc_answer w (ptrs.length * 4)
  have h1 := allocations_succeed_succ w (wasm_runtime_module_malloc w (ptrs.length * 4)).2 1 hm.2
  unfold exif__run_argv
  dsimp only
  by_cases h0 : (wasm_runtime_module_malloc w (ptrs.length * 4)).1 = 0
  · rw [if_pos h0, h1, ← hm.1, h0]
    simp
  · rw [if_neg h0]
    have hs := alloc_string_answer
      { (wasm_runtime_module_malloc w (ptrs.length * 4)).2 with
        gmem := set_block (wasm_runtime_module_malloc w (ptrs.length * 4)).2.gmem
          (wasm_runtime_module_malloc w (ptrs.length * 4)).1
          (.words (ptrs.map (fun p => p % 2 ^ 32))) } ctx.script_path
    have h2 := allocations_succeed_succ (wasm_runtime_module_malloc w (ptrs.length * 4)).2
      (exif__wasm_alloc_string
        { (wasm_runtime_module_malloc w (ptrs.length * 4)).2 with
          gmem := set_block (wasm_runtime_module_malloc w (ptrs.length * 4)).2.gmem
            (wasm_runtime_module_malloc w (ptrs.length * 4)).1
            (.words (ptrs.map (fun p => p % 2 ^ 32))) } ctx.script_path).2 0 hs.2
    rw [h1, ← hm.1, h2]
    simp only [ne_eq, h0, not_false_eq_true, true_and, allocations_succeed_zero, and_true]
    rw [← hs.1]
    split <;> simp_all

theorem allocations_succeed_add (w w1 : World) (n k : Nat)
    (hd : w1.malloc_plan = w.malloc_plan.drop n) (hn : allocations_succeed w n) :
    allocations_succeed w (n + k) ↔ allocations_succeed w1 k := by
  unfold allocations_succeed at *
  rw [hd, List.length_drop]
  constructor
  · rintro ⟨h1, h2⟩
    refine ⟨by omega, fun a ha => h2 a ?_⟩
    rw [List.take_add]
    exact List.mem_append_right _ ha
  · rintro ⟨h1, h2⟩
    refine ⟨by omega, fun a ha => ?_⟩
    rw [List.take_add] at ha
    rcases List.mem_append.mp ha with h | h
    · exact hn.2 a h
    · exact h2 a h

theorem allocations_succeed_mono (w : World) (n k : Nat) (h : allocations_succeed w (n + k)) :
    allocations_succeed w n := by
  unfold allocations_succeed at *
  refine ⟨by omega, fun a ha => h.2 a ?_⟩
  rw [List.take_add]
  exact List.mem_append_left _ ha

theorem run_marshal_ok_iff (w : World) (ctx : exif) (tail : List CStr)
    (opts : Option exif_options_t) :
    (exif__run_marshal w ctx tail opts).1 = true
      ↔ allocations_succeed w ((marshaled opts tail).length + 2) := by
  rw [run_marshal_eq]
  obtain ⟨i1, i2⟩ := marshal_strings_ok_iff (marshaled opts tail) w []
  by_cases hb : (marshal_strings w [] (marshaled opts tail)).1 = true
  · rw [if_neg (by simp [hb]), run_argv_ok_iff]
    exact (allocations_succeed_add w _ _ 2 (i2 hb) (i1.mp hb)).symm
  · rw [if_pos (by simpa using hb)]
    constructor
    · intro h; simp at h
    · intro h
      exact absurd (i1.mpr (allocations_succeed_mono w _ 2 h)) hb

/-- When the thread has its environment, the reset succeeds and the guest allocations
succeed, the call reaches the run entry point. -/
theorem reaches_entry_of_allocations {w : World} {ctx : exif} {tail : List CStr}
    {opts : Option exif_options_t}
    (henv : (exif__run_thread_env w).1 = true) (hreset : reset_succeeds w)
    (halloc : allocations_succeed w ((marshaled opts tail).length + 2)) :
    exif__run_prepare w ctx tail opts
      = .ok ((exif__run_marshal (reset_state w) ctx tail opts).2.1, !w.thread_env,
          (exif__run_marshal (reset_state w) ctx tail opts).2.2) := by
  refine reaches_entry henv hreset.1 hreset.2 ((run_marshal_ok_iff _ ctx tail opts).mpr ?_)
  unfold allocations_succeed at *
  rw [malloc_plan_of_gheap (gheap_reset_state w)]
  exact halloc

theorem err_result_eq (w : World) (text : CStr) (code : Int) :
    (exif__err_result w text code).1 = failure w text code := rfl

theorem run_result_eq {w : World} {ctx : exif} {tail : List CStr}
    {opts : Option exif_options_t} {l : RunLocals} {owned : Bool} {w1 : World}
    (h : exif__run_prepare w ctx tail opts = .ok (l, owned, w1)) :
    (exif__run w ctx tail opts).1
      = (exif__run_result (run_state w1 l) (run_error w1 l) (run_exit_code w1 l)).1 := by
  rw [exif__run_of_prepare_ok h]
  rfl

theorem run_result_error (w : World) (e : ErrText) (c : Int) :
    (exif__run_result w (some e) c).1 = failure w (e.deref w) c := rfl

theorem run_result_exit (w : World) (c : Int) (hc : c ≠ 0) :
    (exif__run_result w none c).1 = failure w (ascii "exiftool exited with error") c := by
  simp [exif__run_result, exif__err_result, failure, hc]

theorem run_result_ok (w : World) : (exif__run_result w none 0).1 = captured w := by
  simp [exif__run_result, exif__ok_result, captured]

/-- The result of a call that reached the run entry point, by cases on the recorded error and
the exit code. -/
theorem result_by_precedence (w : World) (ctx : exif) (tail : List CStr)
    (opts : Option exif_options_t) (l : RunLocals) (owned : Bool) (w1 : World)
    (h : exif__run_prepare w ctx tail opts = .ok (l, owned, w1)) :
    (∀ e, run_error w1 l = some e →
      (exif__run w ctx tail opts).1
        = failure (run_state w1 l) (e.deref (run_state w1 l)) (run_exit_code w1 l)) ∧
    (run_error w1 l = none → run_exit_code w1 l ≠ 0 →
      (exif__run w ctx tail opts).1
        = failure (run_state w1 l) (ascii "exiftool exited with error") (run_exit_code w1 l)) ∧
    (run_error w1 l = none → run_exit_code w1 l = 0 →
      (exif__run w ctx tail opts).1 = captured (run_state w1 l)) := by
  rw [run_result_eq h]
  refine ⟨?_, ?_, ?_⟩
  · intro e he
    rw [he, run_result_error]
  · intro he hc
    rw [he, run_result_exit _ _ hc]
  · intro he hc
    rw [he, hc, run_result_ok]

theorem call_exception_of_trap {w : World} {e : Option CStr} (f : Fn) (a : List Nat)
    (h : (w.guest_plan.headD default_step).outcome = .trap e) :
    wasm_runtime_get_exception (wasm_runtime_call_wasm_a w f a).2 = e := by
  simp only [wasm_runtime_get_exception, wasm_runtime_call_wasm_a]
  rw [h]

theorem run_call_exit {w : World} {l : RunLocals} {exc : CStr}
    (hrun : (w.guest_plan.headD default_step).outcome = .trap (some exc))
    (hexit : strstr exc (ascii "wasi proc exit") = true) :
    run_trapped w l = none ∧
    run_exit_code w l = int32 (w.guest_plan.headD default_step).wasi_exit_code := by
  have h1 : (wasm_runtime_call_wasm_a (lseek_set (ftruncate w)) .zeroperl_run_file
      [l.script_off % 2 ^ 32, l.wasm_ptrs.length, l.argv_off % 2 ^ 32]).1
      = .trap (some exc) := hrun
  have h2 := @call_exception_of_trap (lseek_set (ftruncate w)) (some exc) .zeroperl_run_file
      [l.script_off % 2 ^ 32, l.wasm_ptrs.length, l.argv_off % 2 ^ 32] hrun
  unfold run_trapped run_exit_code exif__run_call
  dsimp only
  rw [h1]
  dsimp only
  rw [h2]
  dsimp only
  rw [if_pos hexit]
  exact ⟨rfl, rfl⟩

theorem run_call_trap {w : World} {l : RunLocals} {exc : CStr}
    (hrun : (w.guest_plan.headD default_step).outcome = .trap (some exc))
    (hexit : strstr exc (ascii "wasi proc exit") = false) :
    run_trapped w l = some .errbuf ∧ run_exit_code w l = -1 ∧
    (exif__run_call w l).2.2.errbuf = snprintf_s 512 exc := by
  have h1 : (wasm_runtime_call_wasm_a (lseek_set (ftruncate w)) .zeroperl_run_file
      [l.script_off % 2 ^ 32, l.wasm_ptrs.length, l.argv_off % 2 ^ 32]).1
      = .trap (some exc) := hrun
  have h2 := @call_exception_of_trap (lseek_set (ftruncate w)) (some exc) .zeroperl_run_file
      [l.script_off % 2 ^ 32, l.wasm_ptrs.length, l.argv_off % 2 ^ 32] hrun
  unfold run_trapped run_exit_code exif__run_call
  dsimp only
  rw [h1]
  dsimp only
  rw [h2]
  dsimp only
  rw [if_neg (by simp [hexit])]
  exact ⟨rfl, rfl, rfl⟩

theorem run_error_of_trapped {w : World} {l : RunLocals} {e : ErrText}
    (h : run_trapped w l = some e) : run_error w l = some e := by
  unfold run_trapped at h
  unfold run_error exif__run_query exif__run_last_error
  rw [h]

theorem run_error_eq (w : World) (l : RunLocals) (h : run_trapped w l = none) :
    run_error w l
      = match exif__wasm_read_cstring (last_error_call w l).2.2
          (uint32 ((last_error_call w l).2.1.getD 0)) with
        | some (_ :: _) => some (.guest (uint32 ((last_error_call w l).2.1.getD 0)))
        | _ => none := by
  unfold run_trapped at h
  unfold run_error exif__run_query exif__run_last_error
  rw [h]
  dsimp only
  unfold last_error_call flushed
  split <;> rfl

theorem run_state_eq (w : World) (l : RunLocals) (h : run_trapped w l = none) :
    run_state w l = (last_error_call w l).2.2 := by
  unfold run_trapped at h
  unfold run_state exif__run_query exif__run_last_error
  rw [h]
  dsimp only
  unfold last_error_call flushed
  split <;> rfl

/-- The text of a trapped exception reaches the Result when the flush that follows returns:
it is then what `snprintf` kept of it in `ctx->errbuf`, with exit code -1. -/
theorem trapped_text_when_flush_returns {w : World} {ctx : exif} {tail : List CStr}
    {opts : Option exif_options_t} {l : RunLocals} {owned : Bool} {w1 : World} {exc : CStr}
    {v : Int}
    (h : exif__run_prepare w ctx tail opts = .ok (l, owned, w1))
    (hrun : (w1.guest_plan.headD default_step).outcome = .trap (some exc))
    (hexit : strstr exc (ascii "wasi proc exit") = false)
    (hflush : ((exif__run_call w1 l).2.2.guest_plan.headD default_step).outcome = .ret v) :
    (exif__run w ctx tail opts).1 = failure (run_state w1 l) (snprintf_s 512 exc) (-1) := by
  obtain ⟨ht, hc, hb⟩ := @run_call_trap w1 l exc hrun hexit
  obtain ⟨p1, _, _⟩ := result_by_precedence w ctx tail opts l owned w1 h
  rw [p1 _ (run_error_of_trapped ht), hc]
  have hs : (run_state w1 l).errbuf = (exif__run_call w1 l).2.2.errbuf := by
    unfold run_trapped at ht
    unfold run_state exif__run_query exif__run_last_error
    rw [ht]
    dsimp only
    unfold exif__call_wasm
    dsimp only
    have h1 : (wasm_runtime_call_wasm_a (exif__run_call w1 l).2.2 .zeroperl_flush []).1
        = .ret v := hflush
    rw [h1]
    rfl
  simp only [ErrText.deref, hs, hb]

theorem heap_only_refl (w : World) : heap_only w w := by
  cases w; rfl

theorem heap_only.compose {w w1 w2 : World} (h1 : heap_only w w1) (h2 : heap_only w1 w2) :
    heap_only w w2 := by
  unfold heap_only at *
  cases w; cases w1; cases w2
  simp only [World.mk.injEq] at *
  simp_all

theorem heap_only_malloc (w : World) (n : Nat) :
    heap_only w (wasm_runtime_module_malloc w n).2 := by
  unfold heap_only wasm_runtime_module_malloc
  cases w
  split
  · rfl
  · split <;> simp_all

theorem heap_only_free (w : World) (off : Nat) :
    heap_only w (wasm_runtime_module_free w off) := by
  unfold heap_only wasm_runtime_module_free
  cases w; rfl

theorem heap_only_set_block {w w1 : World} (h : heap_only w w1) (g : List (Nat × GBlock)) :
    heap_only w { w1 with gmem := g } := by
  unfold heap_only at *
  cases w; cases w1
  simp only [World.mk.injEq] at *
  simp_all

theorem heap_only_alloc_string (w : World) (s : CStr) :
    heap_only w (exif__wasm_alloc_string w s).2 := by
  unfold exif__wasm_alloc_string
  dsimp only
  split
  · exact heap_only_malloc _ _
  · exact heap_only_set_block (heap_only_malloc _ _) _

theorem heap_only_marshal_strings (strs : List CStr) : ∀ (w : World) (ptrs : List Nat),
    heap_only w (marshal_strings w ptrs strs).2.2 := by
  induction strs with
  | nil => intro w ptrs; exact heap_only_refl w
  | cons s rest ih =>
    intro w ptrs
    unfold marshal_strings
    dsimp only
    split
    · exact heap_only_alloc_string _ _
    · exact (heap_only_alloc_string _ _).compose (ih _ _)

theorem heap_only_run_argv (w : World) (ctx : exif) (ptrs : List Nat) :
    heap_only w (exif__run_argv w ctx ptrs).2.2 := by
  unfold exif__run_argv
  dsimp only
  split
  · exact heap_only_malloc _ _
  · have h1 := heap_only_set_block (heap_only_malloc w (ptrs.length * 4))
      (set_block (wasm_runtime_module_malloc w (ptrs.length * 4)).2.gmem
        (wasm_runtime_module_malloc w (ptrs.length * 4)).1
        (.words (ptrs.map (fun p => p % 2 ^ 32))))
    split
    · exact h1.compose (heap_only_alloc_string _ _)
    · exact h1.compose (heap_only_alloc_string _ _)

theorem heap_only_run_marshal (w : World) (ctx : exif) (tail : List CStr)
    (opts : Option exif_options_t) :
    heap_only w (exif__run_marshal w ctx tail opts).2.2 := by
  unfold exif__run_marshal
  dsimp only
  have h1 := heap_only_marshal_strings (opt_args opts) w []
  generalize marshal_strings w [] (opt_args opts) = s1 at h1 ⊢
  split
  · exact h1
  · have h2 := h1.compose (heap_only_marshal_strings (config_args opts) s1.2.2 s1.2.1)
    generalize marshal_strings s1.2.2 s1.2.1 (config_args opts) = s2 at h2 ⊢
    split
    · exact h2
    · have h3 := h2.compose (heap_only_marshal_strings (tag_args opts) s2.2.2 s2.2.1)
      generalize marshal_strings s2.2.2 s2.2.1 (tag_args opts) = s3 at h3 ⊢
      split
      · exact h3
      · have h4 := h3.compose (heap_only_marshal_strings tail s3.2.2 s3.2.1)
        generalize marshal_strings s3.2.2 s3.2.1 tail = s4 at h4 ⊢
        split
        · exact h4
        · exact h4.compose (heap_only_run_argv _ _ _)

theorem heap_only_foldl_free (offs : List Nat) : ∀ w : World,
    heap_only w (offs.foldl (fun w p => if p ≠ 0 then wasm_runtime_module_free w p else w) w) := by
  induction offs with
  | nil => intro w; exact heap_only_refl w
  | cons p rest ih =>
    intro w
    rw [List.foldl_cons]
    by_cases hp : p = 0
    · simp only [hp, ne_eq, not_true_eq_false, if_false]
      exact ih w
    · rw [if_pos hp]
      exact (heap_only_free w p).compose (ih _)

theorem heap_only_cleanup (w : World) (l : RunLocals) (owned : Bool) :
    heap_only w (exif__run_cleanup w l owned) := by
  unfold exif__run_cleanup
  dsimp only
  have h1 := heap_only_foldl_free l.wasm_ptrs w
  have h2 : heap_only w (if l.argv_off ≠ 0 then wasm_runtime_module_free
      (l.wasm_ptrs.foldl (fun w p => if p ≠ 0 then wasm_runtime_module_free w p else w) w)
      l.argv_off
    else l.wasm_ptrs.foldl (fun w p => if p ≠ 0 then wasm_runtime_module_free w p else w) w) := by
    split
    · exact h1.compose (heap_only_free _ _)
    · exact h1
  generalize (if l.argv_off ≠ 0 then wasm_runtime_module_free
      (l.wasm_ptrs.foldl (fun w p => if p ≠ 0 then wasm_runtime_module_free w p else w) w)
      l.argv_off
    else l.wasm_ptrs.foldl (fun w p => if p ≠ 0 then wasm_runtime_module_free w p else w) w) = w2
    at h2 ⊢
  have h3 : heap_only w (if l.script_off ≠ 0 then wasm_runtime_module_free w2 l.script_off
      else w2) := by
    split
    · exact h2.compose (heap_only_free _ _)
    · exact h2
  generalize (if l.script_off ≠ 0 then wasm_runtime_module_free w2 l.script_off else w2) = w3
    at h3 ⊢
  cases owned
  · exact h3
  · refine h3.compose ?_
    unfold heap_only wasm_runtime_destroy_thread_env
    cases w3; rfl

theorem heap_only.alloc_log {w w1 : World} (h : heap_only w w1) : w1.alloc_log = w.alloc_log := by
  rw [h]

theorem heap_only.exception {w w1 : World} (h : heap_only w w1) : w1.exception = w.exception := by
  rw [h]

theorem heap_only.stdout {w w1 : World} (h : heap_only w w1) : w1.stdout = w.stdout := by
  rw [h]

theorem heap_only.files {w w1 : World} (h : heap_only w w1) : w1.files = w.files := by
  rw [h]

theorem heap_only.guest_plan {w w1 : World} (h : heap_only w w1) :
    w1.guest_plan = w.guest_plan := by
  rw [h]

theorem heap_only.free_log {w w1 : World} (h : heap_only w w1) : w1.free_log = w.free_log := by
  rw [h]

theorem heap_only.alloc_plan {w w1 : World} (h : heap_only w w1) :
    w1.alloc_plan = w.alloc_plan := by
  rw [h]

theorem fs_read_unlink_self (fs : List (CStr × Bytes)) (p : CStr) :
    fs_read (fs_unlink fs p) p = none := by
  induction fs with
  | nil => rfl
  | cons e rest ih =>
    obtain ⟨q, c⟩ := e
    unfold fs_unlink at ih ⊢
    by_cases hq : q = p
    · simpa [List.filter_cons, hq] using ih
    · simp only [List.filter_cons, ne_eq, hq, not_false_eq_true, decide_True, if_true]
      unfold fs_read
      rw [if_neg hq]
      exact ih

theorem fs_read_unlink_of_none (fs : List (CStr × Bytes)) (p q : CStr)
    (h : fs_read fs q = none) : fs_read (fs_unlink fs p) q = none := by
  induction fs with
  | nil => rfl
  | cons e rest ih =>
    obtain ⟨r, c⟩ := e
    unfold fs_read at h
    by_cases hr : r = q
    · simp [hr] at h
    · rw [if_neg hr] at h
      unfold fs_unlink at ih ⊢
      by_cases hp : r = p
      · simpa [List.filter_cons, hp] using ih h
      · simp only [List.filter_cons, ne_eq, hp, not_false_eq_true, decide_True, if_true]
        unfold fs_read
        rw [if_neg hr]
        exact ih h

/-- When `exif__write_tmpfile` returns a path, `exif_read_buf` leaves no file at it. -/
theorem read_buf_removes_temp (w : World) (ctx : exif) (input : exif_buf_t)
    (opts : Option exif_options_t) (tmp_path : Buf)
    (h : (exif__write_tmpfile w input.data (exif__suffix_of input.filename)).1 = some tmp_path) :
    fs_read (exif_read_buf w ctx input opts).2.files tmp_path.bytes = none := by
  simp only [exif_read_buf, h]
  exact fs_read_unlink_self _ _

/-- When `exif__write_tmpfile` returns a path, `exif_write_buf` leaves no file at it, nor at
the output path `mkstemps` named, whatever the outcome of the call. -/
theorem write_buf_removes_temps (w : World) (ctx : exif) (input : exif_buf_t)
    (opts : Option exif_options_t) (in_path : Buf)
    (h : (exif__write_tmpfile w input.data (exif__suffix_of input.filename)).1 = some in_path) :
    fs_read (exif_write_buf w ctx input opts).2.files in_path.bytes = none ∧
    ∀ out_path : CStr,
      (mkstemps (exif__write_tmpfile w input.data (exif__suffix_of input.filename)).2
        (tmp_template (ascii "/tmp/libexif_out_XXXXXX") (exif__suffix_of input.filename))
        (tmp_suffixlen (exif__suffix_of input.filename))).1 = some out_path →
      fs_read (exif_write_buf w ctx input opts).2.files out_path = none := by
  constructor
  · simp only [exif_write_buf, h]
    split
    · exact fs_read_unlink_self _ _
    · exact fs_read_unlink_self _ _
  · intro out_path ho
    simp only [exif_write_buf, h, ho]
    exact fs_read_unlink_of_none _ _ _ (fs_read_unlink_self _ _)

/-- A write loop fails exactly at a `write` that reports an error, after `write` calls that
did not; the answers after it are left unused. -/
theorem write_loop_failed (path : CStr) : ∀ (plan : List Int) (data : Bytes)
    (fs : List (CStr × Bytes)), (write_loop path plan data fs).1 = false →
    ∃ used r, plan = used ++ r :: (write_loop path plan data fs).2.1 ∧ r < 0 ∧
      ∀ u ∈ used, 0 ≤ u := by
  intro plan
  induction plan with
  | nil =>
    intro data fs h
    cases data <;> simp [write_loop] at h
  | cons r plan ih =>
    intro data fs h
    cases data with
    | nil => simp [write_loop] at h
    | cons b src =>
      unfold write_loop at h ⊢
      by_cases hr : r < 0
      · simp only [hr, if_true]
        exact ⟨[], r, rfl, hr, by simp⟩
      · simp only [hr, if_false] at h ⊢
        obtain ⟨used, x, hu, hx, hall⟩ := ih _ _ h
        refine ⟨r :: used, x, by rw [List.cons_append, ← hu], hx, ?_⟩
        intro u hu'
        rcases List.mem_cons.mp hu' with rfl | hm
        · omega
        · exact hall u hm

theorem mkstemps_frame (w : World) (t : CStr) (n : Nat) :
    (mkstemps w t n).2.write_plan = w.write_plan ∧
    (mkstemps w t n).2.alloc_plan = w.alloc_plan ∧
    (mkstemps w t n).2.alloc_log = w.alloc_log ∧
    (mkstemps w t n).2.free_log = w.free_log := by
  unfold mkstemps
  dsimp only
  split
  · exact ⟨rfl, rfl, rfl, rfl⟩
  · split
    · exact ⟨rfl, rfl, rfl, rfl⟩
    · split <;> exact ⟨rfl, rfl, rfl, rfl⟩

theorem alloc_answer (w : World) (n : Nat) :
    (alloc_alloc w n).1 = w.alloc_plan.headD 0 ∧
    (alloc_alloc w n).2.alloc_plan = w.alloc_plan.tail ∧
    (alloc_alloc w n).2.alloc_log = w.alloc_log ++ [n] ∧
    (alloc_alloc w n).2.files = w.files ∧
    (alloc_alloc w n).2.free_log = w.free_log ∧
    (alloc_alloc w n).2.write_plan = w.write_plan := by
  unfold alloc_alloc
  split <;> rename_i h <;> simp [h]

theorem suffix_of_none (f : CStr) (h : char_dot ∉ f) : exif__suffix_of f = none := by
  induction f with
  | nil => rfl
  | cons c rest ih =>
    unfold exif__suffix_of
    rw [ih (fun hm => h (List.mem_cons_of_mem _ hm))]
    have hc : c ≠ char_dot := fun e => h (e ▸ List.mem_cons_self _ _)
    simp [hc]

theorem suffix_of_last_dot (pre s : CStr) (h : char_dot ∉ s) :
    exif__suffix_of (pre ++ char_dot :: s) = some s := by
  induction pre with
  | nil =>
    rw [List.nil_append]
    unfold exif__suffix_of
    rw [suffix_of_none s h]
    simp
  | cons c rest ih =>
    rw [List.cons_append]
    unfold exif__suffix_of
    rw [ih]

theorem tmp_template_eq (stem : CStr) (suffix : Option CStr) :
    tmp_template stem suffix = (stem ++ extension_of suffix).take 255 := by
  unfold tmp_template snprintf_s extension_of
  cases suffix with
  | none => simp
  | some s =>
    have : ascii "." = [char_dot] := by decide
    simp [this]

theorem tmp_suffixlen_eq (suffix : Option CStr) :
    tmp_suffixlen suffix = (extension_of suffix).length := by
  unfold tmp_suffixlen extension_of strlen
  cases suffix <;> simp

/-- The path `mkstemps` makes of a template built from `pre ++ "XXXXXX"` and a suffix, when
`pre` holds no X: the prefix, the replacement of the XXXXXX, and the whole extension.  When
the 256-byte buffer cuts the template short, `mkstemps` does not find the XXXXXX and fails. -/
theorem mkstemps_template_path (w : World) (pre : CStr) (suffix : Option CStr) (p : CStr)
    (hpre : char_X ∉ pre)
    (h : (mkstemps w (tmp_template (pre ++ List.replicate 6 char_X) suffix)
      (tmp_suffixlen suffix)).1 = some p) :
    ∃ name, w.mkstemps_plan.headD none = some name ∧ p = pre ++ name ++ extension_of suffix := by
  rw [tmp_template_eq, tmp_suffixlen_eq] at h
  generalize extension_of suffix = ext at h ⊢
  unfold mkstemps at h
  dsimp only at h
  split at h
  · cases h
  · rename_i hlen
    split at h
    · cases h
    · rename_i hmid
      simp only [ne_eq, not_not] at hmid
      have hfull : (pre ++ List.replicate 6 char_X ++ ext).length = pre.length + 6 + ext.length := by
        simp only [List.length_append, List.length_replicate]
      by_cases hfit : pre.length + 6 + ext.length ≤ 255
      · have ht : (pre ++ List.replicate 6 char_X ++ ext).take 255
            = pre ++ List.replicate 6 char_X ++ ext :=
          List.take_of_length_le (by rw [hfull]; exact hfit)
        rw [ht] at h
        rw [hfull] at h
        have e1 : pre.length + 6 + ext.length - ext.length - 6 = pre.length := by omega
        have e2 : pre.length + 6 + ext.length - ext.length = (pre ++ List.replicate 6 char_X).length := by
          simp
        rw [e1, e2, List.drop_left, List.append_assoc, List.take_left] at h
        split at h
        · cases h
        · rename_i name hn
          simp only [Option.some.injEq] at h
          exact ⟨name, hn, h.symm⟩
      · exfalso
        have hl : ((pre ++ List.replicate 6 char_X ++ ext).take 255).length = 255 := by
          rw [List.length_take, hfull]; omega
        rw [hl] at hmid hlen
        have hj : 255 - ext.length - 6 < pre.length := by omega
        have hh := congrArg List.head? hmid
        rw [List.head?_take, if_neg (by decide), List.head?_drop,
          List.getElem?_take_of_lt (by omega), List.append_assoc,
          List.getElem?_append_left hj] at hh
        have hx : pre[255 - ext.length - 6]? = some char_X := by
          rw [hh]; rfl
        exact hpre (List.getElem?_mem hx)

theorem size_t_of_nat {n : Nat} (h : n < 2 ^ 64) : size_t (n : Int) = n := by
  unfold size_t
  have h1 : ((n : Int) % 2 ^ 64) = (n : Int) :=
    Int.emod_eq_of_lt (Int.ofNat_nonneg n) (by exact_mod_cast h)
  rw [h1]
  exact Int.toNat_ofNat n

theorem size_t_succ {n : Nat} (h : n < 2 ^ 63) : size_t ((n : Int) + 1) = n + 1 := by
  have h2 : n + 1 < 2 ^ 64 := by omega
  have := size_t_of_nat h2
  push_cast at this
  exact this

theorem size_t_zero : size_t (-1 + 1) = 0 := by decide

theorem ftell_spec (w : World) (len : Nat) :
    (ftell_reports w len → (ftell w len).1 = (len : Int)) ∧
    (¬ ftell_reports w len → (ftell w len).1 = -1) ∧
    (ftell w len).2 = { w with ftell_plan := w.ftell_plan.tail } := by
  unfold ftell ftell_reports
  refine ⟨fun h => if_pos h, fun h => if_neg h, rfl⟩

theorem fopen_spec (w : World) (path : CStr) :
    (fopen_opens w → (fopen w path).1 = fs_read w.files path) ∧
    (¬ fopen_opens w → (fopen w path).1 = none) ∧
    (fopen w path).2 = { w with fopen_plan := w.fopen_plan.tail } := by
  unfold fopen fopen_opens
  exact ⟨fun h => if_pos h, fun h => if_neg h, rfl⟩

theorem alloc_alloc_exception (w : World) (n : Nat) :
    (alloc_alloc w n).2.exception = w.exception := by
  unfold alloc_alloc; split <;> rfl

theorem call_wasm_exception (w : World) (f : Fn) :
    (w.exception = none → (exif__call_wasm w f).2.2.exception = none) ∧
    ((exif__call_wasm w f).1 = true → (exif__call_wasm w f).2.2.exception = w.exception) ∧
    ((exif__call_wasm w f).1 = false → (exif__call_wasm w f).2.2.exception = none) := by
  unfold exif__call_wasm
  dsimp only
  split
  · refine ⟨fun _ => rfl, ?_, fun _ => rfl⟩
    intro h
    exact absurd h (by simp)
  · rename_i v hv
    have : (wasm_runtime_call_wasm_a w f []).2.exception = w.exception := by
      unfold wasm_runtime_call_wasm_a at hv ⊢
      dsimp only at hv ⊢
      rw [hv]
    refine ⟨fun h => this.trans h, fun _ => this, ?_⟩
    intro h
    exact absurd h (by simp)

theorem run_thread_env_exception (w : World) :
    (exif__run_thread_env w).2.exception = w.exception := by
  unfold exif__run_thread_env wasm_runtime_init_thread_env
  split
  · split <;> rfl
  · rfl

theorem run_call_exception (w : World) (l : RunLocals) :
    (w.exception = none → (exif__run_call w l).2.2.exception = none) ∧
    (∀ e, (w.guest_plan.headD default_step).outcome = .trap e →
      (exif__run_call w l).2.2.exception = none) := by
  have h1 : (wasm_runtime_call_wasm_a (lseek_set (ftruncate w)) .zeroperl_run_file
      [l.script_off % 2 ^ 32, l.wasm_ptrs.length, l.argv_off % 2 ^ 32]).1
      = (w.guest_plan.headD default_step).outcome := rfl
  unfold exif__run_call
  dsimp only
  rw [h1]
  cases ho : (w.guest_plan.headD default_step).outcome with
  | ret v =>
    refine ⟨fun h => ?_, fun e he => by cases he⟩
    dsimp only
    have : (wasm_runtime_call_wasm_a (lseek_set (ftruncate w)) .zeroperl_run_file
        [l.script_off % 2 ^ 32, l.wasm_ptrs.length, l.argv_off % 2 ^ 32]).2.exception
        = w.exception := by
      unfold wasm_runtime_call_wasm_a
      dsimp only
      have ho1 : ((lseek_set (ftruncate w)).guest_plan.headD default_step).outcome = .ret v := ho
      rw [ho1]
      rfl
    rw [this, h]
  | trap x =>
    have key : (match wasm_runtime_get_exception
        (wasm_runtime_call_wasm_a (lseek_set (ftruncate w)) .zeroperl_run_file
          [l.script_off % 2 ^ 32, l.wasm_ptrs.length, l.argv_off % 2 ^ 32]).2 with
      | some exc =>
        if strstr exc (ascii "wasi proc exit") then
          (int32 (wasm_runtime_call_wasm_a (lseek_set (ftruncate w)) .zeroperl_run_file
            [l.script_off % 2 ^ 32, l.wasm_ptrs.length, l.argv_off % 2 ^ 32]).2.wasi_exit_code,
           (none : Option ErrText),
           wasm_runtime_clear_exception (wasm_runtime_call_wasm_a (lseek_set (ftruncate w))
             .zeroperl_run_file
             [l.script_off % 2 ^ 32, l.wasm_ptrs.length, l.argv_off % 2 ^ 32]).2)
        else
          (-1, some ErrText.errbuf,
           wasm_runtime_clear_exception
             { (wasm_runtime_call_wasm_a (lseek_set (ftruncate w)) .zeroperl_run_file
                 [l.script_off % 2 ^ 32, l.wasm_ptrs.length, l.argv_off % 2 ^ 32]).2 with
               errbuf := snprintf_s 512 exc })
      | none =>
        (-1, some ErrText.errbuf,
         wasm_runtime_clear_exception
           { (wasm_runtime_call_wasm_a (lseek_set (ftruncate w)) .zeroperl_run_file
               [l.script_off % 2 ^ 32, l.wasm_ptrs.length, l.argv_off % 2 ^ 32]).2 with
             errbuf := snprintf_s 512 (ascii "unknown") })).2.2.exception = none := by
      split
      · split <;> rfl
      · rfl
    exact ⟨fun _ => key, fun _ _ => key⟩

theorem run_query_exception (w : World) (e : Option ErrText) (h : w.exception = none) :
    (exif__run_query w e).2.exception = none := by
  unfold exif__run_query exif__run_last_error
  have h1 := (call_wasm_exception w .zeroperl_flush).1 h
  cases e with
  | some x => exact h1
  | none =>
    dsimp only
    have h2 := (call_wasm_exception _ .zeroperl_last_error).1 h1
    split <;> exact h2

theorem read_stdout_exception (w : World) :
    (exif__read_stdout w).2.2.exception = w.exception := by
  have h0 : (lseek_end w).2.exception = w.exception := by
    obtain ⟨pos, h⟩ := (lseek_end_spec w).2.2
    rw [h]
  unfold exif__read_stdout
  dsimp only
  split
  · exact h0
  · split
    · rw [alloc_alloc_exception]; exact h0
    · unfold read_stdout_fd
      dsimp only
      split
      · dsimp only; rw [alloc_alloc_exception]; exact h0
      · dsimp only; rw [alloc_alloc_exception]; exact h0

theorem run_result_exception (w : World) (e : Option ErrText) (c : Int) :
    (exif__run_result w e c).2.exception = w.exception := by
  unfold exif__run_result
  cases e with
  | some x => exact alloc_alloc_exception _ _
  | none =>
    dsimp only
    split
    · exact alloc_alloc_exception _ _
    · exact read_stdout_exception w

theorem run_invoke_exception (w : World) (l : RunLocals) :
    (w.exception = none → (exif__run_invoke w l).2.exception = none) ∧
    (∀ e, (w.guest_plan.headD default_step).outcome = .trap e →
      (exif__run_invoke w l).2.exception = none) := by
  unfold exif__run_invoke
  dsimp only
  constructor
  · intro h
    rw [run_result_exception]
    exact run_query_exception _ _ ((run_call_exception w l).1 h)
  · intro e he
    rw [run_result_exception]
    exact run_query_exception _ _ ((run_call_exception w l).2 e he)

/-- The state in which a call reaches the run entry point differs from the state after the
reset at most in the guest heap, and the reset returned. -/
theorem prepare_ok_state {w : World} {ctx : exif} {tail : List CStr}
    {opts : Option exif_options_t} {l : RunLocals} {owned : Bool} {w1 : World}
    (h : exif__run_prepare w ctx tail opts = .ok (l, owned, w1)) :
    heap_only (reset_state w) w1 ∧
    (exif__call_wasm (exif__run_thread_env w).2 .zeroperl_reset).1 = true := by
  unfold exif__run_prepare at h
  dsimp only at h
  split at h
  · exact absurd h (by simp)
  · split at h
    · exact absurd h (by simp)
    · rename_i hr
      split at h
      · exact absurd h (by simp)
      · simp only [Except.ok.injEq, Prod.mk.injEq] at h
        obtain ⟨_, _, rfl⟩ := h
        refine ⟨heap_only_run_marshal _ _ _ _, ?_⟩
        cases hb : (exif__call_wasm (exif__run_thread_env w).2 .zeroperl_reset).1 with
        | true => rfl
        | false => exact absurd (Or.inl hb) hr

/-- A call of `exif__run` that starts with no exception pending ends with none pending,
whether it reaches the run entry point or not. -/
theorem run_exception_clear (w : World) (ctx : exif) (tail : List CStr)
    (opts : Option exif_options_t) (h : w.exception = none) :
    (exif__run w ctx tail opts).2.exception = none := by
  have henv := (run_thread_env_exception w).trans h
  have hreset := (call_wasm_exception (exif__run_thread_env w).2 .zeroperl_reset).1 henv
  cases hp : exif__run_prepare w ctx tail opts with
  | ok entry =>
    obtain ⟨l, owned, w1⟩ := entry
    rw [exif__run_of_prepare_ok hp, (heap_only_cleanup _ _ _).exception]
    refine (run_invoke_exception w1 l).1 ?_
    rw [(prepare_ok_state hp).1.exception]
    exact hreset
  | error early =>
    rw [exif__run_of_prepare_error hp]
    unfold exif__run_prepare at hp
    dsimp only at hp
    split at hp
    · simp only [Except.error.injEq] at hp
      rw [← hp]
      exact (alloc_alloc_exception _ _).trans henv
    · split at hp
      · simp only [Except.error.injEq] at hp
        rw [← hp, (heap_only_cleanup _ _ _).exception]
        exact (alloc_alloc_exception _ _).trans hreset
      · split at hp
        · simp only [Except.error.injEq] at hp
          rw [← hp, (heap_only_cleanup _ _ _).exception]
          refine (alloc_alloc_exception _ _).trans ?_
          rw [(heap_only_run_marshal _ _ _ _).exception]
          exact hreset
        · exact absurd hp (by simp)

theorem chan_write_end (c out : Bytes) : chan_write c c.length out = c ++ out := by
  unfold chan_write
  split
  · rename_i h; rw [h, List.append_nil]
  · simp

theorem call_wasm_a_channel (w : World) (f : Fn) (a : List Nat)
    (h : w.stdout_pos = w.stdout.length) :
    (wasm_runtime_call_wasm_a w f a).2.stdout
      = w.stdout ++ (w.guest_plan.headD default_step).output ∧
    (wasm_runtime_call_wasm_a w f a).2.stdout_pos
      = (wasm_runtime_call_wasm_a w f a).2.stdout.length ∧
    (wasm_runtime_call_wasm_a w f a).2.guest_plan = w.guest_plan.tail := by
  unfold wasm_runtime_call_wasm_a
  dsimp only
  rw [h, chan_write_end]
  exact ⟨rfl, by rw [List.length_append], rfl⟩

theorem call_wasm_channel (w : World) (f : Fn) (h : w.stdout_pos = w.stdout.length) :
    (exif__call_wasm w f).2.2.stdout = w.stdout ++ (w.guest_plan.headD default_step).output ∧
    (exif__call_wasm w f).2.2.stdout_pos = (exif__call_wasm w f).2.2.stdout.length ∧
    (exif__call_wasm w f).2.2.guest_plan = w.guest_plan.tail := by
  have hc := call_wasm_a_channel w f [] h
  unfold exif__call_wasm
  dsimp only
  split
  · exact hc
  · exact hc

theorem run_call_channel (w : World) (l : RunLocals) :
    (exif__run_call w l).2.2.stdout = (w.guest_plan.headD default_step).output ∧
    (exif__run_call w l).2.2.stdout_pos = (exif__run_call w l).2.2.stdout.length ∧
    (exif__run_call w l).2.2.guest_plan = w.guest_plan.tail := by
  have hc := call_wasm_a_channel (lseek_set (ftruncate w)) .zeroperl_run_file
    [l.script_off % 2 ^ 32, l.wasm_ptrs.length, l.argv_off % 2 ^ 32] rfl
  have h0 : (lseek_set (ftruncate w)).stdout = [] := rfl
  have h1 : (lseek_set (ftruncate w)).guest_plan = w.guest_plan := rfl
  rw [h0, h1, List.nil_append] at hc
  unfold exif__run_call
  dsimp only
  split
  · exact hc
  · split
    · split
      · exact hc
      · exact hc
    · exact hc

/-- When the result is built the channel holds exactly the bytes written since the run entry
point was invoked, and its offset is at their end. -/
theorem run_state_channel (w : World) (l : RunLocals) :
    (run_state w l).stdout = written_during w l ∧
    (run_state w l).stdout_pos = (run_state w l).stdout.length := by
  obtain ⟨c1, c2, c3⟩ := run_call_channel w l
  obtain ⟨f1, f2, f3⟩ := call_wasm_channel (exif__run_call w l).2.2 .zeroperl_flush c2
  unfold written_during
  cases ht : run_trapped w l with
  | some e =>
    have hs : run_state w l = (exif__call_wasm (exif__run_call w l).2.2 .zeroperl_flush).2.2 := by
      unfold run_trapped at ht
      unfold run_state exif__run_query exif__run_last_error
      rw [ht]
    rw [hs]
    refine ⟨?_, f2⟩
    rw [f1, c1, c3]
    simp
  | none =>
    rw [run_state_eq w l ht]
    unfold last_error_call flushed
    obtain ⟨e1, e2, _⟩ := call_wasm_channel
      (exif__call_wasm (exif__run_call w l).2.2 .zeroperl_flush).2.2 .zeroperl_last_error f2
    refine ⟨?_, e2⟩
    rw [e1, f1, f3, c1, c3]

theorem lseek_set_end (w : World) :
    lseek_set (lseek_end w).2 = { w with stdout_pos := 0, lseek_plan := w.lseek_plan.tail } := by
  obtain ⟨pos, h⟩ := (lseek_end_spec w).2.2
  rw [h]
  rfl

/-- Source `exif__read_stdout`, by cases: the channel is read when `lseek` reports a size that
is not 0. -/
theorem read_stdout_eq (w : World) :
    exif__read_stdout w
      = if lseek_reports w w.stdout.length ∧ w.stdout ≠ [] then
          (if (alloc_alloc (lseek_set (lseek_end w).2) (w.stdout.length + 1)).1 = 0 then
            (none, 0, (alloc_alloc (lseek_set (lseek_end w).2) (w.stdout.length + 1)).2)
          else
            (some ⟨(alloc_alloc (lseek_set (lseek_end w).2) (w.stdout.length + 1)).1,
                (read_stdout_fd (alloc_alloc (lseek_set (lseek_end w).2)
                  (w.stdout.length + 1)).2 w.stdout.length).2.1.take
                  (if (read_stdout_fd (alloc_alloc (lseek_set (lseek_end w).2)
                      (w.stdout.length + 1)).2 w.stdout.length).1 > 0
                   then (read_stdout_fd (alloc_alloc (lseek_set (lseek_end w).2)
                      (w.stdout.length + 1)).2 w.stdout.length).1.toNat else 0)⟩,
             (if (read_stdout_fd (alloc_alloc (lseek_set (lseek_end w).2)
                  (w.stdout.length + 1)).2 w.stdout.length).1 > 0
              then (read_stdout_fd (alloc_alloc (lseek_set (lseek_end w).2)
                  (w.stdout.length + 1)).2 w.stdout.length).1.toNat else 0),
             (read_stdout_fd (alloc_alloc (lseek_set (lseek_end w).2)
                (w.stdout.length + 1)).2 w.stdout.length).2.2))
        else (none, 0, (lseek_end w).2) := by
  obtain ⟨h1, h2, _⟩ := lseek_end_spec w
  unfold exif__read_stdout
  dsimp only
  by_cases hr : lseek_reports w w.stdout.length
  · rw [h1 hr]
    by_cases hn : w.stdout = []
    · have hz : ((w.stdout.length : Nat) : Int) ≤ 0 := by rw [hn]; simp
      rw [if_pos hz, if_neg (fun h => h.2 hn)]
    · have hz : ¬ ((w.stdout.length : Nat) : Int) ≤ 0 := by
        have : 0 < w.stdout.length := List.length_pos.mpr hn
        omega
      rw [if_neg hz, size_t_succ hr.2,
        size_t_of_nat (n := w.stdout.length) (by have := hr.2; omega),
        if_pos (show lseek_reports w w.stdout.length ∧ w.stdout ≠ [] from ⟨hr, hn⟩)]
  · rw [h2 hr, if_pos (by decide), if_neg (fun h => hr h.1)]

theorem read_stdout_spec (w : World) :
    (exif__read_stdout w).2.1 ≤ w.stdout.length ∧
    (∀ b, (exif__read_stdout w).1 = some b →
      b.bytes = w.stdout.take (exif__read_stdout w).2.1) ∧
    (w.stdout = [] → (exif__read_stdout w).1 = none ∧ (exif__read_stdout w).2.1 = 0) ∧
    (w.stdout ≠ [] → reads_back w →
      (exif__read_stdout w).1 = some ⟨w.alloc_plan.headD 0, w.stdout⟩ ∧
      (exif__read_stdout w).2.1 = w.stdout.length) := by
  have ha := alloc_answer (lseek_set (lseek_end w).2) (w.stdout.length + 1)
  have hst : (alloc_alloc (lseek_set (lseek_end w).2) (w.stdout.length + 1)).2.stdout
      = w.stdout := by
    rw [lseek_set_end]
    unfold alloc_alloc; split <;> rfl
  have hpos : (alloc_alloc (lseek_set (lseek_end w).2) (w.stdout.length + 1)).2.stdout_pos
      = 0 := by
    rw [lseek_set_end]
    unfold alloc_alloc; split <;> rfl
  have hrp : (alloc_alloc (lseek_set (lseek_end w).2) (w.stdout.length + 1)).2.read_plan
      = w.read_plan := by
    rw [lseek_set_end]
    unfold alloc_alloc; split <;> rfl
  have hap : (lseek_set (lseek_end w).2).alloc_plan = w.alloc_plan := by
    rw [lseek_set_end]
  rw [hap] at ha
  rw [read_stdout_eq]
  by_cases h0 : lseek_reports w w.stdout.length ∧ w.stdout ≠ []
  · rw [if_pos h0]
    have hne : w.stdout ≠ [] := h0.2
    by_cases ha0 : (alloc_alloc (lseek_set (lseek_end w).2) (w.stdout.length + 1)).1 = 0
    · rw [if_pos ha0]
      refine ⟨Nat.zero_le _, ?_, fun e => absurd e hne, ?_⟩
      · intro b hb
        cases hb
      · intro _ hrb
        exact absurd (ha.1.symm.trans ha0) hrb.2.1
    · rw [if_neg ha0]
      unfold read_stdout_fd
      dsimp only
      rw [hst, hpos, hrp, List.drop_zero, Nat.min_self]
      by_cases hr : w.read_plan.headD (w.stdout.length : Int) < 0
      · rw [if_pos hr]
        dsimp only
        refine ⟨by simp, ?_, fun e => absurd e hne, ?_⟩
        · intro b hb
          simp only [Option.some.injEq] at hb
          rw [← hb]
          simp
        · intro _ hrb
          have := hrb.2.2
          omega
      · rw [if_neg hr]
        dsimp only
        generalize hn : min (w.read_plan.headD (w.stdout.length : Int)).toNat w.stdout.length = n
        have hle : n ≤ w.stdout.length := by rw [← hn]; exact Nat.min_le_right _ _
        have hlen : (if (n : Int) > 0 then (n : Int).toNat else 0) = n := by
          split
          · exact Int.toNat_ofNat n
          · rename_i hgt
            omega
        rw [hlen]
        refine ⟨hle, ?_, fun e => absurd e hne, ?_⟩
        · intro b hb
          simp only [Option.some.injEq] at hb
          rw [← hb]
          simp
        · intro _ hrb
          have hfull : n = w.stdout.length := by
            rw [← hn]
            have := hrb.2.2
            omega
          rw [hfull, List.take_length, List.take_length, ha.1]
          exact ⟨rfl, rfl⟩
  · rw [if_neg h0]
    refine ⟨Nat.zero_le _, ?_, fun _ => ⟨rfl, rfl⟩, fun hne hrb => absurd ⟨hrb.1, hne⟩ h0⟩
    intro b hb
    cases hb

/-- A successful Result of a call that reached the run entry point is the one read back from
the channel. -/
theorem run_success_is_captured {w : World} {ctx : exif} {tail : List CStr}
    {opts : Option exif_options_t} {l : RunLocals} {owned : Bool} {w1 : World}
    (h : exif__run_prepare w ctx tail opts = .ok (l, owned, w1))
    (hs : (exif__run w ctx tail opts).1.success = true) :
    (exif__run w ctx tail opts).1 = captured (run_state w1 l) := by
  obtain ⟨p1, p2, p3⟩ := result_by_precedence w ctx tail opts l owned w1 h
  cases he : run_error w1 l with
  | some e => rw [p1 e he] at hs; cases hs
  | none =>
    by_cases hc : run_exit_code w1 l = 0
    · exact p3 he hc
    · rw [p2 he hc] at hs; cases hs

/-- The content of a successful Result, in terms of the bytes written during the call. -/
theorem run_success_content {w : World} {ctx : exif} {tail : List CStr}
    {opts : Option exif_options_t} {l : RunLocals} {owned : Bool} {w1 : World}
    (h : exif__run_prepare w ctx tail opts = .ok (l, owned, w1))
    (hs : (exif__run w ctx tail opts).1.success = true) :
    (exif__run w ctx tail opts).1.data_len ≤ (written_during w1 l).length ∧
    (∀ b, (exif__run w ctx tail opts).1.data = some b →
      b.bytes = (written_during w1 l).take (exif__run w ctx tail opts).1.data_len) ∧
    (reads_back (run_state w1 l) →
      content (exif__run w ctx tail opts).1
        = (if written_during w1 l = [] then none else some (written_during w1 l),
           (written_during w1 l).length)) := by
  obtain ⟨hst, _⟩ := run_state_channel w1 l
  obtain ⟨r1, r2, r3, r4⟩ := read_stdout_spec (run_state w1 l)
  rw [run_success_is_captured h hs]
  rw [hst] at r1 r2 r3 r4
  refine ⟨r1, r2, ?_⟩
  intro hrb
  unfold content captured
  dsimp only
  by_cases hw : written_during w1 l = []
  · rw [if_pos hw, (r3 hw).1, (r3 hw).2, hw]
    rfl
  · rw [if_neg hw, (r4 hw hrb).1, (r4 hw hrb).2]
    rfl

/-- The second leak of `exif_create`: when the scratch file of the channel is opened as
descriptor 0 and a later step fails, `exif_destroy` does not close it (`stdout_fd > 0`). -/
theorem exif_create_keeps_descriptor_zero :
    (exif_create stdin_closed demo_aot demo_script none).1 = none ∧
    (exif_create stdin_closed demo_aot demo_script none).2.events
      = [.wasm_runtime_init, .wasm_runtime_register_natives, .wasm_runtime_load, .mkstemp 0,
         .wasm_runtime_set_wasi_args_ex 0, .wasm_runtime_unload, .wasm_runtime_destroy] ∧
    held_after [] (exif_create stdin_closed demo_aot demo_script none).2.events
      = some [.descriptor 0] := by
  decide

/-- With descriptor 3 the same failure is unwound: the descriptor is closed, the script temp
file is unlinked and the three blocks are freed. -/
theorem exif_create_unwinds_example :
    (exif_create no_instance demo_aot demo_script none).1 = none ∧
    (exif_create no_instance demo_aot demo_script none).2.events
      = [.wasm_runtime_init, .wasm_runtime_register_natives, .wasm_runtime_load, .mkstemp 3,
         .wasm_runtime_set_wasi_args_ex 3, .wasm_runtime_unload, .wasm_runtime_destroy,
         .close 3] ∧
    held_after [] (exif_create no_instance demo_aot demo_script none).2.events = some [] ∧
    (exif_create no_instance demo_aot demo_script none).2.world.free_log
      = [4096, 12288, 8192] ∧
    (exif_create no_instance demo_aot demo_script none).2.world.files = [] := by
  decide

theorem call_wasm_frame (w : World) (f : Fn) :
    (exif__call_wasm w f).2.2.free_log = w.free_log ∧
    (exif__call_wasm w f).2.2.alloc_plan = w.alloc_plan ∧
    (exif__call_wasm w f).2.2.alloc_log = w.alloc_log := by
  unfold exif__call_wasm
  dsimp only
  split <;> exact ⟨rfl, rfl, rfl⟩

theorem log_events (x : Host) (e : Event) : (x.log e).events = x.events ++ [e] := rfl

theorem log_world (x : Host) (e : Event) : (x.log e).world = x.world := rfl

theorem on_events (x : Host) (w : World) : (x.on w).events = x.events := rfl

theorem on_world (x : Host) (w : World) : (x.on w).world = w := rfl

theorem ite_log_world (b : Prop) [Decidable b] (x : Host) (e : Event) :
    (if b then x.log e else x).world = x.world := by
  split <;> rfl

theorem ite_log_events (b : Prop) [Decidable b] (x : Host) (e : Event) :
    (if b then x.log e else x).events = x.events ++ (if b then [e] else []) := by
  split <;> simp [log_events]

theorem destroy_spec (h : Host) (c : exif_handles) :
    (exif_destroy h (some c)).events = h.events ++ destroy_events c ∧
    (exif_destroy h (some c)).world.free_log = h.world.free_log ++ destroy_frees c ∧
    (exif_destroy h (some c)).world.alloc_plan = h.world.alloc_plan ∧
    (exif_destroy h (some c)).world.alloc_log = h.world.alloc_log ∧
    (∀ p, c.script_path = some p →
      fs_read (exif_destroy h (some c)).world.files p.bytes = none) := by
  unfold exif_destroy destroy_events destroy_frees
  dsimp only
  generalize hh1 : (if (c.fn_free_interp && c.env) = true then
      h.on (exif__call_wasm h.world .zeroperl_free_interpreter).2.2 else h) = h1
  have e1 : h1.events = h.events ∧ h1.world.free_log = h.world.free_log ∧
      h1.world.alloc_plan = h.world.alloc_plan ∧ h1.world.alloc_log = h.world.alloc_log := by
    rw [← hh1]
    split
    · exact ⟨rfl, (call_wasm_frame _ _).1, (call_wasm_frame _ _).2.1, (call_wasm_frame _ _).2.2⟩
    · exact ⟨rfl, rfl, rfl, rfl⟩
  obtain ⟨e1a, e1b, e1c, e1d⟩ := e1
  rw [← e1a, ← e1b, ← e1c, ← e1d]
  clear hh1 e1a e1b e1c e1d
  obtain ⟨addr, module, inst, env, f1, f2, f3, f4, f5, wasm_buf, stdout_fd, script_path⟩ := c
  dsimp only
  refine ⟨?_, ?_, ?_, ?_, ?_⟩
  · cases wasm_buf <;> cases script_path <;>
      simp only [on_events, log_events, ite_log_events, List.append_assoc]
  · cases wasm_buf <;> cases script_path <;>
      simp [on_world, log_world, ite_log_world, alloc_free, unlink, addr_of]
  · cases wasm_buf <;> cases script_path <;>
      simp [on_world, log_world, ite_log_world, alloc_free, unlink]
  · cases wasm_buf <;> cases script_path <;>
      simp [on_world, log_world, ite_log_world, alloc_free, unlink]
  · intro p hp
    subst hp
    cases wasm_buf <;>
      simp [on_world, log_world, ite_log_world, alloc_free, unlink, fs_read_unlink_self]

/-- The failure paths of source lines 342-377 of `exif_create`: `exif_destroy` releases the
module and the runtime, the instance and the execution environment when they exist, and the
descriptor of the channel unless it is 0; it frees the module image, the script path and the
context, and unlinks the script temp file. -/
theorem create_instance_unwinds (h : Host) (ctx : exif_handles) (ws wh es : Nat)
    (hm : ctx.module = true) (hi : ctx.inst = false) (he : ctx.env = false)
    (hnull : (exif_create_instance h ctx ws wh es).1 = none) :
    (∃ ev, (exif_create_instance h ctx ws wh es).2.events = h.events ++ ev ∧
      ev.count .wasm_runtime_destroy = 1 ∧
      (h.free_fd ≠ 0 → held_after [.module, .runtime] ev = some [])) ∧
    (exif_create_instance h ctx ws wh es).2.world.free_log
      = h.world.free_log ++ destroy_frees ctx ∧
    (exif_create_instance h ctx ws wh es).2.world.alloc_plan = h.world.alloc_plan ∧
    (exif_create_instance h ctx ws wh es).2.world.alloc_log = h.world.alloc_log ∧
    (∀ p, ctx.script_path = some p →
      fs_read (exif_create_instance h ctx ws wh es).2.world.files p.bytes = none) := by
  have hmk := mkstemps_frame h.world (ascii "/tmp/libexif_stdout_XXXXXX") 0
  obtain ⟨-, hmk2, hmk3, hmk4⟩ := hmk
  unfold exif_create_instance at hnull ⊢
  dsimp only at hnull ⊢
  split
  · -- the scratch file cannot be created
    unfold fail_ctx
    dsimp only
    obtain ⟨d1, d2, d3, d4, d5⟩ := destroy_spec
      (h.on (mkstemps h.world (ascii "/tmp/libexif_stdout_XXXXXX") 0).2)
      { ctx with stdout_fd := -1 }
    rw [d1, d2, d3, d4, on_events, on_world, hmk2, hmk3, hmk4]
    refine ⟨⟨_, rfl, ?_, ?_⟩, rfl, rfl, rfl, fun p hp => d5 p hp⟩
    · simp [destroy_events, hm, hi, he]
    · intro _
      simp [destroy_events, hm, hi, he, held_after, Event.releases, Event.acquires]
  · rename_i stdout_tmpl hs
    rw [hs] at hnull
    dsimp only at hnull
    have hfd : h.free_fd ≠ 0 → (h.free_fd : Int) > 0 := fun hne => by omega
    split
    · -- the module cannot be instantiated
      unfold fail_ctx
      dsimp only
      obtain ⟨d1, d2, d3, d4, d5⟩ := destroy_spec
        (((h.on (unlink (mkstemps h.world (ascii "/tmp/libexif_stdout_XXXXXX") 0).2
          stdout_tmpl)).log (.mkstemp (h.free_fd : Int))).log
            (.wasm_runtime_set_wasi_args_ex (h.free_fd : Int)))
        { ctx with stdout_fd := (h.free_fd : Int) }
      rw [d1, d2, d3, d4]
      simp only [log_events, log_world, on_events, on_world, List.append_assoc]
      refine ⟨⟨_, rfl, ?_, ?_⟩, ?_, hmk2, hmk3, fun p hp => d5 p hp⟩
      · by_cases h0 : (h.free_fd : Int) > 0 <;> simp [destroy_events, hm, hi, he, h0]
      · intro hne
        simp [destroy_events, hm, hi, he, hfd hne, held_after, Event.releases, Event.acquires]
      · show (unlink _ _).free_log ++ _ = _
        rw [show ∀ (w : World) (p : CStr), (unlink w p).free_log = w.free_log from
          fun _ _ => rfl, hmk4]
        rfl
    · rename_i hinst
      rw [if_neg hinst] at hnull
      split
      · -- no execution environment
        unfold fail_ctx
        dsimp only
        obtain ⟨d1, d2, d3, d4, d5⟩ := destroy_spec
          ((((h.on (unlink (mkstemps h.world (ascii "/tmp/libexif_stdout_XXXXXX") 0).2
            stdout_tmpl)).log (.mkstemp (h.free_fd : Int))).log
              (.wasm_runtime_set_wasi_args_ex (h.free_fd : Int))).log
                (.wasm_runtime_instantiate ws wh))
          { ctx with stdout_fd := (h.free_fd : Int), inst := true }
        rw [d1, d2, d3, d4]
        simp only [log_events, log_world, on_events, on_world, List.append_assoc]
        refine ⟨⟨_, rfl, ?_, ?_⟩, ?_, hmk2, hmk3, fun p hp => d5 p hp⟩
        · by_cases h0 : (h.free_fd : Int) > 0 <;> simp [destroy_events, hm, he, h0]
        · intro hne
          simp [destroy_events, hm, he, hfd hne, held_after, Event.releases, Event.acquires]
        · show (unlink _ _).free_log ++ _ = _
          rw [show ∀ (w : World) (p : CStr), (unlink w p).free_log = w.free_log from
            fun _ _ => rfl, hmk4]
          rfl
      · rename_i henv
        rw [if_neg henv] at hnull
        split
        · -- an entry point is missing
          unfold fail_ctx
          dsimp only
          generalize hc3 : ({ ctx with
            stdout_fd := (h.free_fd : Int), inst := true, env := true
            fn_reset := _, fn_run_file := _, fn_flush := _, fn_last_error := _,
            fn_free_interp := _ } : exif_handles) = c3
          have c3m : c3.module = true := by rw [← hc3]; exact hm
          have c3i : c3.inst = true := by rw [← hc3]
          have c3e : c3.env = true := by rw [← hc3]
          have c3f : c3.stdout_fd = (h.free_fd : Int) := by rw [← hc3]
          have c3d : destroy_frees c3 = destroy_frees ctx := by rw [← hc3]; rfl
          have c3s : c3.script_path = ctx.script_path := by rw [← hc3]
          obtain ⟨d1, d2, d3, d4, d5⟩ := destroy_spec
            (((((h.on (unlink (mkstemps h.world (ascii "/tmp/libexif_stdout_XXXXXX") 0).2
              stdout_tmpl)).log (.mkstemp (h.free_fd : Int))).log
                (.wasm_runtime_set_wasi_args_ex (h.free_fd : Int))).log
                  (.wasm_runtime_instantiate ws wh)).log (.wasm_runtime_create_exec_env es))
            c3
          rw [d1, d2, d3, d4, c3d]
          simp only [log_events, log_world, on_events, on_world, List.append_assoc]
          refine ⟨⟨_, rfl, ?_, ?_⟩, ?_, hmk2, hmk3, fun p hp => d5 p (c3s.trans hp)⟩
          · by_cases h0 : (h.free_fd : Int) > 0 <;>
              simp [destroy_events, c3m, c3i, c3e, c3f, h0]
          · intro hne
            simp [destroy_events, c3m, c3i, c3e, c3f, hfd hne, held_after, Event.releases,
              Event.acquires]
          · show (unlink _ _).free_log ++ _ = _
            rw [show ∀ (w : World) (p : CStr), (unlink w p).free_log = w.free_log from
              fun _ _ => rfl, hmk4]
        · rename_i hlook
          rw [if_neg hlook] at hnull
          simp only [log_world, on_world] at hnull ⊢
          split
          · -- the interpreter's init fails
            unfold fail_ctx
            dsimp only
            generalize hc3 : ({ ctx with
              stdout_fd := (h.free_fd : Int), inst := true, env := true
              fn_reset := _, fn_run_file := _, fn_flush := _, fn_last_error := _,
              fn_free_interp := _ } : exif_handles) = c3
            have c3m : c3.module = true := by rw [← hc3]; exact hm
            have c3i : c3.inst = true := by rw [← hc3]
            have c3e : c3.env = true := by rw [← hc3]
            have c3f : c3.stdout_fd = (h.free_fd : Int) := by rw [← hc3]
            have c3d : destroy_frees c3 = destroy_frees ctx := by rw [← hc3]; rfl
            have c3s : c3.script_path = ctx.script_path := by rw [← hc3]
            obtain ⟨d1, d2, d3, d4, d5⟩ := destroy_spec
              ((((((h.on (unlink (mkstemps h.world (ascii "/tmp/libexif_stdout_XXXXXX") 0).2
                stdout_tmpl)).log (.mkstemp (h.free_fd : Int))).log
                  (.wasm_runtime_set_wasi_args_ex (h.free_fd : Int))).log
                    (.wasm_runtime_instantiate ws wh)).log
                      (.wasm_runtime_create_exec_env es)).on
                (exif__call_wasm (unlink (mkstemps h.world (ascii "/tmp/libexif_stdout_XXXXXX")
                  0).2 stdout_tmpl) .zeroperl_init).2.2)
              c3
            rw [d1, d2, d3, d4, c3d]
            simp only [log_events, log_world, on_events, on_world, List.append_assoc]
            obtain ⟨k1, k2, k3⟩ := call_wasm_frame (unlink (mkstemps h.world
              (ascii "/tmp/libexif_stdout_XXXXXX") 0).2 stdout_tmpl) .zeroperl_init
            refine ⟨⟨_, rfl, ?_, ?_⟩, ?_, k2.trans hmk2, k3.trans hmk3,
              fun p hp => d5 p (c3s.trans hp)⟩
            · by_cases h0 : (h.free_fd : Int) > 0 <;>
                simp [destroy_events, c3m, c3i, c3e, c3f, h0]
            · intro hne
              simp [destroy_events, c3m, c3i, c3e, c3f, hfd hne, held_after, Event.releases,
                Event.acquires]
            · rw [k1]
              show (unlink _ _).free_log ++ _ = _
              rw [show ∀ (w : World) (p : CStr), (unlink w p).free_log = w.free_log from
                fun _ _ => rfl, hmk4]
          · rename_i hinit
            rw [if_neg hinit] at hnull
            cases hnull

theorem ledger_refl (w : World) : ledger w w [] :=
  ⟨[], [], rfl, (List.append_nil _).symm, List.Perm.refl _⟩

theorem ledger_step {w u u1 : World} {live live1 : List Nat} (used1 fr1 : List Nat)
    (h : ledger w u live)
    (hp : u.alloc_plan = used1 ++ u1.alloc_plan) (hf : u1.free_log = u.free_log ++ fr1)
    (hperm : (fr1 ++ live1).Perm (live ++ used1.filter (fun a => a ≠ 0))) :
    ledger w u1 live1 := by
  obtain ⟨used, fr, e1, e2, e3⟩ := h
  refine ⟨used ++ used1, fr ++ fr1, ?_, ?_, ?_⟩
  · rw [e1, hp, List.append_assoc]
  · rw [hf, e2, List.append_assoc]
  · rw [List.filter_append, List.append_assoc]
    exact (List.Perm.append_left fr hperm).trans
      (by rw [← List.append_assoc]; exact List.Perm.append_right _ e3)

theorem ledger_frame {w u u1 : World} {live : List Nat} (h : ledger w u live)
    (hp : u1.alloc_plan = u.alloc_plan) (hf : u1.free_log = u.free_log) : ledger w u1 live :=
  ledger_step [] [] h (by rw [hp]; rfl) (by rw [hf, List.append_nil])
    (by simp)

theorem ledger_done {w u : World} (h : ledger w u []) :
    (freed w u).Perm (handed_out w u) := by
  obtain ⟨used, fr, e1, e2, e3⟩ := h
  unfold freed handed_out
  rw [e2, List.drop_left, e1, List.length_append, Nat.add_sub_cancel, List.take_left]
  simpa using e3

theorem alloc_split (w : World) (n : Nat) :
    ∃ used, w.alloc_plan = used ++ (alloc_alloc w n).2.alloc_plan ∧
      used.filter (fun a => a ≠ 0)
        = (if (alloc_alloc w n).1 = 0 then [] else [(alloc_alloc w n).1]) := by
  unfold alloc_alloc
  split
  · rename_i hnil
    exact ⟨[], by rw [hnil]; rfl, rfl⟩
  · rename_i a rest hcons
    refine ⟨[a], by rw [hcons]; rfl, ?_⟩
    by_cases ha : a = 0 <;> simp [ha]

theorem write_tmpfile_split (w : World) (data : Bytes) (suffix : Option CStr) :
    (exif__write_tmpfile w data suffix).2.free_log = w.free_log ∧
    ∃ used, w.alloc_plan = used ++ (exif__write_tmpfile w data suffix).2.alloc_plan ∧
      used.filter (fun a => a ≠ 0)
        = (match (exif__write_tmpfile w data suffix).1 with
           | some p => [p.addr]
           | none => []) := by
  obtain ⟨-, m2, -, m4⟩ := mkstemps_frame w (tmp_template (ascii "/tmp/libexif_XXXXXX") suffix)
    (tmp_suffixlen suffix)
  unfold exif__write_tmpfile
  dsimp only
  split
  · exact ⟨m4, [], by rw [m2]; rfl, rfl⟩
  · rename_i path_buf hfd
    split
    · exact ⟨m4, [], by rw [List.nil_append]; exact m2.symm, rfl⟩
    · dsimp only
      generalize hw1 : ({ (mkstemps w (tmp_template (ascii "/tmp/libexif_XXXXXX") suffix)
          (tmp_suffixlen suffix)).2 with write_plan := _, files := _ } : World) = w1
      have p1 : w1.alloc_plan = w.alloc_plan := by rw [← hw1]; exact m2
      have f1 : w1.free_log = w.free_log := by rw [← hw1]; exact m4
      obtain ⟨used, hu, hf⟩ := alloc_split w1 (strlen path_buf + 1)
      refine ⟨((alloc_answer _ _).2.2.2.2.1).trans f1, used, by rw [← p1]; exact hu, ?_⟩
      rw [hf]
      unfold filled
      split <;> rfl

theorem create_context_error {h : Host} {aot script : Bytes} {u : Host}
    (he : exif_create_context h aot script = .error u) :
    (∃ ev, u.events = h.events ++ ev ∧
      ev.count .wasm_runtime_destroy = (if h.wasm_runtime_init_ok then 1 else 0) ∧
      held_after [] ev = some []) ∧
    ledger h.world u.world [] := by
  unfold exif_create_context at he
  dsimp only at he
  split at he
  · rename_i h0
    simp only [Except.error.injEq] at he
    subst he
    exact ⟨⟨[], (List.append_nil _).symm, by simp [h0], rfl⟩, ledger_refl _⟩
  · rename_i h0
    have hinit : h.wasm_runtime_init_ok = true := by
      cases hb : h.wasm_runtime_init_ok with
      | true => rfl
      | false => exact absurd hb h0
    split at he
    · simp only [Except.error.injEq] at he
      subst he
      refine ⟨⟨[.wasm_runtime_init, .wasm_runtime_destroy], ?_, by simp [hinit], by decide⟩,
        ledger_refl _⟩
      simp [fail_runtime, log_events]
    · obtain ⟨used1, hu1, hf1⟩ := alloc_split h.world aot.length
      have a1 := alloc_answer h.world aot.length
      simp only [log_world, on_world] at he
      split at he
      · rename_i hb
        simp only [Except.error.injEq] at he
        subst he
        refine ⟨⟨[.wasm_runtime_init, .wasm_runtime_register_natives, .wasm_runtime_destroy],
          ?_, by simp [hinit], by decide⟩, ?_⟩
        · simp [fail_runtime, log_events, on_events]
        · have hz : (alloc_alloc h.world aot.length).1 = 0 := by
            unfold filled at hb
            split at hb
            · assumption
            · cases hb
          rw [hz] at hf1
          exact ledger_step _ _ (ledger_refl _) hu1
            (show _ = _ ++ ([] : List Nat) by rw [List.append_nil]; exact a1.2.2.2.2.1)
            (by rw [hf1]; simp)
      · rename_i wasm_buf hb
        have hbuf : (alloc_alloc h.world aot.length).1 ≠ 0 ∧
            wasm_buf.addr = (alloc_alloc h.world aot.length).1 := by
          unfold filled at hb
          split at hb
          · cases hb
          · rename_i hne
            simp only [Option.some.injEq] at hb
            exact ⟨hne, by rw [← hb]⟩
        rw [if_neg hbuf.1] at hf1
        rw [← hbuf.2] at hf1
        have l1 : ledger h.world (alloc_alloc h.world aot.length).2 [wasm_buf.addr] :=
          ledger_step _ _ (ledger_refl _) hu1
            (show _ = _ ++ ([] : List Nat) by rw [List.append_nil]; exact a1.2.2.2.2.1)
            (by rw [hf1])
        split at he
        · simp only [Except.error.injEq] at he
          subst he
          refine ⟨⟨[.wasm_runtime_init, .wasm_runtime_register_natives,
            .wasm_runtime_destroy], ?_, by simp [hinit], by decide⟩, ?_⟩
          · simp [fail_buf, fail_runtime, log_events, on_events]
          · exact ledger_step [] [wasm_buf.addr] l1 rfl rfl
              (by simp)
        · obtain ⟨used2, hu2, hf2⟩ := alloc_split (alloc_alloc h.world aot.length).2 sizeof_exif
          have a2 := alloc_answer (alloc_alloc h.world aot.length).2 sizeof_exif
          split at he
          · rename_i hc
            simp only [Except.error.injEq] at he
            subst he
            refine ⟨⟨[.wasm_runtime_init, .wasm_runtime_register_natives, .wasm_runtime_load,
              .wasm_runtime_unload, .wasm_runtime_destroy], ?_, by simp [hinit], by decide⟩, ?_⟩
            · simp [fail_module, fail_buf, fail_runtime, log_events, on_events]
            · rw [if_pos hc] at hf2
              have l2 : ledger h.world
                  (alloc_alloc (alloc_alloc h.world aot.length).2 sizeof_exif).2
                  [wasm_buf.addr] :=
                ledger_step _ _ l1 hu2
                  (show _ = _ ++ ([] : List Nat) by rw [List.append_nil]; exact a2.2.2.2.2.1)
                  (by rw [hf2]; simp)
              exact ledger_step [] [wasm_buf.addr] l2 rfl rfl (by simp)
          · rename_i hc
            rw [if_neg hc] at hf2
            have l2 : ledger h.world
                (alloc_alloc (alloc_alloc h.world aot.length).2 sizeof_exif).2
                [wasm_buf.addr,
                 (alloc_alloc (alloc_alloc h.world aot.length).2 sizeof_exif).1] :=
              ledger_step _ _ l1 hu2
                (show _ = _ ++ ([] : List Nat) by rw [List.append_nil]; exact a2.2.2.2.2.1)
                (by rw [hf2]; simp)
            obtain ⟨tf, used3, hu3, hf3⟩ := write_tmpfile_split
              (alloc_alloc (alloc_alloc h.world aot.length).2 sizeof_exif).2 script none
            split at he
            · rename_i ht
              simp only [Except.error.injEq] at he
              subst he
              rw [ht] at hf3
              have l3 : ledger h.world (exif__write_tmpfile
                  (alloc_alloc (alloc_alloc h.world aot.length).2 sizeof_exif).2 script none).2
                  [wasm_buf.addr,
                   (alloc_alloc (alloc_alloc h.world aot.length).2 sizeof_exif).1] :=
                ledger_step _ _ l2 hu3
                  (show _ = _ ++ ([] : List Nat) by rw [List.append_nil]; exact tf)
                  (by rw [hf3]; simp)
              unfold fail_ctx
              dsimp only
              obtain ⟨d1, d2, d3, -, -⟩ := destroy_spec
                ((((h.log .wasm_runtime_init).log .wasm_runtime_register_natives).on
                    (alloc_alloc h.world aot.length).2 |>.log .wasm_runtime_load).on
                  (alloc_alloc (alloc_alloc h.world aot.length).2 sizeof_exif).2 |>.on
                    (exif__write_tmpfile
                      (alloc_alloc (alloc_alloc h.world aot.length).2 sizeof_exif).2
                      script none).2)
                { addr := (alloc_alloc (alloc_alloc h.world aot.length).2 sizeof_exif).1,
                  module := true, inst := false, env := false, fn_reset := false,
                  fn_run_file := false, fn_flush := false, fn_last_error := false,
                  fn_free_interp := false, wasm_buf := some wasm_buf, stdout_fd := 0,
                  script_path := none }
              refine ⟨⟨[.wasm_runtime_init, .wasm_runtime_register_natives,
                .wasm_runtime_load, .wasm_runtime_unload, .wasm_runtime_destroy], ?_,
                by simp [hinit], by decide⟩, ?_⟩
              · rw [d1]
                simp [destroy_events, log_events, on_events]
              · refine ledger_step [] _ l3 (by rw [d3]; rfl) d2 ?_
                simp [destroy_frees]
            · cases he

theorem create_context_ok {h : Host} {aot script : Bytes} {ctx : exif_handles} {h6 : Host}
    (he : exif_create_context h aot script = .ok (ctx, h6)) :
    h6.events = h.events
      ++ [.wasm_runtime_init, .wasm_runtime_register_natives, .wasm_runtime_load] ∧
    h.wasm_runtime_init_ok = true ∧ h6.free_fd = h.free_fd ∧
    ctx.module = true ∧ ctx.inst = false ∧ ctx.env = false ∧
    (∃ p, ctx.script_path = some p) ∧
    ledger h.world h6.world (destroy_frees ctx) := by
  unfold exif_create_context at he
  dsimp only at he
  split at he
  · cases he
  · rename_i h0
    have hinit : h.wasm_runtime_init_ok = true := by
      cases hb : h.wasm_runtime_init_ok with
      | true => rfl
      | false => exact absurd hb h0
    split at he
    · cases he
    · obtain ⟨used1, hu1, hf1⟩ := alloc_split h.world aot.length
      have a1 := alloc_answer h.world aot.length
      simp only [log_world, on_world] at he
      split at he
      · cases he
      · rename_i wasm_buf hb
        have hbuf : (alloc_alloc h.world aot.length).1 ≠ 0 ∧
            wasm_buf.addr = (alloc_alloc h.world aot.length).1 := by
          unfold filled at hb
          split at hb
          · cases hb
          · rename_i hne
            simp only [Option.some.injEq] at hb
            exact ⟨hne, by rw [← hb]⟩
        rw [if_neg hbuf.1] at hf1
        rw [← hbuf.2] at hf1
        have l1 : ledger h.world (alloc_alloc h.world aot.length).2 [wasm_buf.addr] :=
          ledger_step _ _ (ledger_refl _) hu1
            (show _ = _ ++ ([] : List Nat) by rw [List.append_nil]; exact a1.2.2.2.2.1)
            (by rw [hf1])
        split at he
        · cases he
        · obtain ⟨used2, hu2, hf2⟩ := alloc_split (alloc_alloc h.world aot.length).2 sizeof_exif
          have a2 := alloc_answer (alloc_alloc h.world aot.length).2 sizeof_exif
          split at he
          · cases he
          · rename_i hc
            rw [if_neg hc] at hf2
            have l2 : ledger h.world
                (alloc_alloc (alloc_alloc h.world aot.length).2 sizeof_exif).2
                [wasm_buf.addr,
                 (alloc_alloc (alloc_alloc h.world aot.length).2 sizeof_exif).1] :=
              ledger_step _ _ l1 hu2
                (show _ = _ ++ ([] : List Nat) by rw [List.append_nil]; exact a2.2.2.2.2.1)
                (by rw [hf2]; simp)
            obtain ⟨tf, used3, hu3, hf3⟩ := write_tmpfile_split
              (alloc_alloc (alloc_alloc h.world aot.length).2 sizeof_exif).2 script none
            split at he
            · cases he
            · rename_i p ht
              simp only [Except.ok.injEq, Prod.mk.injEq] at he
              obtain ⟨rfl, rfl⟩ := he
              rw [ht] at hf3
              refine ⟨?_, hinit, rfl, rfl, rfl, rfl, ⟨p, rfl⟩, ?_⟩
              · simp [log_events, on_events]
              · refine ledger_step _ _ l2 hu3
                  (show _ = _ ++ ([] : List Nat) by rw [List.append_nil]; exact tf) ?_
                rw [hf3]
                simp only [destroy_frees, List.nil_append]
                exact List.Perm.cons _ (List.Perm.swap _ _ _)

/-- Every failure path of `exif_create`.  The runtime is destroyed exactly once if
`wasm_runtime_init` succeeded and not at all otherwise; every non-NULL address the allocator
returned was passed to its free exactly once; a script temp file whose path was obtained is
unlinked; and, unless the scratch file of the channel was opened as descriptor 0, every
engine resource and descriptor acquired was released exactly once. -/
theorem exif_create_unwinds (h : Host) (aot script : Bytes) (cfg : Option exif_config_t)
    (hnull : (exif_create h aot script cfg).1 = none) :
    (∃ ev, (exif_create h aot script cfg).2.events = h.events ++ ev ∧
      ev.count .wasm_runtime_destroy = (if h.wasm_runtime_init_ok then 1 else 0) ∧
      (h.free_fd ≠ 0 → held_after [] ev = some [])) ∧
    (freed h.world (exif_create h aot script cfg).2.world).Perm
      (handed_out h.world (exif_create h aot script cfg).2.world) ∧
    (∀ ctx h6, exif_create_context h aot script = .ok (ctx, h6) →
      ∃ p, ctx.script_path = some p ∧
        fs_read (exif_create h aot script cfg).2.world.files p.bytes = none) := by
  unfold exif_create at hnull ⊢
  dsimp only at hnull ⊢
  cases hc : exif_create_context h aot script with
  | error u =>
    obtain ⟨⟨ev, e1, e2, e3⟩, l⟩ := create_context_error hc
    refine ⟨⟨ev, e1, e2, fun _ => e3⟩, ledger_done l, ?_⟩
    intro ctx h6 hk
    cases hk
  | ok entry =>
    obtain ⟨ctx, h6⟩ := entry
    rw [hc] at hnull
    dsimp only at hnull ⊢
    obtain ⟨k1, k2, k3, k4, k5, k6, ⟨p, k7⟩, k8⟩ := create_context_ok hc
    obtain ⟨⟨ev, e1, e2, e3⟩, f1, f2, -, f4⟩ :=
      create_instance_unwinds h6 ctx _ _ _ k4 k5 k6 hnull
    refine ⟨⟨[.wasm_runtime_init, .wasm_runtime_register_natives, .wasm_runtime_load] ++ ev,
      ?_, ?_, ?_⟩, ?_, ?_⟩
    · rw [e1, k1, List.append_assoc]
    · rw [k2, List.count_append, e2]
      decide
    · intro hfd
      have := e3 (by rw [k3]; exact hfd)
      simpa [held_after, Event.releases, Event.acquires] using this
    · refine ledger_done (ledger_step [] _ k8 (by rw [f2]; rfl) f1 ?_)
      simp
    · intro ctx1 h61 hk
      simp only [Except.ok.injEq, Prod.mk.injEq] at hk
      obtain ⟨rfl, rfl⟩ := hk
      exact ⟨p, k7, f4 p k7⟩

theorem create_context_answers {h : Host} {aot script : Bytes} {ctx : exif_handles} {h6 : Host}
    (he : exif_create_context h aot script = .ok (ctx, h6)) :
    h.wasm_runtime_register_natives_ok = true ∧ h.wasm_runtime_load_ok = true ∧
    h6.wasm_runtime_instantiate_ok = h.wasm_runtime_instantiate_ok ∧
    h6.wasm_runtime_create_exec_env_ok = h.wasm_runtime_create_exec_env_ok ∧
    h6.exports = h.exports := by
  unfold exif_create_context at he
  dsimp only at he
  split at he
  · cases he
  · split at he
    · cases he
    · rename_i hreg
      split at he
      · cases he
      · split at he
        · cases he
        · rename_i hload
          split at he
          · cases he
          · split at he
            · cases he
            · simp only [Except.ok.injEq, Prod.mk.injEq] at he
              obtain ⟨-, rfl⟩ := he
              refine ⟨?_, ?_, rfl, rfl, rfl⟩
              · cases hb : h.wasm_runtime_register_natives_ok with
                | true => rfl
                | false => exact absurd hb hreg
              · cases hb : h.wasm_runtime_load_ok with
                | true => rfl
                | false => exact absurd hb hload

theorem create_instance_ok {h : Host} {ctx c : exif_handles} {ws wh es : Nat}
    (hs : (exif_create_instance h ctx ws wh es).1 = some c) :
    h.wasm_runtime_instantiate_ok = true ∧ h.wasm_runtime_create_exec_env_ok = true ∧
    Fn.zeroperl_init ∈ h.exports ∧ Fn.zeroperl_reset ∈ h.exports ∧
    Fn.zeroperl_run_file ∈ h.exports ∧ Fn.zeroperl_flush ∈ h.exports ∧
    c.stdout_fd = (h.free_fd : Int) ∧ c.script_path = ctx.script_path ∧
    c.wasm_buf = ctx.wasm_buf ∧ c.inst = true ∧ c.env = true := by
  unfold exif_create_instance at hs
  dsimp only at hs
  split at hs
  · cases hs
  · split at hs
    · cases hs
    · rename_i hinst
      split at hs
      · cases hs
      · rename_i henv
        split at hs
        · cases hs
        · rename_i hlook
          split at hs
          · cases hs
          · simp only [Option.some.injEq] at hs
            subst hs
            simp only [not_or, Bool.not_eq_false, wasm_runtime_lookup_function,
              decide_eq_true_eq] at hlook
            refine ⟨?_, ?_, hlook.1, hlook.2.1, hlook.2.2.1, hlook.2.2.2, rfl, rfl, rfl, rfl,
              rfl⟩
            · cases hb : h.wasm_runtime_instantiate_ok with
              | true => rfl
              | false => exact absurd hb hinst
            · cases hb : h.wasm_runtime_create_exec_env_ok with
              | true => rfl
              | false => exact absurd hb henv

/-- A context is returned by `exif_create` only when every step succeeded: a failure of the
runtime's init, of the registration, of the load, of the instantiation, of the execution
environment or of the lookup of a required entry point makes it return NULL, and so does a
missing image buffer, script path or scratch file. -/
theorem exif_create_ok {h : Host} {aot script : Bytes} {cfg : Option exif_config_t}
    {c : exif_handles} (hs : (exif_create h aot script cfg).1 = some c) :
    h.wasm_runtime_init_ok = true ∧ h.wasm_runtime_register_natives_ok = true ∧
    h.wasm_runtime_load_ok = true ∧ h.wasm_runtime_instantiate_ok = true ∧
    h.wasm_runtime_create_exec_env_ok = true ∧
    Fn.zeroperl_init ∈ h.exports ∧ Fn.zeroperl_reset ∈ h.exports ∧
    Fn.zeroperl_run_file ∈ h.exports ∧ Fn.zeroperl_flush ∈ h.exports ∧
    c.stdout_fd = (h.free_fd : Int) ∧ c.script_path ≠ none ∧ c.wasm_buf ≠ none := by
  unfold exif_create at hs
  dsimp only at hs
  cases hc : exif_create_context h aot script with
  | error u =>
    rw [hc] at hs
    cases hs
  | ok entry =>
    obtain ⟨ctx, h6⟩ := entry
    rw [hc] at hs
    dsimp only at hs
    obtain ⟨k1, k2, k3, -, -, -, ⟨p, k7⟩, k8⟩ := create_context_ok hc
    obtain ⟨a1, a2, a3, a4, a5⟩ := create_context_answers hc
    obtain ⟨i1, i2, i3, i4, i5, i6, i7, i8, i9, -, -⟩ := create_instance_ok hs
    have hbuf : ctx.wasm_buf ≠ none := by
      unfold exif_create_context at hc
      dsimp only at hc
      split at hc
      · cases hc
      · split at hc
        · cases hc
        · split at hc
          · cases hc
          · split at hc
            · cases hc
            · split at hc
              · cases hc
              · split at hc
                · cases hc
                · simp only [Except.ok.injEq, Prod.mk.injEq] at hc
                  obtain ⟨rfl, -⟩ := hc
                  simp
    refine ⟨k2, a1, a2, a3 ▸ i1, a4 ▸ i2, a5 ▸ i3, a5 ▸ i4, a5 ▸ i5, a5 ▸ i6, ?_, ?_, ?_⟩
    · rw [i7, k3]
    · rw [i8, k7]; simp
    · rw [i9]; exact hbuf

theorem allocs_ok_intro {w u : World} (sizes : List Nat)
    (h1 : u.alloc_log = w.alloc_log ++ sizes) (h2 : ∀ s ∈ sizes, 1 ≤ s) : allocs_ok w u := by
  unfold allocs_ok
  rw [h1, List.take_left, List.drop_left]
  exact ⟨rfl, h2⟩

theorem allocs_ok_elim {w u : World} (h : allocs_ok w u) :
    ∃ sizes, u.alloc_log = w.alloc_log ++ sizes ∧ ∀ s ∈ sizes, 1 ≤ s := by
  refine ⟨u.alloc_log.drop w.alloc_log.length, ?_, h.2⟩
  conv_lhs => rw [← List.take_append_drop w.alloc_log.length u.alloc_log]
  rw [h.1]

theorem allocs_ok_refl (w : World) : allocs_ok w w :=
  allocs_ok_intro [] (List.append_nil _).symm (fun _ h => by cases h)

theorem allocs_ok_of_eq {w u : World} (h : u.alloc_log = w.alloc_log) : allocs_ok w u :=
  allocs_ok_intro [] (by rw [h, List.append_nil]) (fun _ h => by cases h)

theorem allocs_ok.extend {w u v : World} (h1 : allocs_ok w u) (h2 : allocs_ok u v) :
    allocs_ok w v := by
  obtain ⟨s1, e1, p1⟩ := allocs_ok_elim h1
  obtain ⟨s2, e2, p2⟩ := allocs_ok_elim h2
  refine allocs_ok_intro (s1 ++ s2) (by rw [e2, e1, List.append_assoc]) ?_
  intro s hs
  rcases List.mem_append.mp hs with h | h
  · exact p1 s h
  · exact p2 s h

theorem allocs_ok.free {w u : World} (h : allocs_ok w u) (b : Option Buf) :
    allocs_ok w (alloc_free u b) :=
  h.extend (allocs_ok_of_eq (w := u) (u := alloc_free u b) rfl)

theorem allocs_ok.unlink {w u : World} (h : allocs_ok w u) (p : CStr) :
    allocs_ok w (unlink u p) :=
  h.extend (allocs_ok_of_eq (w := u) (u := Libexif.unlink u p) rfl)

theorem allocs_ok_alloc (w : World) (n : Nat) (hn : 1 ≤ n) : allocs_ok w (alloc_alloc w n).2 :=
  allocs_ok_intro [n] (alloc_answer w n).2.2.1
    (fun s hs => by rw [List.mem_singleton.mp hs]; exact hn)

theorem allocs_ok_err_result (w : World) (msg : CStr) (code : Int) :
    allocs_ok w (exif__err_result w msg code).2 :=
  allocs_ok_alloc w _ (Nat.le_add_left 1 _)

theorem allocs_ok_read_stdout (w : World) : allocs_ok w (exif__read_stdout w).2.2 := by
  have ha := allocs_ok_alloc (lseek_set (lseek_end w).2) (w.stdout.length + 1)
    (Nat.le_add_left 1 _)
  have he : allocs_ok w (lseek_end w).2 := by
    obtain ⟨pos, h⟩ := (lseek_end_spec w).2.2
    rw [h]
    exact allocs_ok_of_eq (w := w) rfl
  have h0 : allocs_ok w (lseek_set (lseek_end w).2) := by
    rw [lseek_set_end]
    exact allocs_ok_of_eq (w := w) rfl
  rw [read_stdout_eq]
  split
  · split
    · exact h0.extend ha
    · refine (h0.extend ha).extend (allocs_ok_of_eq ?_)
      unfold read_stdout_fd
      dsimp only
      split <;> rfl
  · exact he

theorem allocs_ok_read_file (w : World) (path : CStr) (len : Nat)
    (hft : ∀ B, fs_read w.files path = some B → ftell_reports w B.length) :
    allocs_ok w (exif__read_file w path len).2.2 := by
  obtain ⟨o1, o2, o3⟩ := fopen_spec w path
  have hopen : allocs_ok w (fopen w path).2 := allocs_ok_of_eq (w := w) rfl
  unfold exif__read_file
  dsimp only
  split
  · exact hopen
  · rename_i content hc
    have hB : fs_read w.files path = some content := by
      by_cases ho : fopen_opens w
      · rw [← o1 ho, hc]
      · rw [o2 ho] at hc
        cases hc
    have hr : ftell_reports (fopen w path).2 content.length := hft content hB
    have h0 : allocs_ok w (ftell (fopen w path).2 content.length).2 :=
      hopen.extend (allocs_ok_of_eq (w := (fopen w path).2) rfl)
    rw [(ftell_spec (fopen w path).2 content.length).1 hr, size_t_succ hr.2]
    have ha := h0.extend
      (allocs_ok_alloc (ftell (fopen w path).2 content.length).2 (content.length + 1)
        (Nat.le_add_left 1 _))
    generalize alloc_alloc (ftell (fopen w path).2 content.length).2 (content.length + 1) = a
      at ha ⊢
    split
    · exact ha
    · exact ha.extend (allocs_ok_of_eq (w := a.2)
        (u := { a.2 with fread_plan := a.2.fread_plan.tail }) rfl)

theorem allocs_ok_write_tmpfile (w : World) (data : Bytes) (suffix : Option CStr) :
    allocs_ok w (exif__write_tmpfile w data suffix).2 := by
  have hm : allocs_ok w (mkstemps w (tmp_template (ascii "/tmp/libexif_XXXXXX") suffix)
      (tmp_suffixlen suffix)).2 := allocs_ok_of_eq (mkstemps_frame _ _ _).2.2.1
  unfold exif__write_tmpfile
  dsimp only
  split
  · exact hm
  · rename_i path_buf _
    generalize hw1 : ({ (mkstemps w (tmp_template (ascii "/tmp/libexif_XXXXXX") suffix)
        (tmp_suffixlen suffix)).2 with write_plan := _, files := _ } : World) = w1
    have h1 : allocs_ok w w1 := hm.extend (allocs_ok_of_eq (by rw [← hw1]))
    split
    · exact h1.unlink _
    · exact h1.extend (allocs_ok_alloc w1 _ (Nat.le_add_left 1 _))

theorem run_call_alloc_log (w : World) (l : RunLocals) :
    (exif__run_call w l).2.2.alloc_log = w.alloc_log := by
  unfold exif__run_call
  dsimp only
  split
  · rfl
  · split
    · split <;> rfl
    · rfl

theorem run_query_alloc_log (w : World) (e : Option ErrText) :
    (exif__run_query w e).2.alloc_log = w.alloc_log := by
  unfold exif__run_query exif__run_last_error
  have h1 := (call_wasm_frame w .zeroperl_flush).2.2
  cases e with
  | some x => exact h1
  | none =>
    dsimp only
    have h2 := (call_wasm_frame (exif__call_wasm w .zeroperl_flush).2.2 .zeroperl_last_error).2.2
    split <;> exact h2.trans h1

theorem allocs_ok_run_result (w : World) (e : Option ErrText) (c : Int) :
    allocs_ok w (exif__run_result w e c).2 := by
  unfold exif__run_result
  cases e with
  | some x => exact allocs_ok_err_result _ _ _
  | none =>
    dsimp only
    split
    · exact allocs_ok_err_result _ _ _
    · exact allocs_ok_read_stdout w

theorem run_thread_env_alloc_log (w : World) :
    (exif__run_thread_env w).2.alloc_log = w.alloc_log := by
  unfold exif__run_thread_env wasm_runtime_init_thread_env
  split
  · split <;> rfl
  · rfl

theorem allocs_ok_run (w : World) (ctx : exif) (tail : List CStr)
    (opts : Option exif_options_t) : allocs_ok w (exif__run w ctx tail opts).2 := by
  have henv : allocs_ok w (exif__run_thread_env w).2 :=
    allocs_ok_of_eq (run_thread_env_alloc_log w)
  have hreset : allocs_ok w (reset_state w) :=
    henv.extend (allocs_ok_of_eq (call_wasm_frame _ _).2.2)
  cases hp : exif__run_prepare w ctx tail opts with
  | ok entry =>
    obtain ⟨l, owned, w1⟩ := entry
    rw [exif__run_of_prepare_ok hp]
    have h1 : allocs_ok w w1 :=
      hreset.extend (allocs_ok_of_eq (prepare_ok_state hp).1.alloc_log)
    refine (h1.extend ?_).extend (allocs_ok_of_eq (heap_only_cleanup _ _ _).alloc_log)
    unfold exif__run_invoke
    dsimp only
    refine allocs_ok.extend (allocs_ok_of_eq ?_) (allocs_ok_run_result _ _ _)
    rw [run_query_alloc_log, run_call_alloc_log]
  | error early =>
    rw [exif__run_of_prepare_error hp]
    unfold exif__run_prepare at hp
    dsimp only at hp
    split at hp
    · simp only [Except.error.injEq] at hp
      rw [← hp]
      exact henv.extend (allocs_ok_err_result _ _ _)
    · split at hp
      · simp only [Except.error.injEq] at hp
        rw [← hp]
        exact (hreset.extend (allocs_ok_err_result _ _ _)).extend
          (allocs_ok_of_eq (heap_only_cleanup _ _ _).alloc_log)
      · split at hp
        · simp only [Except.error.injEq] at hp
          rw [← hp]
          exact ((hreset.extend (allocs_ok_of_eq
            (heap_only_run_marshal _ _ _ _).alloc_log)).extend
            (allocs_ok_err_result _ _ _)).extend
            (allocs_ok_of_eq (heap_only_cleanup _ _ _).alloc_log)
        · exact absurd hp (by simp)

theorem apply_transform_alloc_log (w : World) (r : exif_result_t)
    (opts : Option exif_options_t) :
    (exif__apply_transform w r opts).2.alloc_log = w.alloc_log := by
  unfold exif__apply_transform
  split
  · rfl
  · split
    · rfl
    · split <;> rfl

theorem allocs_ok_read (w : World) (ctx : exif) (path : CStr) (opts : Option exif_options_t) :
    allocs_ok w (exif_read w ctx path opts).2 := by
  unfold exif_read
  exact (allocs_ok_run _ _ _ _).extend (allocs_ok_of_eq (apply_transform_alloc_log _ _ _))

theorem allocs_ok_read_buf (w : World) (ctx : exif) (input : exif_buf_t)
    (opts : Option exif_options_t) : allocs_ok w (exif_read_buf w ctx input opts).2 := by
  have ht := allocs_ok_write_tmpfile w input.data (exif__suffix_of input.filename)
  unfold exif_read_buf
  dsimp only
  split
  · exact ht.extend (allocs_ok_err_result _ _ _)
  · exact (((ht.extend (allocs_ok_run _ _ _ _)).extend
      (allocs_ok_of_eq (apply_transform_alloc_log _ _ _))).unlink _).free _

theorem allocs_ok_write (w : World) (ctx : exif) (in_path : CStr) (out_path : Option CStr)
    (opts : Option exif_options_t) : allocs_ok w (exif_write w ctx in_path out_path opts).2 := by
  unfold exif_write
  split <;> exact allocs_ok_run _ _ _ _

theorem allocs_ok_write_buf_collect (w : World) (r : exif_result_t) (p : CStr)
    (hft : ∀ B, fs_read w.files p = some B → ftell_reports w B.length) :
    allocs_ok w (exif_write_buf_collect w r p).2 := by
  unfold exif_write_buf_collect
  split
  · dsimp only
    have hf : allocs_ok w (exif__read_file (alloc_free w r.data) p r.data_len).2.2 :=
      ((allocs_ok_refl w).free r.data).extend (allocs_ok_read_file _ _ _ hft)
    split
    · exact hf.extend (allocs_ok_err_result _ _ _)
    · exact hf
  · exact allocs_ok_refl w

theorem allocs_ok_write_buf (w : World) (ctx : exif) (input : exif_buf_t)
    (opts : Option exif_options_t)
    (hft : ∀ in_path out_path B,
      fs_read (guest_write w ctx input opts in_path out_path).2.files out_path = some B →
      ftell_reports (guest_write w ctx input opts in_path out_path).2 B.length) :
    allocs_ok w (exif_write_buf w ctx input opts).2 := by
  have ht := allocs_ok_write_tmpfile w input.data (exif__suffix_of input.filename)
  unfold exif_write_buf
  dsimp only
  split
  · exact ht.extend (allocs_ok_err_result _ _ _)
  · rename_i in_path _
    have hm : allocs_ok w (mkstemps (exif__write_tmpfile w input.data
        (exif__suffix_of input.filename)).2
        (tmp_template (ascii "/tmp/libexif_out_XXXXXX") (exif__suffix_of input.filename))
        (tmp_suffixlen (exif__suffix_of input.filename))).2 :=
      ht.extend (allocs_ok_of_eq (mkstemps_frame _ _ _).2.2.1)
    split
    · exact ((hm.extend (allocs_ok_err_result _ _ _)).unlink _).free _
    · rename_i out_path _
      exact (((((hm.unlink _).extend (allocs_ok_run _ _ _ _)).extend
        (allocs_ok_write_buf_collect _ _ _ (hft in_path out_path))).unlink _).unlink _).free _

theorem create_instance_alloc_log (h : Host) (ctx : exif_handles) (ws wh es : Nat) :
    (exif_create_instance h ctx ws wh es).2.world.alloc_log = h.world.alloc_log := by
  have hmk := (mkstemps_frame h.world (ascii "/tmp/libexif_stdout_XXXXXX") 0).2.2.1
  unfold exif_create_instance
  dsimp only
  split
  · unfold fail_ctx
    dsimp only
    rw [(destroy_spec _ _).2.2.2.1]
    exact hmk
  · rename_i stdout_tmpl hs
    simp only [log_world, on_world]
    split
    · unfold fail_ctx
      dsimp only
      rw [(destroy_spec _ _).2.2.2.1]
      exact hmk
    · split
      · unfold fail_ctx
        dsimp only
        rw [(destroy_spec _ _).2.2.2.1]
        exact hmk
      · split
        · unfold fail_ctx
          dsimp only
          rw [(destroy_spec _ _).2.2.2.1]
          exact hmk
        · split
          · unfold fail_ctx
            dsimp only
            rw [(destroy_spec _ _).2.2.2.1, on_world, (call_wasm_frame _ _).2.2]
            exact hmk
          · dsimp only
            rw [on_world, (call_wasm_frame _ _).2.2]
            exact hmk

theorem create_context_allocs (h : Host) (aot script : Bytes) (haot : 0 < aot.length) :
    (∀ u, exif_create_context h aot script = .error u → allocs_ok h.world u.world) ∧
    (∀ ctx h6, exif_create_context h aot script = .ok (ctx, h6) →
      allocs_ok h.world h6.world) := by
  have a1 := allocs_ok_alloc h.world aot.length haot
  have a2 := a1.extend (allocs_ok_alloc (alloc_alloc h.world aot.length).2 sizeof_exif
    (by decide))
  have a3 := a2.extend (allocs_ok_write_tmpfile
    (alloc_alloc (alloc_alloc h.world aot.length).2 sizeof_exif).2 script none)
  unfold exif_create_context
  dsimp only
  split
  · exact ⟨fun u hu => by cases hu; exact allocs_ok_refl _, fun _ _ hk => by cases hk⟩
  · split
    · exact ⟨fun u hu => by cases hu; exact allocs_ok_refl _, fun _ _ hk => by cases hk⟩
    · simp only [log_world, on_world]
      split
      · exact ⟨fun u hu => by cases hu; exact a1, fun _ _ hk => by cases hk⟩
      · rename_i wasm_buf _
        split
        · exact ⟨fun u hu => by cases hu; exact a1.free (some wasm_buf),
            fun _ _ hk => by cases hk⟩
        · split
          · exact ⟨fun u hu => by cases hu; exact a2.free (some wasm_buf),
              fun _ _ hk => by cases hk⟩
          · split
            · refine ⟨fun u hu => ?_, fun _ _ hk => by cases hk⟩
              cases hu
              unfold fail_ctx
              dsimp only
              exact a3.extend (allocs_ok_of_eq (destroy_spec _ _).2.2.2.1)
            · refine ⟨fun u hu => (by cases hu), fun ctx h6 hk => ?_⟩
              cases hk
              exact a3

theorem allocs_ok_create (h : Host) (aot script : Bytes) (cfg : Option exif_config_t)
    (haot : 0 < aot.length) : allocs_ok h.world (exif_create h aot script cfg).2.world := by
  obtain ⟨c1, c2⟩ := create_context_allocs h aot script haot
  unfold exif_create
  dsimp only
  cases hc : exif_create_context h aot script with
  | error u => exact c1 u hc
  | ok entry =>
    obtain ⟨ctx, h6⟩ := entry
    exact (c2 ctx h6 hc).extend (allocs_ok_of_eq (create_instance_alloc_log _ _ _ _ _))

theorem host_kept_refl (w : World) : host_kept w w := ⟨rfl, rfl, rfl, rfl, rfl, rfl⟩

theorem host_kept.step {w u v : World} (h1 : host_kept w u) (h2 : host_kept u v) :
    host_kept w v :=
  ⟨h2.1.trans h1.1, h2.2.1.trans h1.2.1, h2.2.2.1.trans h1.2.2.1,
   h2.2.2.2.1.trans h1.2.2.2.1, h2.2.2.2.2.1.trans h1.2.2.2.2.1,
   h2.2.2.2.2.2.trans h1.2.2.2.2.2⟩

theorem host_kept_of_heap_only {w u : World} (h : heap_only w u) : host_kept w u :=
  ⟨by rw [h], by rw [h], by rw [h], by rw [h], by rw [h], by rw [h]⟩

theorem host_kept_call_wasm_a (w : World) (f : Fn) (a : List Nat) :
    host_kept w (wasm_runtime_call_wasm_a w f a).2 := ⟨rfl, rfl, rfl, rfl, rfl, rfl⟩

theorem host_kept_call_wasm (w : World) (f : Fn) : host_kept w (exif__call_wasm w f).2.2 := by
  unfold exif__call_wasm
  dsimp only
  split <;> exact ⟨rfl, rfl, rfl, rfl, rfl, rfl⟩

theorem host_kept_thread_env (w : World) : host_kept w (exif__run_thread_env w).2 := by
  unfold exif__run_thread_env wasm_runtime_init_thread_env
  split
  · split <;> exact ⟨rfl, rfl, rfl, rfl, rfl, rfl⟩
  · exact ⟨rfl, rfl, rfl, rfl, rfl, rfl⟩

theorem host_kept_reset_state (w : World) : host_kept w (reset_state w) :=
  (host_kept_thread_env w).step (host_kept_call_wasm _ _)

theorem host_kept_run_call (w : World) (l : RunLocals) :
    host_kept w (exif__run_call w l).2.2 := by
  unfold exif__run_call
  dsimp only
  split
  · exact ⟨rfl, rfl, rfl, rfl, rfl, rfl⟩
  · split
    · split <;> exact ⟨rfl, rfl, rfl, rfl, rfl, rfl⟩
    · exact ⟨rfl, rfl, rfl, rfl, rfl, rfl⟩

theorem host_kept_run_query (w : World) (e : Option ErrText) :
    host_kept w (exif__run_query w e).2 := by
  unfold exif__run_query exif__run_last_error
  have h1 := host_kept_call_wasm w .zeroperl_flush
  cases e with
  | some x => exact h1
  | none =>
    dsimp only
    have h2 := host_kept_call_wasm (exif__call_wasm w .zeroperl_flush).2.2 .zeroperl_last_error
    split <;> exact h1.step h2

theorem host_kept_run_state (w : World) (l : RunLocals) : host_kept w (run_state w l) :=
  (host_kept_run_call w l).step (host_kept_run_query _ _)

theorem host_kept_prepare {w : World} {ctx : exif} {tail : List CStr}
    {opts : Option exif_options_t} {l : RunLocals} {owned : Bool} {w1 : World}
    (h : exif__run_prepare w ctx tail opts = .ok (l, owned, w1)) : host_kept w w1 :=
  (host_kept_reset_state w).step (host_kept_of_heap_only (prepare_ok_state h).1)

/-- The state in which a call that reached the run entry point builds its Result has the
allocator and the `read` answers of the state in which the call started. -/
theorem host_kept_at_result {w : World} {ctx : exif} {tail : List CStr}
    {opts : Option exif_options_t} {l : RunLocals} {owned : Bool} {w1 : World}
    (h : exif__run_prepare w ctx tail opts = .ok (l, owned, w1)) :
    host_kept w (run_state w1 l) :=
  (host_kept_prepare h).step (host_kept_run_state w1 l)

theorem host_kept_mkstemps (w : World) (t : CStr) (n : Nat) : host_kept w (mkstemps w t n).2 := by
  unfold mkstemps
  dsimp only
  split
  · exact ⟨rfl, rfl, rfl, rfl, rfl, rfl⟩
  · split
    · exact ⟨rfl, rfl, rfl, rfl, rfl, rfl⟩
    · split <;> exact ⟨rfl, rfl, rfl, rfl, rfl, rfl⟩

theorem alloc_calls_refl (w : World) : alloc_calls w w 0 := ⟨rfl, rfl⟩

theorem alloc_calls.add {w u v : World} {j k : Nat} (h1 : alloc_calls w u j)
    (h2 : alloc_calls u v k) : alloc_calls w v (j + k) := by
  refine ⟨?_, ?_⟩
  · rw [h2.1, h1.1, List.drop_drop, Nat.add_comm]
  · rw [h2.2, h1.2, Nat.add_assoc]

theorem alloc_calls_of_kept {w u : World} (h : host_kept w u) : alloc_calls w u 0 :=
  ⟨h.1, by rw [h.2.1]; rfl⟩

theorem alloc_calls_of_heap_only {w u : World} (h : heap_only w u) : alloc_calls w u 0 :=
  alloc_calls_of_kept (host_kept_of_heap_only h)

theorem alloc_calls_alloc (w : World) (n : Nat) : alloc_calls w (alloc_alloc w n).2 1 := by
  obtain ⟨_, h2, h3, _⟩ := alloc_answer w n
  refine ⟨?_, ?_⟩
  · rw [h2]
    cases w.alloc_plan <;> rfl
  · rw [h3, List.length_append]
    rfl

theorem alloc_calls.after_free {w u : World} {k : Nat} (h : alloc_calls w u k)
    (b : Option Buf) :
    alloc_calls w (alloc_free u b) k := h

theorem alloc_calls.after_unlink {w u : World} {k : Nat} (h : alloc_calls w u k)
    (p : CStr) :
    alloc_calls w (unlink u p) k := h

/-- The answer to the last of `j + 1` calls of alloc is the answer the allocator had next
after the first `j`. -/
theorem last_answer_eq {w s u : World} {j : Nat} (h1 : alloc_calls w s j)
    (h2 : alloc_calls s u 1) : last_answer w u = s.alloc_plan.headD 0 := by
  have h := (h1.add h2).2
  unfold last_answer
  rw [h, h1.1]
  have e : w.alloc_log.length + (j + 1) - w.alloc_log.length - 1 = j := by omega
  rw [e, List.getD_eq_getElem?_getD, List.headD_eq_head?_getD, List.head?_drop]

theorem lseek_reports_of_kept {w u : World} (h : u.lseek_plan = w.lseek_plan) (n : Nat) :
    lseek_reports u n = lseek_reports w n := by
  unfold lseek_reports
  rw [h]

theorem failure_eq (s : World) (t : CStr) (c : Int) :
    failure s t c
      = { success := false, data := none, data_len := 0,
          error := if s.alloc_plan.headD 0 = 0 then none else some ⟨s.alloc_plan.headD 0, t⟩,
          exit_code := c } := by
  unfold failure filled
  rw [(alloc_answer _ _).1]

theorem err_result_frame (s : World) (t : CStr) (c : Int) :
    alloc_calls s (exif__err_result s t c).2 1 ∧
    (exif__err_result s t c).2.hook_calls = s.hook_calls ∧
    (exif__err_result s t c).2.free_log = s.free_log ∧
    (exif__err_result s t c).2.stdout = s.stdout := by
  refine ⟨alloc_calls_alloc _ _, ?_, ?_, ?_⟩ <;>
  · unfold exif__err_result alloc_alloc
    dsimp only
    split <;> rfl

theorem read_stdout_frame (s : World) :
    ((exif__read_stdout s).1 = none
      ↔ s.stdout = [] ∨ ¬ lseek_reports s s.stdout.length ∨ s.alloc_plan.headD 0 = 0) ∧
    ((exif__read_stdout s).1 = none → (exif__read_stdout s).2.1 = 0) ∧
    (s.stdout = [] ∨ ¬ lseek_reports s s.stdout.length →
      alloc_calls s (exif__read_stdout s).2.2 0) ∧
    (s.stdout ≠ [] → lseek_reports s s.stdout.length →
      alloc_calls s (exif__read_stdout s).2.2 1) ∧
    (exif__read_stdout s).2.2.hook_calls = s.hook_calls ∧
    (exif__read_stdout s).2.2.free_log = s.free_log ∧
    (exif__read_stdout s).2.2.stdout = s.stdout := by
  have ha := alloc_answer (lseek_set (lseek_end s).2) (s.stdout.length + 1)
  have hc := alloc_calls_alloc (lseek_set (lseek_end s).2) (s.stdout.length + 1)
  have hap : (lseek_set (lseek_end s).2).alloc_plan = s.alloc_plan := by rw [lseek_set_end]
  have h0 : alloc_calls s (lseek_set (lseek_end s).2) 0 := by
    rw [lseek_set_end]
    exact ⟨rfl, rfl⟩
  have he : alloc_calls s (lseek_end s).2 0 ∧ (lseek_end s).2.hook_calls = s.hook_calls ∧
      (lseek_end s).2.free_log = s.free_log ∧ (lseek_end s).2.stdout = s.stdout := by
    obtain ⟨pos, h⟩ := (lseek_end_spec s).2.2
    rw [h]
    exact ⟨⟨rfl, rfl⟩, rfl, rfl, rfl⟩
  have hc1 := h0.add hc
  have hk : (alloc_alloc (lseek_set (lseek_end s).2) (s.stdout.length + 1)).2.hook_calls
      = s.hook_calls ∧
      (alloc_alloc (lseek_set (lseek_end s).2) (s.stdout.length + 1)).2.free_log = s.free_log ∧
      (alloc_alloc (lseek_set (lseek_end s).2) (s.stdout.length + 1)).2.stdout = s.stdout := by
    rw [lseek_set_end]
    unfold alloc_alloc
    split <;> exact ⟨rfl, rfl, rfl⟩
  rw [hap] at ha
  rw [read_stdout_eq]
  by_cases hz : lseek_reports s s.stdout.length ∧ s.stdout ≠ []
  · rw [if_pos hz]
    obtain ⟨hrep, hne⟩ := hz
    generalize alloc_alloc (lseek_set (lseek_end s).2) (s.stdout.length + 1) = a at ha hc1 hk ⊢
    by_cases ha0 : a.1 = 0
    · rw [if_pos ha0]
      refine ⟨⟨fun _ => Or.inr (Or.inr (ha.1.symm.trans ha0)), fun _ => rfl⟩, fun _ => rfl,
        ?_, fun _ _ => hc1, hk.1, hk.2.1, hk.2.2⟩
      intro hor
      rcases hor with e | e
      · exact absurd e hne
      · exact absurd hrep e
    · rw [if_neg ha0]
      have hr : alloc_calls a.2 (read_stdout_fd a.2 s.stdout.length).2.2 0 ∧
          (read_stdout_fd a.2 s.stdout.length).2.2.hook_calls = a.2.hook_calls ∧
          (read_stdout_fd a.2 s.stdout.length).2.2.free_log = a.2.free_log ∧
          (read_stdout_fd a.2 s.stdout.length).2.2.stdout = a.2.stdout := by
        unfold read_stdout_fd
        dsimp only
        split <;> exact ⟨⟨rfl, rfl⟩, rfl, rfl, rfl⟩
      refine ⟨⟨fun hn => (by cases hn), ?_⟩, fun hn => (by cases hn), ?_,
        fun _ _ => hc1.add hr.1, hr.2.1.trans hk.1, hr.2.2.1.trans hk.2.1,
        hr.2.2.2.trans hk.2.2⟩
      · intro hor
        rcases hor with e | e | e
        · exact absurd e hne
        · exact absurd hrep e
        · exact absurd (ha.1.trans e) ha0
      · intro hor
        rcases hor with e | e
        · exact absurd e hne
        · exact absurd hrep e
  · rw [if_neg hz]
    have hor : s.stdout = [] ∨ ¬ lseek_reports s s.stdout.length := by
      by_cases hr : lseek_reports s s.stdout.length
      · by_cases hn : s.stdout = []
        · exact Or.inl hn
        · exact absurd ⟨hr, hn⟩ hz
      · exact Or.inr hr
    refine ⟨⟨fun _ => ?_, fun _ => rfl⟩, fun _ => rfl, fun _ => he.1, ?_, he.2.1, he.2.2.1,
      he.2.2.2⟩
    · rcases hor with e | e
      · exact Or.inl e
      · exact Or.inr (Or.inl e)
    · intro hne hrep
      exact absurd ⟨hrep, hne⟩ hz

/-- The Result of `exif__run` is built in a state `s` that has the allocator of the state in
which the call started: it is a failure built there from some text and code, or the success
read back from the channel there; only the guest heap changes afterwards. -/
theorem run_built (w : World) (ctx : exif) (tail : List CStr) (opts : Option exif_options_t) :
    ∃ s : World, host_kept w s ∧
      ((∃ t c, (exif__run w ctx tail opts).1 = failure s t c ∧
          heap_only (exif__err_result s t c).2 (exif__run w ctx tail opts).2) ∨
       ((exif__run w ctx tail opts).1 = captured s ∧
          heap_only (exif__read_stdout s).2.2 (exif__run w ctx tail opts).2)) := by
  cases hp : exif__run_prepare w ctx tail opts with
  | ok entry =>
    obtain ⟨l, owned, w1⟩ := entry
    refine ⟨run_state w1 l, host_kept_at_result hp, ?_⟩
    obtain ⟨p1, p2, p3⟩ := result_by_precedence w ctx tail opts l owned w1 hp
    have hst : (exif__run w ctx tail opts).2
        = exif__run_cleanup
            (exif__run_result (run_state w1 l) (run_error w1 l) (run_exit_code w1 l)).2
            l owned := by
      rw [exif__run_of_prepare_ok hp]
      rfl
    rw [hst]
    cases he : run_error w1 l with
    | some e =>
      exact Or.inl ⟨_, _, p1 e he, heap_only_cleanup _ _ _⟩
    | none =>
      by_cases hc : run_exit_code w1 l = 0
      · refine Or.inr ⟨p3 he hc, ?_⟩
        rw [hc]
        have hr : (exif__run_result (run_state w1 l) none 0).2
            = (exif__read_stdout (run_state w1 l)).2.2 := by
          simp [exif__run_result]
        rw [hr]
        exact heap_only_cleanup _ _ _
      · refine Or.inl ⟨_, _, p2 he hc, ?_⟩
        have hr : (exif__run_result (run_state w1 l) none (run_exit_code w1 l)).2
            = (exif__err_result (run_state w1 l) (ascii "exiftool exited with error")
                (run_exit_code w1 l)).2 := by
          simp [exif__run_result, hc]
        rw [hr]
        exact heap_only_cleanup _ _ _
  | error early =>
    rw [exif__run_of_prepare_error hp]
    unfold exif__run_prepare at hp
    dsimp only at hp
    split at hp
    · simp only [Except.error.injEq] at hp
      rw [← hp]
      exact ⟨_, host_kept_thread_env w, Or.inl ⟨_, _, rfl, heap_only_refl _⟩⟩
    · split at hp
      · simp only [Except.error.injEq] at hp
        rw [← hp]
        exact ⟨_, host_kept_reset_state w, Or.inl ⟨_, _, rfl, heap_only_cleanup _ _ _⟩⟩
      · split at hp
        · simp only [Except.error.injEq] at hp
          rw [← hp]
          exact ⟨_, (host_kept_reset_state w).step
            (host_kept_of_heap_only (heap_only_run_marshal _ _ _ _)),
            Or.inl ⟨_, _, rfl, heap_only_cleanup _ _ _⟩⟩
        · exact absurd hp (by simp)

/-- What a call of `exif__run` returns and what it asks of the allocator: a failure carries
no data and its error text is in the block of the one alloc call made (NULL if that returned
NULL); a success carries no error, exit code 0, and data unless the channel is empty or
`lseek` does not report its size (alloc is then not called) or the one alloc call returned
NULL.  No hook is called, nothing is freed, and `lseek` is the only call that consumes an
answer of `lseek`. -/
theorem run_outcome (w : World) (ctx : exif) (tail : List CStr) (opts : Option exif_options_t) :
    (exif__run w ctx tail opts).2.hook_calls = w.hook_calls ∧
    (exif__run w ctx tail opts).2.free_log = w.free_log ∧
    (((exif__run w ctx tail opts).1.success = false ∧ (exif__run w ctx tail opts).1.data = none ∧
        (exif__run w ctx tail opts).1.data_len = 0 ∧
        alloc_calls w (exif__run w ctx tail opts).2 1 ∧
        ((exif__run w ctx tail opts).1.error = none ↔ w.alloc_plan.headD 0 = 0)) ∨
     ((exif__run w ctx tail opts).1.success = true ∧
        (exif__run w ctx tail opts).1.error = none ∧
        (exif__run w ctx tail opts).1.exit_code = 0 ∧
        ((exif__run w ctx tail opts).1.data = none
          ↔ (exif__run w ctx tail opts).2.stdout = []
            ∨ ¬ lseek_reports w (exif__run w ctx tail opts).2.stdout.length
            ∨ w.alloc_plan.headD 0 = 0) ∧
        ((exif__run w ctx tail opts).2.stdout = []
            ∨ ¬ lseek_reports w (exif__run w ctx tail opts).2.stdout.length →
          alloc_calls w (exif__run w ctx tail opts).2 0) ∧
        ((exif__run w ctx tail opts).2.stdout ≠ [] →
          lseek_reports w (exif__run w ctx tail opts).2.stdout.length →
          alloc_calls w (exif__run w ctx tail opts).2 1))) := by
  obtain ⟨s, hk, hb⟩ := run_built w ctx tail opts
  generalize exif__run w ctx tail opts = r at hb ⊢
  have hs0 := alloc_calls_of_kept hk
  rcases hb with ⟨t, c, hr, hh⟩ | ⟨hr, hh⟩
  · obtain ⟨f1, f2, f3, _⟩ := err_result_frame s t c
    have hh' := host_kept_of_heap_only hh
    refine ⟨?_, ?_, Or.inl ?_⟩
    · rw [hh'.2.2.2.1, f2, hk.2.2.2.1]
    · rw [hh'.2.2.1, f3, hk.2.2.1]
    · rw [hr, failure_eq]
      refine ⟨rfl, rfl, rfl, ?_, ?_⟩
      · have := (hs0.add f1).add (alloc_calls_of_heap_only hh)
        simpa using this
      · dsimp only
        rw [hk.1]
        by_cases h0 : w.alloc_plan.headD 0 = 0
        · simp [h0]
        · simp [h0]
  · obtain ⟨g1, g2, g3, g4, g5, g6, g7⟩ := read_stdout_frame s
    have hh' := host_kept_of_heap_only hh
    have hst : r.2.stdout = s.stdout := by rw [hh.stdout, g7]
    have hl := lseek_reports_of_kept hk.2.2.2.2.2 s.stdout.length
    rw [hl] at g1 g3 g4
    refine ⟨?_, ?_, Or.inr ?_⟩
    · rw [hh'.2.2.2.1, g5, hk.2.2.2.1]
    · rw [hh'.2.2.1, g6, hk.2.2.1]
    · rw [hr, hst]
      refine ⟨rfl, rfl, rfl, ?_, ?_, ?_⟩
      · unfold captured
        dsimp only
        rw [g1, hk.1]
      · intro he
        have := (hs0.add (g3 he)).add (alloc_calls_of_heap_only hh)
        simpa using this
      · intro he hrep
        have := (hs0.add (g4 he hrep)).add (alloc_calls_of_heap_only hh)
        simpa using this

theorem calls_run (w : World) (ctx : exif) (tail : List CStr) (opts : Option exif_options_t) :
    ∃ k, alloc_calls w (exif__run w ctx tail opts).2 k := by
  obtain ⟨_, _, h⟩ := run_outcome w ctx tail opts
  rcases h with ⟨_, _, _, hc, _⟩ | ⟨_, _, _, _, h0, h1⟩
  · exact ⟨1, hc⟩
  · by_cases he : (exif__run w ctx tail opts).2.stdout = []
    · exact ⟨0, h0 (Or.inl he)⟩
    · by_cases hr : lseek_reports w (exif__run w ctx tail opts).2.stdout.length
      · exact ⟨1, h1 he hr⟩
      · exact ⟨0, h0 (Or.inr hr)⟩

theorem write_tmpfile_frame (w : World) (data : Bytes) (suffix : Option CStr) :
    (∃ k, alloc_calls w (exif__write_tmpfile w data suffix).2 k) ∧
    (exif__write_tmpfile w data suffix).2.hook_calls = w.hook_calls ∧
    (exif__write_tmpfile w data suffix).2.free_log = w.free_log ∧
    (exif__write_tmpfile w data suffix).2.lseek_plan = w.lseek_plan := by
  have hm := host_kept_mkstemps w (tmp_template (ascii "/tmp/libexif_XXXXXX") suffix)
    (tmp_suffixlen suffix)
  unfold exif__write_tmpfile
  dsimp only
  split
  · exact ⟨⟨0, alloc_calls_of_kept hm⟩, hm.2.2.2.1, hm.2.2.1, hm.2.2.2.2.2⟩
  · rename_i path_buf _
    generalize hw1 : ({ (mkstemps w (tmp_template (ascii "/tmp/libexif_XXXXXX") suffix)
        (tmp_suffixlen suffix)).2 with write_plan := _, files := _ } : World) = w1
    have h1 : host_kept w w1 := by
      rw [← hw1]
      exact hm
    split
    · exact ⟨⟨0, alloc_calls_of_kept h1⟩, h1.2.2.2.1, h1.2.2.1, h1.2.2.2.2.2⟩
    · refine ⟨⟨1, by simpa using (alloc_calls_of_kept h1).add (alloc_calls_alloc w1 _)⟩,
        ?_, ?_, ?_⟩
      · rw [← h1.2.2.2.1]
        unfold alloc_alloc
        split <;> rfl
      · rw [← h1.2.2.1]
        unfold alloc_alloc
        split <;> rfl
      · rw [← h1.2.2.2.2.2]
        unfold alloc_alloc
        split <;> rfl

theorem read_file_calls (w : World) (path : CStr) (len : Nat) :
    ∃ k, alloc_calls w (exif__read_file w path len).2.2 k := by
  have hopen : alloc_calls w (fopen w path).2 0 := ⟨rfl, rfl⟩
  unfold exif__read_file
  dsimp only
  split
  · exact ⟨0, hopen⟩
  · rename_i content _
    have h0 : alloc_calls w (ftell (fopen w path).2 content.length).2 0 := ⟨rfl, rfl⟩
    have ha := h0.add (alloc_calls_alloc (ftell (fopen w path).2 content.length).2
      (size_t ((ftell (fopen w path).2 content.length).1 + 1)))
    generalize alloc_alloc (ftell (fopen w path).2 content.length).2
      (size_t ((ftell (fopen w path).2 content.length).1 + 1)) = a at ha ⊢
    split
    · exact ⟨_, ha⟩
    · exact ⟨_, ha⟩

theorem apply_transform_frame (w : World) (r : exif_result_t) (opts : Option exif_options_t) :
    (exif__apply_transform w r opts).1.success = r.success ∧
    (exif__apply_transform w r opts).1.error = r.error ∧
    alloc_calls w (exif__apply_transform w r opts).2 0 ∧
    (exif__apply_transform w r opts).2.stdout = w.stdout ∧
    (r.success = false → (exif__apply_transform w r opts).1 = r) ∧
    ((∀ o, opts = some o → o.transform = none) → (exif__apply_transform w r opts).1 = r) ∧
    (∀ o hook, opts = some o → o.transform = some hook → r.success = true →
      (exif__apply_transform w r opts).1.data
        = hook (r.data.map (fun b => b.bytes)) r.data_len o.transform_ctx) := by
  unfold exif__apply_transform
  split
  · exact ⟨rfl, rfl, ⟨rfl, rfl⟩, rfl, fun _ => rfl, fun _ => rfl,
      fun o hook ho => (by cases ho)⟩
  · rename_i o
    split
    · rename_i hn
      refine ⟨rfl, rfl, ⟨rfl, rfl⟩, rfl, fun _ => rfl, fun _ => rfl, ?_⟩
      intro o' hook ho ht
      cases ho
      rw [hn] at ht
      cases ht
    · rename_i transform ht
      split
      · rename_i hs
        refine ⟨rfl, rfl, ⟨rfl, rfl⟩, rfl, fun _ => rfl, fun _ => rfl, ?_⟩
        intro o' hook ho ht' hs'
        rw [hs] at hs'
        cases hs'
      · rename_i hs
        refine ⟨rfl, rfl, ⟨rfl, rfl⟩, rfl, fun hf => absurd hf hs, ?_, ?_⟩
        · intro hno
          have := hno o rfl
          rw [ht] at this
          cases this
        · intro o' hook ho ht' _
          cases ho
          rw [ht] at ht'
          cases ht'
          rfl

/-- The shape of a failure built in state `s`, reached from `w` by some calls of alloc, as
seen from `w` after steps that do not call alloc. -/
theorem shape_of_err {w s u : World} {j : Nat} (h0 : alloc_calls w s j) (t : CStr) (c : Int)
    (hu : alloc_calls (exif__err_result s t c).2 u 0) :
    result_shape w u (exif__err_result s t c).1 := by
  have hl := last_answer_eq h0 (by simpa using (err_result_frame s t c).1.add hu)
  rw [err_result_eq, failure_eq]
  refine ⟨fun hs => (by simp at hs), fun _ => ⟨rfl, rfl, ?_⟩⟩
  rw [hl]
  dsimp only
  by_cases h : s.alloc_plan.headD 0 = 0
  · simp [h]
  · simp [h]

/-- The shape of the Result of `exif__run` started in state `s`, reached from `w` by some
calls of alloc, as seen from `w` after steps that do not call alloc. -/
theorem shape_of_run {w s u : World} {j : Nat} (h0 : alloc_calls w s j) (ctx : exif)
    (tail : List CStr) (opts : Option exif_options_t)
    (hu : alloc_calls (exif__run s ctx tail opts).2 u 0) :
    result_shape w u (exif__run s ctx tail opts).1 := by
  obtain ⟨_, _, h⟩ := run_outcome s ctx tail opts
  rcases h with ⟨f1, f2, f3, f4, f5⟩ | ⟨s1, s2, s3, s4, s5, s6⟩
  · have hl := last_answer_eq h0 (by simpa using f4.add hu)
    refine ⟨fun hs => ?_, fun _ => ⟨f2, f3, by rw [hl]; exact f5⟩⟩
    rw [f1] at hs
    cases hs
  · refine ⟨fun _ => s2, fun hf => ?_⟩
    rw [s1] at hf
    cases hf

/-- When the Result of `exif__run` is a success, its data is NULL exactly when the channel is
empty, `lseek` does not report its size, or the allocator returned NULL to the last alloc call
(the one for the data). -/
theorem data_of_run {w s u : World} {j : Nat} (h0 : alloc_calls w s j)
    (hl : s.lseek_plan = w.lseek_plan) (ctx : exif)
    (tail : List CStr) (opts : Option exif_options_t)
    (hu : alloc_calls (exif__run s ctx tail opts).2 u 0)
    (hst : u.stdout = (exif__run s ctx tail opts).2.stdout)
    (hs : (exif__run s ctx tail opts).1.success = true) :
    ((exif__run s ctx tail opts).1.data = none
      ↔ u.stdout = [] ∨ ¬ lseek_reports w u.stdout.length ∨ last_answer w u = 0) := by
  obtain ⟨_, _, h⟩ := run_outcome s ctx tail opts
  rw [hst, ← lseek_reports_of_kept hl]
  rcases h with ⟨f1, f2, f3, f4, f5⟩ | ⟨s1, s2, s3, s4, s5, s6⟩
  · rw [f1] at hs
    cases hs
  · rw [s4]
    by_cases he : (exif__run s ctx tail opts).2.stdout = []
    · exact ⟨fun _ => Or.inl he, fun _ => Or.inl he⟩
    · by_cases hr : lseek_reports s (exif__run s ctx tail opts).2.stdout.length
      · have hla := last_answer_eq h0 (by simpa using (s6 he hr).add hu)
        rw [hla]
      · exact ⟨fun _ => Or.inr (Or.inl hr), fun _ => Or.inr (Or.inl hr)⟩

/-- The shape of what `exif_read` and `exif_read_buf` make of the Result of `exif__run`. -/
theorem shape_of_transformed {w s u : World} {j : Nat} (h0 : alloc_calls w s j)
    (hl : s.lseek_plan = w.lseek_plan) (ctx : exif)
    (tail : List CStr) (opts : Option exif_options_t)
    (hu : alloc_calls (exif__apply_transform (exif__run s ctx tail opts).2
      (exif__run s ctx tail opts).1 opts).2 u 0)
    (hst : u.stdout = (exif__apply_transform (exif__run s ctx tail opts).2
      (exif__run s ctx tail opts).1 opts).2.stdout) :
    result_shape w u (exif__apply_transform (exif__run s ctx tail opts).2
      (exif__run s ctx tail opts).1 opts).1 ∧
    ((∀ o, opts = some o → o.transform = none) →
      (exif__apply_transform (exif__run s ctx tail opts).2
        (exif__run s ctx tail opts).1 opts).1.success = true →
      ((exif__apply_transform (exif__run s ctx tail opts).2
          (exif__run s ctx tail opts).1 opts).1.data = none
        ↔ u.stdout = [] ∨ ¬ lseek_reports w u.stdout.length ∨ last_answer w u = 0)) := by
  obtain ⟨a1, a2, a3, a4, a5, a6, _⟩ := apply_transform_frame (exif__run s ctx tail opts).2
    (exif__run s ctx tail opts).1 opts
  have hu' : alloc_calls (exif__run s ctx tail opts).2 u 0 := by simpa using a3.add hu
  have hsh := shape_of_run h0 ctx tail opts hu'
  refine ⟨⟨fun hs => ?_, fun hf => ?_⟩, fun hno hs => ?_⟩
  · rw [a2]
    exact hsh.1 (a1 ▸ hs)
  · rw [a1] at hf
    rw [a5 hf]
    exact hsh.2 hf
  · rw [a6 hno] at hs ⊢
    exact data_of_run h0 hl ctx tail opts hu' (hst.trans a4) hs

/-- The shape of what `exif_write_buf` makes of the Result of `exif__run`. -/
theorem shape_of_collect {w s u : World} {j : Nat} (h0 : alloc_calls w s j) (ctx : exif)
    (tail : List CStr) (opts : Option exif_options_t) (p : CStr)
    (hu : alloc_calls (exif_write_buf_collect (exif__run s ctx tail opts).2
      (exif__run s ctx tail opts).1 p).2 u 0) :
    result_shape w u (exif_write_buf_collect (exif__run s ctx tail opts).2
      (exif__run s ctx tail opts).1 p).1 ∧
    ((exif_write_buf_collect (exif__run s ctx tail opts).2
        (exif__run s ctx tail opts).1 p).1.success = true →
      (exif_write_buf_collect (exif__run s ctx tail opts).2
        (exif__run s ctx tail opts).1 p).1.data ≠ none) := by
  obtain ⟨k, hk⟩ := calls_run s ctx tail opts
  have hrun := fun v hv => @shape_of_run w s v j h0 ctx tail opts hv
  generalize exif__run s ctx tail opts = r at hk hrun hu ⊢
  unfold exif_write_buf_collect at hu ⊢
  by_cases hs : r.1.success = true
  · rw [if_pos hs] at hu ⊢
    dsimp only at hu ⊢
    obtain ⟨k2, hk2⟩ := read_file_calls (alloc_free r.2 r.1.data) p r.1.data_len
    have h1 : alloc_calls w (exif__read_file (alloc_free r.2 r.1.data) p r.1.data_len).2.2
        (j + k + k2) := (h0.add (hk.after_free r.1.data)).add hk2
    generalize exif__read_file (alloc_free r.2 r.1.data) p r.1.data_len = f at h1 hu ⊢
    cases hf : f.1 with
    | none =>
      rw [hf] at hu
      dsimp only at hu ⊢
      exact ⟨shape_of_err h1 _ _ hu, fun h => (by simp [exif__err_result] at h)⟩
    | some data =>
      dsimp only
      refine ⟨⟨fun _ => (hrun r.2 (alloc_calls_refl _)).1 hs, fun h => ?_⟩, fun _ => by simp⟩
      rw [hs] at h
      cases h
  · rw [if_neg hs] at hu ⊢
    exact ⟨hrun u hu, fun h => absurd h hs⟩

/-- Source `exif__apply_transform`, by cases: nothing happens for a failure, without options
and without a hook; for a success with a hook the data becomes what the hook returns, the
call is recorded and the original buffer is freed. -/
theorem apply_transform_cases (w : World) (result : exif_result_t)
    (opts : Option exif_options_t) :
    (result.success = false → exif__apply_transform w result opts = (result, w)) ∧
    (opts = none → exif__apply_transform w result opts = (result, w)) ∧
    (∀ o, opts = some o → o.transform = none →
      exif__apply_transform w result opts = (result, w)) ∧
    (∀ o hook, opts = some o → o.transform = some hook → result.success = true →
      exif__apply_transform w result opts
        = ({ result with
              data := hook (result.data.map (fun b => b.bytes)) result.data_len o.transform_ctx
              data_len :=
                match hook (result.data.map (fun b => b.bytes)) result.data_len
                    o.transform_ctx with
                | some t => strlen t.bytes
                | none => 0 },
           { w with
              hook_calls := w.hook_calls ++ [(addr_of result.data, result.data_len)]
              free_log := w.free_log ++ [addr_of result.data] })) := by
  refine ⟨?_, ?_, ?_, ?_⟩
  · intro hs
    unfold exif__apply_transform
    split
    · rfl
    · split
      · rfl
      · simp [hs]
  · intro ho
    subst ho
    rfl
  · intro o ho ht
    subst ho
    simp [exif__apply_transform, ht]
  · intro o hook ho ht hs
    subst ho
    unfold exif__apply_transform
    dsimp only
    rw [ht]
    dsimp only
    rw [if_neg (by simp [hs])]
    rfl

theorem run_call_trap_null {w : World} {l : RunLocals}
    (hrun : (w.guest_plan.headD default_step).outcome = .trap none) :
    run_trapped w l = some .errbuf ∧ run_exit_code w l = -1 ∧
    (exif__run_call w l).2.2.errbuf = snprintf_s 512 (ascii "unknown") := by
  have h1 : (wasm_runtime_call_wasm_a (lseek_set (ftruncate w)) .zeroperl_run_file
      [l.script_off % 2 ^ 32, l.wasm_ptrs.length, l.argv_off % 2 ^ 32]).1
      = .trap none := hrun
  have h2 := @call_exception_of_trap (lseek_set (ftruncate w)) none .zeroperl_run_file
      [l.script_off % 2 ^ 32, l.wasm_ptrs.length, l.argv_off % 2 ^ 32] hrun
  unfold run_trapped run_exit_code exif__run_call
  dsimp only
  rw [h1]
  dsimp only
  rw [h2]
  exact ⟨rfl, rfl, rfl⟩

/-- The text a trapped exception leaves in `ctx->errbuf`, the exit code -1 and the recorded
error, for an exception that is not the process-exit signal. -/
theorem run_call_trapped {w : World} {l : RunLocals} {exc : Option CStr}
    (hrun : (w.guest_plan.headD default_step).outcome = .trap exc)
    (hexit : ∀ t, exc = some t → strstr t (ascii "wasi proc exit") = false) :
    run_trapped w l = some .errbuf ∧ run_exit_code w l = -1 ∧
    (exif__run_call w l).2.2.errbuf = snprintf_s 512 (exc.getD (ascii "unknown")) := by
  cases exc with
  | none => exact run_call_trap_null hrun
  | some t => exact run_call_trap hrun (hexit t rfl)

/-- The errbuf is what the run entry point's trap left in it when the flush returns. -/
theorem errbuf_when_flush_returns {w : World} {l : RunLocals} {v : Int}
    (ht : run_trapped w l = some .errbuf)
    (hflush : (w.guest_plan.tail.headD default_step).outcome = .ret v) :
    (run_state w l).errbuf = (exif__run_call w l).2.2.errbuf := by
  have hg := (run_call_channel w l).2.2
  unfold run_trapped at ht
  unfold run_state exif__run_query exif__run_last_error
  rw [ht]
  dsimp only
  unfold exif__call_wasm
  dsimp only
  have h1 : (wasm_runtime_call_wasm_a (exif__run_call w l).2.2 .zeroperl_flush []).1
      = .ret v := by
    show ((exif__run_call w l).2.2.guest_plan.headD default_step).outcome = .ret v
    rw [hg]
    exact hflush
  rw [h1]
  rfl

/-- What the success read back in the state where a call builds its Result carries, in terms
of the bytes written during the call and of the allocator and the `lseek` and `read` answers
the call started with. -/
theorem captured_content {w : World} {ctx : exif} {tail : List CStr}
    {opts : Option exif_options_t} {l : RunLocals} {owned : Bool} {w1 : World}
    (h : exif__run_prepare w ctx tail opts = .ok (l, owned, w1)) :
    (captured (run_state w1 l)).data_len ≤ (written_during w1 l).length ∧
    (∀ b, (captured (run_state w1 l)).data = some b →
      b.bytes = (written_during w1 l).take (captured (run_state w1 l)).data_len) ∧
    (written_during w1 l = [] ∨ ¬ lseek_reports w (written_during w1 l).length
        ∨ w.alloc_plan.headD 0 = 0 →
      (captured (run_state w1 l)).data = none ∧ (captured (run_state w1 l)).data_len = 0) ∧
    (written_during w1 l ≠ [] → lseek_reports w (written_during w1 l).length →
      w.alloc_plan.headD 0 ≠ 0 →
      ((written_during w1 l).length : Int)
        ≤ w.read_plan.headD ((written_during w1 l).length : Int) →
      (captured (run_state w1 l)).data = some ⟨w.alloc_plan.headD 0, written_during w1 l⟩ ∧
      (captured (run_state w1 l)).data_len = (written_during w1 l).length) := by
  obtain ⟨hst, _⟩ := run_state_channel w1 l
  have hk := host_kept_at_result h
  obtain ⟨r1, r2, _, r4⟩ := read_stdout_spec (run_state w1 l)
  obtain ⟨g1, g2, _⟩ := read_stdout_frame (run_state w1 l)
  have hl := lseek_reports_of_kept hk.2.2.2.2.2 (written_during w1 l).length
  unfold captured
  dsimp only
  unfold reads_back at r4
  rw [hst, hk.1, hl] at g1
  rw [hst] at r1 r2 r4
  rw [hk.1, hk.2.2.2.2.1, hl] at r4
  refine ⟨r1, r2, fun hor => ?_, fun hne hrep ha hr => r4 hne ⟨hrep, ha, hr⟩⟩
  have hn := g1.mpr hor
  exact ⟨hn, g2 hn⟩

/-- Apart from the read-back of a file whose size `ftell` does not report, every call of the
allocator's alloc is made with a size of at least 1: from every state, `exif__run`,
`exif_read`, `exif_read_buf` and `exif_write` add only sizes of at least 1 to the sizes passed
to alloc, on every path; so does `exif_write_buf` when `ftell` reports the size of the output
file, and `exif_create` for a module image that is not empty. -/
theorem alloc_sizes_positive (w : World) (ctx : exif) (opts : Option exif_options_t) :
    (∀ tail, allocs_ok w (exif__run w ctx tail opts).2) ∧
    (∀ path, allocs_ok w (exif_read w ctx path opts).2) ∧
    (∀ input, allocs_ok w (exif_read_buf w ctx input opts).2) ∧
    (∀ in_path out_path, allocs_ok w (exif_write w ctx in_path out_path opts).2) ∧
    (∀ input,
      (∀ in_path out_path B,
        fs_read (guest_write w ctx input opts in_path out_path).2.files out_path = some B →
        ftell_reports (guest_write w ctx input opts in_path out_path).2 B.length) →
      allocs_ok w (exif_write_buf w ctx input opts).2) ∧
    (∀ (h : Host) (zeroperl_aot exiftool_script : Bytes) (cfg : Option exif_config_t),
      0 < zeroperl_aot.length →
      allocs_ok h.world (exif_create h zeroperl_aot exiftool_script cfg).2.world) :=
  ⟨fun tail => allocs_ok_run w ctx tail opts, fun path => allocs_ok_read w ctx path opts,
   fun input => allocs_ok_read_buf w ctx input opts,
   fun in_path out_path => allocs_ok_write w ctx in_path out_path opts,
   fun input hft => allocs_ok_write_buf w ctx input opts hft,
   fun h aot script cfg haot => allocs_ok_create h aot script cfg haot⟩

/-- C1. When the thread has its engine environment, the reset succeeds and all guest
allocations of the call succeed (one per argument, the argument vector, the program path),
`exif__run` hands the run entry point `argc = argc + (2 if config_path) + ntags + ntail`
(`claimed_count`) and an argument vector whose `i`-th entry is the guest address of a
NUL-terminated copy of the `i`-th string of `args ++ ["-config", config_path] ++ tags ++ tail`
(`claimed_arguments`; only `tail` without options), together with the address of a copy of
the program path.  The engine is taken to hand out fresh wasm32 offsets. -/
theorem exif__run_hands_over_arguments (w : World) (ctx : exif) (tail : List CStr)
    (opts : Option exif_options_t)
    (henv : (exif__run_thread_env w).1 = true) (hreset : reset_succeeds w)
    (halloc : allocations_succeed w ((claimed_arguments opts tail).length + 2))
    (hf : allocator_fresh w) (h32 : wasm32_addresses w) :
    GuestRan w (exif__run w ctx tail opts).2 ctx.script_path (claimed_arguments opts tail) ∧
    (claimed_arguments opts tail).length = claimed_count opts tail.length := by
  rw [← marshaled_eq_claimed] at halloc
  exact ⟨guest_ran_of_prepare (reaches_entry_of_allocations henv hreset halloc) hf h32,
    claimed_arguments_length opts tail⟩

/-- C1, witness: a call with the single argument `a.jpg` and no options. -/
theorem exif__run_hands_over_arguments_witness :
    (exif__run_thread_env calm).1 = true ∧ reset_succeeds calm ∧
    allocations_succeed calm ((claimed_arguments none [ascii "a.jpg"]).length + 2) ∧
    allocator_fresh calm ∧ wasm32_addresses calm ∧
    GuestRan calm (exif__run calm demo_ctx [ascii "a.jpg"] none).2 demo_ctx.script_path
      (claimed_arguments none [ascii "a.jpg"]) ∧
    (claimed_arguments none [ascii "a.jpg"]).length = 1 :=
  ⟨rfl, by decide, by decide, by decide, by decide,
   exif__run_hands_over_arguments calm demo_ctx [ascii "a.jpg"] none rfl (by decide) (by decide)
     (by decide) (by decide)⟩

/-- C2, as amended. For every call of `exif__run` that reaches the run entry point.  If an
error was recorded (`run_error`: a trapped exception or the guest's last error) the Result is
a failure with the exit code, no data, and an error that is NULL exactly when the allocator
returned NULL for it.  The text is: for a trapped exception, when the flush that follows
returns, what `snprintf` kept of the exception in the 512-byte `errbuf` ("unknown" when the
engine has no text), with exit code -1; for a last error, the string the guest reported.
Otherwise, if the exit code is not 0, the Result is the failure with the text
"exiftool exited with error" and that code.  Otherwise it is a success with exit code 0 and no
error whose data is read back from the channel: a prefix, `data_len` long, of the bytes
written during the call; NULL with `data_len` 0 when nothing was written, `lseek` did not
report their count or the allocator returned NULL; all the bytes when `lseek` reported their
count, the allocator returned a block and `read` delivered them.  A failure's error text is in
the block the allocator returned for it. -/
theorem exif__run_result_precedence (w : World) (ctx : exif) (tail : List CStr)
    (opts : Option exif_options_t) (l : RunLocals) (owned : Bool) (w1 : World)
    (h : exif__run_prepare w ctx tail opts = .ok (l, owned, w1)) :
    (∀ e, run_error w1 l = some e →
      (exif__run w ctx tail opts).1.success = false ∧
      (exif__run w ctx tail opts).1.data = none ∧
      (exif__run w ctx tail opts).1.data_len = 0 ∧
      (exif__run w ctx tail opts).1.exit_code = run_exit_code w1 l ∧
      ((exif__run w ctx tail opts).1.error = none ↔ w.alloc_plan.headD 0 = 0)) ∧
    (∀ (exc : Option CStr) (v : Int),
      (w1.guest_plan.headD default_step).outcome = .trap exc →
      (∀ t, exc = some t → strstr t (ascii "wasi proc exit") = false) →
      (w1.guest_plan.tail.headD default_step).outcome = .ret v →
      (exif__run w ctx tail opts).1
        = { success := false, data := none, data_len := 0,
            error :=
              if w.alloc_plan.headD 0 = 0 then none
              else some ⟨w.alloc_plan.headD 0, snprintf_s 512 (exc.getD (ascii "unknown"))⟩,
            exit_code := -1 }) ∧
    (∀ (p : Int) (b : Nat) (s : CStr), run_trapped w1 l = none →
      (last_error_call w1 l).2.1 = some p →
      exif__wasm_read_cstring (last_error_call w1 l).2.2 (uint32 p) = some (b :: s) →
      (exif__run w ctx tail opts).1
        = { success := false, data := none, data_len := 0,
            error :=
              if w.alloc_plan.headD 0 = 0 then none else some ⟨w.alloc_plan.headD 0, b :: s⟩,
            exit_code := run_exit_code w1 l }) ∧
    (run_error w1 l = none → run_exit_code w1 l ≠ 0 →
      (exif__run w ctx tail opts).1
        = { success := false, data := none, data_len := 0,
            error :=
              if w.alloc_plan.headD 0 = 0 then none
              else some ⟨w.alloc_plan.headD 0, ascii "exiftool exited with error"⟩,
            exit_code := run_exit_code w1 l }) ∧
    (run_error w1 l = none → run_exit_code w1 l = 0 →
      (exif__run w ctx tail opts).1.success = true ∧
      (exif__run w ctx tail opts).1.exit_code = 0 ∧
      (exif__run w ctx tail opts).1.error = none ∧
      (exif__run w ctx tail opts).1.data_len ≤ (written_during w1 l).length ∧
      (∀ b, (exif__run w ctx tail opts).1.data = some b →
        b.bytes = (written_during w1 l).take (exif__run w ctx tail opts).1.data_len) ∧
      (written_during w1 l = [] ∨ ¬ lseek_reports w (written_during w1 l).length
          ∨ w.alloc_plan.headD 0 = 0 →
        (exif__run w ctx tail opts).1.data = none ∧
        (exif__run w ctx tail opts).1.data_len = 0) ∧
      (written_during w1 l ≠ [] → lseek_reports w (written_during w1 l).length →
        w.alloc_plan.headD 0 ≠ 0 →
        ((written_during w1 l).length : Int)
          ≤ w.read_plan.headD ((written_during w1 l).length : Int) →
        (exif__run w ctx tail opts).1.data
          = some ⟨w.alloc_plan.headD 0, written_during w1 l⟩ ∧
        (exif__run w ctx tail opts).1.data_len = (written_during w1 l).length)) := by
  obtain ⟨p1, p2, p3⟩ := result_by_precedence w ctx tail opts l owned w1 h
  have hk := host_kept_at_result h
  have hf : ∀ t c, failure (run_state w1 l) t c
      = { success := false, data := none, data_len := 0,
          error := if w.alloc_plan.headD 0 = 0 then none else some ⟨w.alloc_plan.headD 0, t⟩,
          exit_code := c } := by
    intro t c
    rw [failure_eq, hk.1]
  refine ⟨?_, ?_, ?_, ?_, ?_⟩
  · intro e he
    rw [p1 e he, hf]
    refine ⟨rfl, rfl, rfl, rfl, ?_⟩
    dsimp only
    by_cases h0 : w.alloc_plan.headD 0 = 0
    · simp [h0]
    · simp [h0]
  · intro exc v hrun hexit hflush
    obtain ⟨ht, hc, hb⟩ := @run_call_trapped w1 l exc hrun hexit
    rw [p1 _ (run_error_of_trapped ht), hc, hf]
    simp only [ErrText.deref, errbuf_when_flush_returns ht hflush, hb]
  · intro p b s ht hp hs
    have he := run_error_eq w1 l ht
    rw [hp] at he
    simp only [Option.getD_some] at he
    rw [hs] at he
    rw [p1 _ he, hf]
    have hd : ErrText.deref (run_state w1 l) (.guest (uint32 p)) = b :: s := by
      rw [run_state_eq w1 l ht]
      unfold exif__wasm_read_cstring at hs
      split at hs
      · exact absurd hs (by simp)
      · simp only [ErrText.deref, hs, Option.getD_some]
    rw [hd]
  · intro he hc
    rw [p2 he hc, hf]
  · intro he hc
    obtain ⟨c1, c2, c3, c4⟩ := captured_content h
    rw [p3 he hc]
    exact ⟨rfl, rfl, rfl, c1, c2, c3, c4⟩

/-- C2, witness: a guest that returns 1 and reports the last error `boom`; a run entry point
that traps with "Exception: unreachable" before a flush that returns; a guest that prints
`{}` and returns 0. -/
theorem exif__run_result_precedence_witness :
    exif__run_prepare reports_boom demo_ctx [ascii "a.jpg"] none
      = .ok (demo_locals, false, at_entry reports_boom demo_mem [256]) ∧
    run_trapped (at_entry reports_boom demo_mem [256]) demo_locals = none ∧
    (last_error_call (at_entry reports_boom demo_mem [256]) demo_locals).2.1 = some 700 ∧
    (exif__run reports_boom demo_ctx [ascii "a.jpg"] none).1
      = { success := false, data := none, data_len := 0,
          error := some ⟨4096, ascii "boom"⟩, exit_code := 1 } ∧
    exif__run_prepare run_traps demo_ctx [ascii "a.jpg"] none
      = .ok (demo_locals, false, at_entry run_traps demo_mem [256]) ∧
    (exif__run run_traps demo_ctx [ascii "a.jpg"] none).1
      = { success := false, data := none, data_len := 0,
          error := some ⟨4096, ascii "Exception: unreachable"⟩, exit_code := -1 } ∧
    exif__run_prepare prints_twice demo_ctx [ascii "a.jpg"] none
      = .ok (demo_locals, false, at_entry prints_twice demo_mem [256, 320, 384]) ∧
    written_during (at_entry prints_twice demo_mem [256, 320, 384]) demo_locals = ascii "{}" ∧
    (exif__run prints_twice demo_ctx [ascii "a.jpg"] none).1.data = some ⟨4096, ascii "{}"⟩ ∧
    (exif__run prints_twice demo_ctx [ascii "a.jpg"] none).1.data_len = 2 :=
  ⟨rfl, rfl, rfl,
   ((exif__run_result_precedence reports_boom demo_ctx [ascii "a.jpg"] none demo_locals false
      (at_entry reports_boom demo_mem [256]) rfl).2.2.1 700 98 (ascii "oom") rfl rfl rfl).trans
      rfl,
   rfl,
   ((exif__run_result_precedence run_traps demo_ctx [ascii "a.jpg"] none demo_locals false
      (at_entry run_traps demo_mem [256]) rfl).2.1 (some (ascii "Exception: unreachable")) 0
      rfl (fun t ht => by cases ht; decide) rfl).trans rfl,
   rfl, by decide,
   (((exif__run_result_precedence prints_twice demo_ctx [ascii "a.jpg"] none demo_locals false
      (at_entry prints_twice demo_mem [256, 320, 384]) rfl).2.2.2.2 (by decide!)
      (by decide!)).2.2.2.2.2.2 (by decide) (by decide) (by decide) (by decide)).1,
   (((exif__run_result_precedence prints_twice demo_ctx [ascii "a.jpg"] none demo_locals false
      (at_entry prints_twice demo_mem [256, 320, 384]) rfl).2.2.2.2 (by decide!)
      (by decide!)).2.2.2.2.2.2 (by decide) (by decide) (by decide) (by decide)).2⟩

/-- C2, counterexample. With an allocator that returns NULL, a call whose run entry point
traps returns a failure that carries no text, and a call whose guest prints `{}` and returns
0 returns a success that carries no data; so does the latter call when `lseek` fails on the
channel; an exception text of 600 bytes reaches the Result cut to 511 bytes. -/
theorem result_without_text_or_output :
    (exif__run trap_without_memory demo_ctx [ascii "a.jpg"] none).1
      = { success := false, data := none, data_len := 0, error := none, exit_code := -1 } ∧
    (exif__run prints_without_memory demo_ctx [ascii "a.jpg"] none).1
      = { success := true, data := none, data_len := 0, error := none, exit_code := 0 } ∧
    (exif__run prints_without_memory demo_ctx [ascii "a.jpg"] none).2.stdout = ascii "{}" ∧
    (exif__run prints_unsized demo_ctx [ascii "a.jpg"] none).1
      = { success := true, data := none, data_len := 0, error := none, exit_code := 0 } ∧
    (exif__run prints_unsized demo_ctx [ascii "a.jpg"] none).2.stdout = ascii "{}" ∧
    (exif__run long_exception demo_ctx [ascii "a.jpg"] none).1
      = { success := false, data := none, data_len := 0,
          error := some ⟨4096, List.replicate 511 120⟩, exit_code := -1 } := by
  decide!

/-- C3. For every call of `exif__run`, whatever its outcome, the guest allocations the call
made (`made`, without repetition) are exactly the offsets it freed, each once and in the order
of allocation, and the live host-made guest blocks after the call are those before it.  The
engine is taken to hand out fresh offsets. -/
theorem exif__run_releases_guest_allocations (w : World) (ctx : exif) (tail : List CStr)
    (opts : Option exif_options_t) (hf : allocator_fresh w) :
    ∃ made : List Nat, made.Nodup ∧
      (exif__run w ctx tail opts).2.malloc_log = w.malloc_log ++ made ∧
      (exif__run w ctx tail opts).2.gfree_log = w.gfree_log ++ made ∧
      (exif__run w ctx tail opts).2.gmem = w.gmem := by
  cases hp : exif__run_prepare w ctx tail opts with
  | error early =>
    obtain ⟨r, w1⟩ := early
    rw [exif__run_of_prepare_error hp]
    obtain ⟨made, h1, h2, h3, h4⟩ := prepare_error hp hf
    exact ⟨made, h1, h3, h4, h2⟩
  | ok entry =>
    obtain ⟨l, owned, w1⟩ := entry
    rw [exif__run_of_prepare_ok hp]
    obtain ⟨hg, hlen, _, _⟩ := prepare_ok hp hf
    have hf0 := fresh_of_gheap (gheap_reset_state w) hf
    have h0 := gheap_reset_state w
    have hc := cleanup_releases hg hf0 (le_of_eq hlen) (gheap_run_invoke w1 l) owned
    refine ⟨keys (call_blocks l ctx (marshaled opts tail)),
      (List.nodup_append.mp (hg.nodup hf0)).2.1, ?_, ?_, ?_⟩
    · rw [hc.2.1, malloc_log_of_gheap h0]
    · rw [hc.2.2, gfree_log_of_gheap h0]
    · rw [hc.1, gmem_of_gheap h0]

/-- C3, witness: the engine runs out of guest memory at the second allocation. -/
theorem exif__run_releases_guest_allocations_witness :
    allocator_fresh short_of_memory ∧
    ∃ made : List Nat, made.Nodup ∧
      (exif__run short_of_memory demo_ctx [ascii "a.jpg"] none).2.malloc_log
        = short_of_memory.malloc_log ++ made ∧
      (exif__run short_of_memory demo_ctx [ascii "a.jpg"] none).2.gfree_log
        = short_of_memory.gfree_log ++ made ∧
      (exif__run short_of_memory demo_ctx [ascii "a.jpg"] none).2.gmem = short_of_memory.gmem :=
  ⟨by decide,
   exif__run_releases_guest_allocations short_of_memory demo_ctx [ascii "a.jpg"] none
     (by decide)⟩

/-- C4, as amended. In every Result returned by `exif_read`, `exif_read_buf`, `exif_write` and
`exif_write_buf`, never both `data` and `error` are populated.  A success has no error; a
failure has no data (`data_len` 0), and its error is NULL exactly when the allocator returned
NULL to the alloc call made for the error text, the last one of the operation
(`result_shape`).  The data of a success of `exif_write`, and of `exif_read` and
`exif_read_buf` when no transform hook is set, is NULL exactly when the channel is empty at
return (the guest wrote nothing during the call), `lseek` did not report its size, or the
allocator returned NULL to the alloc call made for the data; with a hook the data is what the
hook returned.  A success of `exif_write_buf` always has data. -/
theorem results_are_one_sided (w : World) (ctx : exif) (opts : Option exif_options_t) :
    (∀ path,
      result_shape w (exif_read w ctx path opts).2 (exif_read w ctx path opts).1 ∧
      ((∀ o, opts = some o → o.transform = none) →
        (exif_read w ctx path opts).1.success = true →
        ((exif_read w ctx path opts).1.data = none
          ↔ (exif_read w ctx path opts).2.stdout = []
            ∨ ¬ lseek_reports w (exif_read w ctx path opts).2.stdout.length
            ∨ last_answer w (exif_read w ctx path opts).2 = 0))) ∧
    (∀ input,
      result_shape w (exif_read_buf w ctx input opts).2 (exif_read_buf w ctx input opts).1 ∧
      ((∀ o, opts = some o → o.transform = none) →
        (exif_read_buf w ctx input opts).1.success = true →
        ((exif_read_buf w ctx input opts).1.data = none
          ↔ (exif_read_buf w ctx input opts).2.stdout = []
            ∨ ¬ lseek_reports w (exif_read_buf w ctx input opts).2.stdout.length
            ∨ last_answer w (exif_read_buf w ctx input opts).2 = 0))) ∧
    (∀ in_path out_path,
      result_shape w (exif_write w ctx in_path out_path opts).2
        (exif_write w ctx in_path out_path opts).1 ∧
      ((exif_write w ctx in_path out_path opts).1.success = true →
        ((exif_write w ctx in_path out_path opts).1.data = none
          ↔ (exif_write w ctx in_path out_path opts).2.stdout = []
            ∨ ¬ lseek_reports w (exif_write w ctx in_path out_path opts).2.stdout.length
            ∨ last_answer w (exif_write w ctx in_path out_path opts).2 = 0))) ∧
    (∀ input,
      result_shape w (exif_write_buf w ctx input opts).2 (exif_write_buf w ctx input opts).1 ∧
      ((exif_write_buf w ctx input opts).1.success = true →
        (exif_write_buf w ctx input opts).1.data ≠ none)) ∧
    (∀ o hook, opts = some o → o.transform = some hook →
      (∀ path, (exif_read w ctx path opts).1.success = true →
        ∃ d n, (exif_read w ctx path opts).1.data = hook d n o.transform_ctx) ∧
      (∀ input, (exif_read_buf w ctx input opts).1.success = true →
        ∃ d n, (exif_read_buf w ctx input opts).1.data = hook d n o.transform_ctx)) := by
  refine ⟨?_, ?_, ?_, ?_, ?_⟩
  · intro path
    exact shape_of_transformed (alloc_calls_refl w) rfl ctx _ opts (alloc_calls_refl _) rfl
  · intro input
    obtain ⟨⟨k, hk⟩, _, _, hl⟩ :=
      write_tmpfile_frame w input.data (exif__suffix_of input.filename)
    unfold exif_read_buf
    dsimp only
    split
    · exact ⟨shape_of_err hk _ _ (alloc_calls_refl _),
        fun _ h => (by simp [exif__err_result] at h)⟩
    · rename_i tmp_path _
      exact shape_of_transformed hk hl ctx _ opts
        (((alloc_calls_refl _).after_unlink tmp_path.bytes).after_free (some tmp_path))
        rfl
  · intro in_path out_path
    unfold exif_write
    split
    · exact ⟨shape_of_run (alloc_calls_refl w) ctx _ opts (alloc_calls_refl _),
        data_of_run (alloc_calls_refl w) rfl ctx _ opts (alloc_calls_refl _) rfl⟩
    · exact ⟨shape_of_run (alloc_calls_refl w) ctx _ opts (alloc_calls_refl _),
        data_of_run (alloc_calls_refl w) rfl ctx _ opts (alloc_calls_refl _) rfl⟩
  · intro input
    obtain ⟨⟨k, hk⟩, _, _, _⟩ :=
      write_tmpfile_frame w input.data (exif__suffix_of input.filename)
    unfold exif_write_buf
    dsimp only
    split
    · exact ⟨shape_of_err hk _ _ (alloc_calls_refl _),
        fun h => (by simp [exif__err_result] at h)⟩
    · rename_i in_path _
      have hm : alloc_calls w (mkstemps (exif__write_tmpfile w input.data
          (exif__suffix_of input.filename)).2
          (tmp_template (ascii "/tmp/libexif_out_XXXXXX") (exif__suffix_of input.filename))
          (tmp_suffixlen (exif__suffix_of input.filename))).2 (k + 0) :=
        hk.add (alloc_calls_of_kept (host_kept_mkstemps _ _ _))
      split
      · exact ⟨shape_of_err hm _ _
          (((alloc_calls_refl _).after_unlink in_path.bytes).after_free (some in_path)),
          fun h => (by simp [exif__err_result] at h)⟩
      · rename_i out_path _
        exact shape_of_collect (hm.after_unlink out_path) ctx _ opts out_path
          ((((alloc_calls_refl _).after_unlink out_path).after_unlink
            in_path.bytes).after_free (some in_path))
  · intro o hook ho ht
    constructor
    · intro path hs
      have ha := apply_transform_frame
        (exif__run w ctx (exif__read_defaults ++ [path]) opts).2
        (exif__run w ctx (exif__read_defaults ++ [path]) opts).1 opts
      unfold exif_read at hs ⊢
      dsimp only at hs ⊢
      exact ⟨_, _, ha.2.2.2.2.2.2 o hook ho ht (ha.1 ▸ hs)⟩
    · intro input hs
      unfold exif_read_buf at hs ⊢
      dsimp only at hs ⊢
      split at hs
      · simp [exif__err_result] at hs
      · rename_i tmp_path heq
        dsimp only at hs ⊢
        have ha := apply_transform_frame
          (exif__run (exif__write_tmpfile w input.data (exif__suffix_of input.filename)).2 ctx
            (exif__read_defaults ++ [tmp_path.bytes]) opts).2
          (exif__run (exif__write_tmpfile w input.data (exif__suffix_of input.filename)).2 ctx
            (exif__read_defaults ++ [tmp_path.bytes]) opts).1 opts
        exact ⟨_, _, ha.2.2.2.2.2.2 o hook ho ht (ha.1 ▸ hs)⟩

/-- C4, witness: a write whose guest reports the error `boom` fails with the error populated,
the allocator having returned the block 4096 for it; a write whose guest prints `{}` succeeds
with data. -/
theorem results_are_one_sided_witness :
    (exif_write reports_boom demo_ctx (ascii "a.jpg") none none).1.success = false ∧
    last_answer reports_boom (exif_write reports_boom demo_ctx (ascii "a.jpg") none none).2
      = 4096 ∧
    ((exif_write reports_boom demo_ctx (ascii "a.jpg") none none).1.error = none
      ↔ last_answer reports_boom (exif_write reports_boom demo_ctx (ascii "a.jpg") none none).2
          = 0) ∧
    (exif_write prints_twice demo_ctx (ascii "a.jpg") none none).1.success = true ∧
    ((exif_write prints_twice demo_ctx (ascii "a.jpg") none none).1.data = none
      ↔ (exif_write prints_twice demo_ctx (ascii "a.jpg") none none).2.stdout = []
        ∨ ¬ lseek_reports prints_twice
            (exif_write prints_twice demo_ctx (ascii "a.jpg") none none).2.stdout.length
        ∨ last_answer prints_twice (exif_write prints_twice demo_ctx (ascii "a.jpg") none none).2
            = 0) :=
  ⟨by decide!, by decide!,
   ((((results_are_one_sided reports_boom demo_ctx none).2.2.1 (ascii "a.jpg") none).1).2
      (by decide!)).2.2,
   by decide!,
   ((results_are_one_sided prints_twice demo_ctx none).2.2.1 (ascii "a.jpg") none).2
     (by decide!)⟩

/-- C4, counterexample. A write whose guest exits with 0 and prints nothing returns a
successful Result in which neither `data` nor `error` is populated; a write whose guest
returns 1, with an allocator that returns NULL, returns a failure in which neither is. -/
theorem neither_data_nor_error :
    ((exif_write calm demo_ctx (ascii "a.jpg") none none).1.success = true ∧
      (exif_write calm demo_ctx (ascii "a.jpg") none none).1.data = none ∧
      (exif_write calm demo_ctx (ascii "a.jpg") none none).1.error = none) ∧
    ((exif_write fails_without_memory demo_ctx (ascii "a.jpg") none none).1.success = false ∧
      (exif_write fails_without_memory demo_ctx (ascii "a.jpg") none none).1.data = none ∧
      (exif_write fails_without_memory demo_ctx (ascii "a.jpg") none none).1.error = none) := by
  decide!

/-- C5. `exif__apply_transform` leaves the Result and the state untouched (the hook is not
called, nothing is freed) when the Result is a failure, when there are no options, and when
the options carry no hook; for a successful Result with a hook, `data` becomes the hook's
return value for (data, data_len, transform_ctx), `data_len` its length, the original buffer
is freed, and the other fields stay.  `exif_read` and `exif_read_buf` apply it to the Result
of their guest run: when that run fails, or there is no hook, they return its Result as it is
and no hook is called; when it succeeds and a hook is set, the hook is called exactly once, on
the run's data and data_len, the data returned is what the hook returns, and the run's buffer
is freed.  An `exif_read_buf` that cannot spill its input fails without calling the hook. -/
theorem exif__apply_transform_success_only (w : World) (result : exif_result_t)
    (opts : Option exif_options_t) :
    (result.success = false → exif__apply_transform w result opts = (result, w)) ∧
    (opts = none → exif__apply_transform w result opts = (result, w)) ∧
    (∀ o, opts = some o → o.transform = none →
      exif__apply_transform w result opts = (result, w)) ∧
    (∀ o hook, opts = some o → o.transform = some hook → result.success = true →
      exif__apply_transform w result opts
        = ({ result with
              data := hook (result.data.map (fun b => b.bytes)) result.data_len o.transform_ctx
              data_len :=
                match hook (result.data.map (fun b => b.bytes)) result.data_len
                    o.transform_ctx with
                | some t => strlen t.bytes
                | none => 0 },
           { w with
              hook_calls := w.hook_calls ++ [(addr_of result.data, result.data_len)]
              free_log := w.free_log ++ [addr_of result.data] })) ∧
    (∀ ctx path,
      ((exif__run w ctx (exif__read_defaults ++ [path]) opts).1.success = false ∨ opts = none ∨
          (∃ o, opts = some o ∧ o.transform = none) →
        exif_read w ctx path opts = exif__run w ctx (exif__read_defaults ++ [path]) opts ∧
        (exif_read w ctx path opts).2.hook_calls = w.hook_calls) ∧
      (∀ o hook, opts = some o → o.transform = some hook →
        (exif__run w ctx (exif__read_defaults ++ [path]) opts).1.success = true →
        (exif_read w ctx path opts).1
          = { (exif__run w ctx (exif__read_defaults ++ [path]) opts).1 with
              data := hook
                ((exif__run w ctx (exif__read_defaults ++ [path]) opts).1.data.map
                  (fun b => b.bytes))
                (exif__run w ctx (exif__read_defaults ++ [path]) opts).1.data_len
                o.transform_ctx
              data_len :=
                match hook
                    ((exif__run w ctx (exif__read_defaults ++ [path]) opts).1.data.map
                      (fun b => b.bytes))
                    (exif__run w ctx (exif__read_defaults ++ [path]) opts).1.data_len
                    o.transform_ctx with
                | some t => strlen t.bytes
                | none => 0 } ∧
        (exif_read w ctx path opts).2.hook_calls
          = w.hook_calls
            ++ [(addr_of (exif__run w ctx (exif__read_defaults ++ [path]) opts).1.data,
                 (exif__run w ctx (exif__read_defaults ++ [path]) opts).1.data_len)] ∧
        (exif_read w ctx path opts).2.free_log
          = w.free_log
            ++ [addr_of (exif__run w ctx (exif__read_defaults ++ [path]) opts).1.data])) ∧
    (∀ ctx input,
      ((exif__write_tmpfile w input.data (exif__suffix_of input.filename)).1 = none →
        (exif_read_buf w ctx input opts).1.success = false ∧
        (exif_read_buf w ctx input opts).2.hook_calls = w.hook_calls) ∧
      (∀ tmp_path,
        (exif__write_tmpfile w input.data (exif__suffix_of input.filename)).1 = some tmp_path →
        ((guest_read w ctx input opts tmp_path).1.success = false ∨ opts = none ∨
            (∃ o, opts = some o ∧ o.transform = none) →
          (exif_read_buf w ctx input opts).1 = (guest_read w ctx input opts tmp_path).1 ∧
          (exif_read_buf w ctx input opts).2.hook_calls = w.hook_calls) ∧
        (∀ o hook, opts = some o → o.transform = some hook →
          (guest_read w ctx input opts tmp_path).1.success = true →
          (exif_read_buf w ctx input opts).1
            = { (guest_read w ctx input opts tmp_path).1 with
                data := hook
                  ((guest_read w ctx input opts tmp_path).1.data.map (fun b => b.bytes))
                  (guest_read w ctx input opts tmp_path).1.data_len o.transform_ctx
                data_len :=
                  match hook
                      ((guest_read w ctx input opts tmp_path).1.data.map (fun b => b.bytes))
                      (guest_read w ctx input opts tmp_path).1.data_len o.transform_ctx with
                  | some t => strlen t.bytes
                  | none => 0 } ∧
          (exif_read_buf w ctx input opts).2.hook_calls
            = w.hook_calls
              ++ [(addr_of (guest_read w ctx input opts tmp_path).1.data,
                   (guest_read w ctx input opts tmp_path).1.data_len)] ∧
          (exif_read_buf w ctx input opts).2.free_log
            = w.free_log
              ++ [addr_of (guest_read w ctx input opts tmp_path).1.data, tmp_path.addr]))) := by
  obtain ⟨k1, k2, k3, k4⟩ := apply_transform_cases w result opts
  refine ⟨k1, k2, k3, k4, ?_, ?_⟩
  · intro ctx path
    obtain ⟨hh, hf, _⟩ := run_outcome w ctx (exif__read_defaults ++ [path]) opts
    obtain ⟨a1, a2, a3, a4⟩ := apply_transform_cases
      (exif__run w ctx (exif__read_defaults ++ [path]) opts).2
      (exif__run w ctx (exif__read_defaults ++ [path]) opts).1 opts
    unfold exif_read
    dsimp only
    constructor
    · intro hor
      have he : exif__apply_transform (exif__run w ctx (exif__read_defaults ++ [path]) opts).2
          (exif__run w ctx (exif__read_defaults ++ [path]) opts).1 opts
          = exif__run w ctx (exif__read_defaults ++ [path]) opts := by
        rcases hor with h | h | ⟨o, ho, ht⟩
        · exact a1 h
        · exact a2 h
        · exact a3 o ho ht
      rw [he]
      exact ⟨rfl, hh⟩
    · intro o hook ho ht hs
      rw [a4 o hook ho ht hs]
      dsimp only
      rw [hh, hf]
      exact ⟨rfl, rfl, rfl⟩
  · intro ctx input
    obtain ⟨_, th, tf, _⟩ := write_tmpfile_frame w input.data (exif__suffix_of input.filename)
    constructor
    · intro hn
      unfold exif_read_buf
      dsimp only
      rw [hn]
      dsimp only
      exact ⟨rfl, (err_result_frame _ _ _).2.1.trans th⟩
    · intro tmp_path hp
      unfold guest_read
      obtain ⟨hh, hf, _⟩ := run_outcome
        (exif__write_tmpfile w input.data (exif__suffix_of input.filename)).2 ctx
        (exif__read_defaults ++ [tmp_path.bytes]) opts
      obtain ⟨a1, a2, a3, a4⟩ := apply_transform_cases
        (exif__run (exif__write_tmpfile w input.data (exif__suffix_of input.filename)).2 ctx
          (exif__read_defaults ++ [tmp_path.bytes]) opts).2
        (exif__run (exif__write_tmpfile w input.data (exif__suffix_of input.filename)).2 ctx
          (exif__read_defaults ++ [tmp_path.bytes]) opts).1 opts
      unfold exif_read_buf
      dsimp only
      rw [hp]
      dsimp only
      constructor
      · intro hor
        have he : exif__apply_transform
            (exif__run (exif__write_tmpfile w input.data (exif__suffix_of input.filename)).2 ctx
              (exif__read_defaults ++ [tmp_path.bytes]) opts).2
            (exif__run (exif__write_tmpfile w input.data (exif__suffix_of input.filename)).2 ctx
              (exif__read_defaults ++ [tmp_path.bytes]) opts).1 opts
            = exif__run (exif__write_tmpfile w input.data (exif__suffix_of input.filename)).2 ctx
                (exif__read_defaults ++ [tmp_path.bytes]) opts := by
          rcases hor with h | h | ⟨o, ho, ht⟩
          · exact a1 h
          · exact a2 h
          · exact a3 o ho ht
        rw [he]
        exact ⟨rfl, hh.trans th⟩
      · intro o hook ho ht hs
        rw [a4 o hook ho ht hs]
        dsimp only [alloc_free, unlink, addr_of]
        rw [hh, hf, th, tf]
        refine ⟨rfl, rfl, ?_⟩
        rw [List.append_assoc]
        rfl

/-- C5, witness: the guest prints `{}` and the hook returns `ok`: `exif_read` and
`exif_read_buf` return `ok`, having called the hook once on the two bytes read back and freed
their buffer; when the guest reports an error the Result of the run is returned and no hook
is called. -/
theorem exif__apply_transform_success_only_witness :
    demo_hook_opts.transform = some demo_hook ∧ demo_result.success = true ∧
    exif__apply_transform calm demo_result (some demo_hook_opts)
      = ({ demo_result with data := some ⟨900, ascii "ok"⟩, data_len := 2 },
         { calm with hook_calls := [(4096, 2)], free_log := [4096] }) ∧
    (exif__run roomy_prints demo_ctx (exif__read_defaults ++ [ascii "a.jpg"])
      (some demo_hook_opts)).1 = exif__ok_result (some ⟨4096, ascii "{}"⟩) 2 0 ∧
    (exif_read roomy_prints demo_ctx (ascii "a.jpg") (some demo_hook_opts)).1
      = exif__ok_result (some ⟨900, ascii "ok"⟩) 2 0 ∧
    (exif_read roomy_prints demo_ctx (ascii "a.jpg") (some demo_hook_opts)).2.hook_calls
      = [(4096, 2)] ∧
    (exif_read roomy_prints demo_ctx (ascii "a.jpg") (some demo_hook_opts)).2.free_log
      = [4096] ∧
    (exif__write_tmpfile roomy_prints demo_input.data
      (exif__suffix_of demo_input.filename)).1 = some demo_tmp_path ∧
    (guest_read roomy_prints demo_ctx demo_input (some demo_hook_opts) demo_tmp_path).1
      = exif__ok_result (some ⟨8192, ascii "{}"⟩) 2 0 ∧
    (exif_read_buf roomy_prints demo_ctx demo_input (some demo_hook_opts)).1
      = exif__ok_result (some ⟨900, ascii "ok"⟩) 2 0 ∧
    (exif_read_buf roomy_prints demo_ctx demo_input (some demo_hook_opts)).2.hook_calls
      = [(8192, 2)] ∧
    (exif_read_buf roomy_prints demo_ctx demo_input (some demo_hook_opts)).2.free_log
      = [8192, 4096] ∧
    (exif__run roomy_fails demo_ctx (exif__read_defaults ++ [ascii "a.jpg"])
      (some demo_hook_opts)).1
      = { success := false, data := none, data_len := 0,
          error := some ⟨4096, ascii "boom"⟩, exit_code := 1 } ∧
    exif_read roomy_fails demo_ctx (ascii "a.jpg") (some demo_hook_opts)
      = exif__run roomy_fails demo_ctx (exif__read_defaults ++ [ascii "a.jpg"])
          (some demo_hook_opts) ∧
    (exif_read roomy_fails demo_ctx (ascii "a.jpg") (some demo_hook_opts)).2.hook_calls = [] :=
  ⟨rfl, rfl,
   ((exif__apply_transform_success_only calm demo_result (some demo_hook_opts)).2.2.2.1
      demo_hook_opts demo_hook rfl rfl rfl).trans rfl,
   by decide!,
   ((((exif__apply_transform_success_only roomy_prints demo_result
      (some demo_hook_opts)).2.2.2.2.1 demo_ctx (ascii "a.jpg")).2
      demo_hook_opts demo_hook rfl rfl (by decide!)).1).trans (by decide!),
   ((((exif__apply_transform_success_only roomy_prints demo_result
      (some demo_hook_opts)).2.2.2.2.1 demo_ctx (ascii "a.jpg")).2
      demo_hook_opts demo_hook rfl rfl (by decide!)).2.1).trans (by decide!),
   ((((exif__apply_transform_success_only roomy_prints demo_result
      (some demo_hook_opts)).2.2.2.2.1 demo_ctx (ascii "a.jpg")).2
      demo_hook_opts demo_hook rfl rfl (by decide!)).2.2).trans (by decide!),
   by decide,
   by decide!,
   (((((exif__apply_transform_success_only roomy_prints demo_result
      (some demo_hook_opts)).2.2.2.2.2 demo_ctx demo_input).2 demo_tmp_path (by decide)).2
      demo_hook_opts demo_hook rfl rfl (by decide!)).1).trans (by decide!),
   (((((exif__apply_transform_success_only roomy_prints demo_result
      (some demo_hook_opts)).2.2.2.2.2 demo_ctx demo_input).2 demo_tmp_path (by decide)).2
      demo_hook_opts demo_hook rfl rfl (by decide!)).2.1).trans (by decide!),
   (((((exif__apply_transform_success_only roomy_prints demo_result
      (some demo_hook_opts)).2.2.2.2.2 demo_ctx demo_input).2 demo_tmp_path (by decide)).2
      demo_hook_opts demo_hook rfl rfl (by decide!)).2.2).trans (by decide!),
   by decide!,
   ((((exif__apply_transform_success_only roomy_fails demo_result
      (some demo_hook_opts)).2.2.2.2.1 demo_ctx (ascii "a.jpg")).1 (Or.inl (by decide!))).1),
   ((((exif__apply_transform_success_only roomy_fails demo_result
      (some demo_hook_opts)).2.2.2.2.1 demo_ctx (ascii "a.jpg")).1 (Or.inl (by decide!))).2)⟩

/-- C6, failing input. The run entry point traps with "Exception: unreachable" and the flush
that follows traps with another exception: the Result carries the text of the flush's
exception, not that of the run entry point's. -/
theorem flush_trap_replaces_error_text :
    (exif__run trap_then_flush_trap demo_ctx [ascii "a.jpg"] none).1
      = { success := false, data := none, data_len := 0,
          error := some ⟨4096, ascii "Exception: out of bounds memory access"⟩,
          exit_code := -1 } := by
  decide

/-- C7, as amended. When the run entry point fails with an exception whose text contains
"wasi proc exit", no error is recorded for the exception and the exit code of the Result is
the value of the engine's WASI exit-code accessor (as `int32_t`).  If that code is 0 and the
last-error query records nothing, the Result is a success with no error whose data is read
back from the channel: a prefix, `data_len` long, of the bytes written during the call; NULL
with `data_len` 0 when nothing was written, `lseek` did not report their count or the
allocator returned NULL; all the bytes when `lseek` reported their count, the allocator
returned a block and `read` delivered them.  If the code is not 0 the Result is a failure,
without data. -/
theorem exif__run_intentional_exit (w : World) (ctx : exif) (tail : List CStr)
    (opts : Option exif_options_t) (l : RunLocals) (owned : Bool) (w1 : World) (exc : CStr)
    (h : exif__run_prepare w ctx tail opts = .ok (l, owned, w1))
    (hrun : (w1.guest_plan.headD default_step).outcome = .trap (some exc))
    (hexit : strstr exc (ascii "wasi proc exit") = true) :
    run_trapped w1 l = none ∧
    (exif__run w ctx tail opts).1.exit_code
      = int32 (w1.guest_plan.headD default_step).wasi_exit_code ∧
    (int32 (w1.guest_plan.headD default_step).wasi_exit_code = 0 → run_error w1 l = none →
      (exif__run w ctx tail opts).1.success = true ∧
      (exif__run w ctx tail opts).1.error = none ∧
      (exif__run w ctx tail opts).1.data_len ≤ (written_during w1 l).length ∧
      (∀ b, (exif__run w ctx tail opts).1.data = some b →
        b.bytes = (written_during w1 l).take (exif__run w ctx tail opts).1.data_len) ∧
      (written_during w1 l = [] ∨ ¬ lseek_reports w (written_during w1 l).length
          ∨ w.alloc_plan.headD 0 = 0 →
        (exif__run w ctx tail opts).1.data = none ∧
        (exif__run w ctx tail opts).1.data_len = 0) ∧
      (written_during w1 l ≠ [] → lseek_reports w (written_during w1 l).length →
        w.alloc_plan.headD 0 ≠ 0 →
        ((written_during w1 l).length : Int)
          ≤ w.read_plan.headD ((written_during w1 l).length : Int) →
        (exif__run w ctx tail opts).1.data
          = some ⟨w.alloc_plan.headD 0, written_during w1 l⟩ ∧
        (exif__run w ctx tail opts).1.data_len = (written_during w1 l).length)) ∧
    (int32 (w1.guest_plan.headD default_step).wasi_exit_code ≠ 0 →
      (exif__run w ctx tail opts).1.success = false ∧
      (exif__run w ctx tail opts).1.data = none) := by
  obtain ⟨ht, hc⟩ := @run_call_exit w1 l exc hrun hexit
  obtain ⟨p1, p2, p3⟩ := result_by_precedence w ctx tail opts l owned w1 h
  refine ⟨ht, ?_, ?_, ?_⟩
  · rw [← hc]
    cases he : run_error w1 l with
    | some e => rw [p1 e he]; rfl
    | none =>
      by_cases h0 : run_exit_code w1 l = 0
      · rw [p3 he h0, h0]; rfl
      · rw [p2 he h0]; rfl
  · intro h0 he
    obtain ⟨c1, c2, c3, c4⟩ := captured_content h
    rw [p3 he (hc.trans h0)]
    exact ⟨rfl, rfl, c1, c2, c3, c4⟩
  · intro h0
    cases he : run_error w1 l with
    | some e => rw [p1 e he]; exact ⟨rfl, rfl⟩
    | none => rw [p2 he (by rw [hc]; exact h0)]; exact ⟨rfl, rfl⟩

/-- C7, witness: the guest ends with the process-exit signal and status 3; and with status 0
after printing `{}`, which the Result then carries. -/
theorem exif__run_intentional_exit_witness :
    exif__run_prepare exits_with_3 demo_ctx [ascii "a.jpg"] none
      = .ok (demo_locals, false, at_entry exits_with_3 demo_mem [256]) ∧
    ((at_entry exits_with_3 demo_mem [256]).guest_plan.headD default_step).outcome
      = .trap (some (ascii "Exception: wasi proc exit")) ∧
    strstr (ascii "Exception: wasi proc exit") (ascii "wasi proc exit") = true ∧
    (exif__run exits_with_3 demo_ctx [ascii "a.jpg"] none).1.exit_code = 3 ∧
    (exif__run exits_with_3 demo_ctx [ascii "a.jpg"] none).1.success = false ∧
    exif__run_prepare exits_with_0 demo_ctx [ascii "a.jpg"] none
      = .ok (demo_locals, false, at_entry exits_with_0 demo_mem [256]) ∧
    written_during (at_entry exits_with_0 demo_mem [256]) demo_locals = ascii "{}" ∧
    (exif__run exits_with_0 demo_ctx [ascii "a.jpg"] none).1.success = true ∧
    (exif__run exits_with_0 demo_ctx [ascii "a.jpg"] none).1.data = some ⟨4096, ascii "{}"⟩ ∧
    (exif__run exits_with_0 demo_ctx [ascii "a.jpg"] none).1.data_len = 2 :=
  ⟨rfl, rfl, by decide,
   (exif__run_intentional_exit exits_with_3 demo_ctx [ascii "a.jpg"] none demo_locals false
      (at_entry exits_with_3 demo_mem [256]) (ascii "Exception: wasi proc exit") rfl rfl
      (by decide)).2.1.trans (by decide),
   ((exif__run_intentional_exit exits_with_3 demo_ctx [ascii "a.jpg"] none demo_locals false
      (at_entry exits_with_3 demo_mem [256]) (ascii "Exception: wasi proc exit") rfl rfl
      (by decide)).2.2.2 (by decide)).1,
   rfl, by decide,
   ((exif__run_intentional_exit exits_with_0 demo_ctx [ascii "a.jpg"] none demo_locals false
      (at_entry exits_with_0 demo_mem [256]) (ascii "Exception: wasi proc exit") rfl rfl
      (by decide)).2.2.1 (by decide) (by decide!)).1,
   (((exif__run_intentional_exit exits_with_0 demo_ctx [ascii "a.jpg"] none demo_locals false
      (at_entry exits_with_0 demo_mem [256]) (ascii "Exception: wasi proc exit") rfl rfl
      (by decide)).2.2.1 (by decide) (by decide!)).2.2.2.2.2 (by decide) (by decide)
      (by decide) (by decide)).1,
   (((exif__run_intentional_exit exits_with_0 demo_ctx [ascii "a.jpg"] none demo_locals false
      (at_entry exits_with_0 demo_mem [256]) (ascii "Exception: wasi proc exit") rfl rfl
      (by decide)).2.2.1 (by decide) (by decide!)).2.2.2.2.2 (by decide) (by decide)
      (by decide) (by decide)).2⟩

/-- C7, counterexample. The guest prints `{}` and ends with the process-exit signal and
status 0, no last error is reported, and the `read` of the channel fails: the Result is a
success whose data is an empty string of length 0, not the two bytes the channel holds. -/
theorem exit_0_without_output :
    exif__run_prepare exits_with_0_unread demo_ctx [ascii "a.jpg"] none
      = .ok (demo_locals, false, at_entry exits_with_0_unread demo_mem [256]) ∧
    run_error (at_entry exits_with_0_unread demo_mem [256]) demo_locals = none ∧
    (exif__run exits_with_0_unread demo_ctx [ascii "a.jpg"] none).2.stdout = ascii "{}" ∧
    (exif__run exits_with_0_unread demo_ctx [ascii "a.jpg"] none).1
      = { success := true, data := some ⟨4096, []⟩, data_len := 0, error := none,
          exit_code := 0 } := by
  refine ⟨rfl, ?_, ?_, ?_⟩ <;> decide!

/-- The ways of failing without an exit status, other than a failing reset invocation,
report exit code -1. -/
theorem exit_code_minus_one_paths (w : World) (ctx : exif) (opts : Option exif_options_t) :
    (∀ tail, (exif__run_thread_env w).1 = false →
      (exif__run w ctx tail opts).1
        = failure (exif__run_thread_env w).2 (ascii "failed to init WAMR thread env") (-1)) ∧
    (∀ tail l owned w1, exif__run_prepare w ctx tail opts = .ok (l, owned, w1) →
      run_trapped w1 l = some .errbuf → run_exit_code w1 l = -1 →
      (exif__run w ctx tail opts).1.exit_code = -1) ∧
    (∀ input, (exif__write_tmpfile w input.data (exif__suffix_of input.filename)).1 = none →
      (exif_read_buf w ctx input opts).1
        = failure (exif__write_tmpfile w input.data (exif__suffix_of input.filename)).2
            (ascii "failed to write temp file") (-1)) ∧
    (∀ input, (exif__write_tmpfile w input.data (exif__suffix_of input.filename)).1 = none →
      (exif_write_buf w ctx input opts).1
        = failure (exif__write_tmpfile w input.data (exif__suffix_of input.filename)).2
            (ascii "failed to write input temp file") (-1)) := by
  refine ⟨?_, ?_, ?_, ?_⟩
  · intro tail h
    have hp : exif__run_prepare w ctx tail opts
        = .error (exif__err_result (exif__run_thread_env w).2
            (ascii "failed to init WAMR thread env") (-1)) := by
      unfold exif__run_prepare
      dsimp only
      rw [if_pos h]
    rw [exif__run_of_prepare_error hp]
    rfl
  · intro tail l owned w1 h ht hc
    obtain ⟨p1, _, _⟩ := result_by_precedence w ctx tail opts l owned w1 h
    rw [p1 _ (run_error_of_trapped ht)]
    exact hc
  · intro input h
    unfold exif_read_buf
    dsimp only
    rw [h]
    rfl
  · intro input h
    unfold exif_write_buf
    dsimp only
    rw [h]
    rfl

/-- C9, failing input. When the invocation of the reset entry point itself fails, the exit
code of the Result is the value the uninitialised local `rc` happens to hold (32767 here),
not -1. -/
theorem reset_failure_exit_code :
    (exif__run reset_traps demo_ctx [ascii "a.jpg"] none).1
      = { success := false, data := none, data_len := 0,
          error := some ⟨4096, ascii "zeroperl_reset failed"⟩,
          exit_code := 32767 } := by
  decide

/-- C10. Whenever `exif_read`, or `exif_read_buf` after spilling its input to `tmp_path`,
reaches the run entry point, the guest receives the caller's args, config pair and tags
followed by exactly `-json -a -s -n -G1 -b` and then the path (the spilled temp path for
`exif_read_buf`) as the last argument. -/
theorem exif_read_baseline_flags (w : World) (ctx : exif) (opts : Option exif_options_t) :
    (∀ (path : CStr) (l : RunLocals) (owned : Bool) (w1 : World),
      exif__run_prepare w ctx (exif__read_defaults ++ [path]) opts = .ok (l, owned, w1) →
      allocator_fresh w → wasm32_addresses w →
      GuestRan w (exif_read w ctx path opts).2 ctx.script_path
        (claimed_arguments opts [] ++
          [ascii "-json", ascii "-a", ascii "-s", ascii "-n", ascii "-G1", ascii "-b", path])) ∧
    (∀ (input : exif_buf_t) (tmp_path : Buf) (l : RunLocals) (owned : Bool) (w1 : World),
      (exif__write_tmpfile w input.data (exif__suffix_of input.filename)).1 = some tmp_path →
      exif__run_prepare (exif__write_tmpfile w input.data (exif__suffix_of input.filename)).2 ctx
        (exif__read_defaults ++ [tmp_path.bytes]) opts = .ok (l, owned, w1) →
      allocator_fresh w → wasm32_addresses w →
      GuestRan w (exif_read_buf w ctx input opts).2 ctx.script_path
        (claimed_arguments opts [] ++
          [ascii "-json", ascii "-a", ascii "-s", ascii "-n", ascii "-G1", ascii "-b",
           tmp_path.bytes])) := by
  constructor
  · intro path l owned w1 h hf h32
    have hg := guest_ran_of_prepare h hf h32
    rw [claimed_arguments_split] at hg
    obtain ⟨s, a, mem, later, argv, e1, e2, e3, e4⟩ := hg
    refine ⟨s, a, mem, later, argv, ?_, e2, e3, e4⟩
    simp only [exif_read, calls_apply_transform]
    exact e1
  · intro input tmp_path l owned w1 ht h hf h32
    have hgh := gheap_write_tmpfile w input.data (exif__suffix_of input.filename)
    have hg := guest_ran_of_prepare h (fresh_of_gheap hgh hf)
      (by unfold wasm32_addresses at *; rw [malloc_plan_of_gheap hgh]; exact h32)
    rw [claimed_arguments_split] at hg
    obtain ⟨s, a, mem, later, argv, e1, e2, e3, e4⟩ := hg
    refine ⟨s, a, mem, later, argv, ?_, e2, e3, e4⟩
    simp only [exif_read_buf, ht]
    rw [calls_write_tmpfile, gmem_of_gheap hgh] at e1
    simpa [alloc_free, unlink] using e1

/-- C10, witness: a read of `a.jpg` and a read of a three-byte buffer named `photo.jpg`. -/
theorem exif_read_baseline_flags_witness :
    exif__run_prepare roomy demo_ctx (exif__read_defaults ++ [ascii "a.jpg"]) none
      = .ok (read_locals, false, at_entry roomy (read_mem (ascii "a.jpg")) [640]) ∧
    (exif__write_tmpfile roomy demo_input.data (exif__suffix_of demo_input.filename)).1
      = some demo_tmp_path ∧
    exif__run_prepare roomy_spilled demo_ctx (exif__read_defaults ++ [demo_tmp_path.bytes]) none
      = .ok (read_locals, false, at_entry roomy_spilled (read_mem demo_tmp_path.bytes) [640]) ∧
    allocator_fresh roomy ∧ wasm32_addresses roomy ∧
    GuestRan roomy (exif_read roomy demo_ctx (ascii "a.jpg") none).2 demo_ctx.script_path
      (claimed_arguments none [] ++
        [ascii "-json", ascii "-a", ascii "-s", ascii "-n", ascii "-G1", ascii "-b",
         ascii "a.jpg"]) ∧
    GuestRan roomy (exif_read_buf roomy demo_ctx demo_input none).2 demo_ctx.script_path
      (claimed_arguments none [] ++
        [ascii "-json", ascii "-a", ascii "-s", ascii "-n", ascii "-G1", ascii "-b",
         ascii "/tmp/libexif_abcdef.jpg"]) :=
  ⟨rfl, rfl, rfl, by decide, by decide,
   (exif_read_baseline_flags roomy demo_ctx none).1 (ascii "a.jpg") read_locals false
     (at_entry roomy (read_mem (ascii "a.jpg")) [640]) rfl (by decide) (by decide),
   (exif_read_baseline_flags roomy demo_ctx none).2 demo_input demo_tmp_path read_locals false
     (at_entry roomy_spilled (read_mem demo_tmp_path.bytes) [640]) rfl rfl (by decide)
     (by decide)⟩

/-- C11. `exif_write` with an `out_path` returns exactly what `exif__run` returns for the
tail `-o out_path in_path`, and without one exactly what `exif__run` returns for the tail
`-overwrite_original in_path`; whenever the call reaches the run entry point, the guest
receives the caller's args, config pair and tags followed by exactly that tail. -/
theorem exif_write_positional_tail (w : World) (ctx : exif) (in_path : CStr)
    (opts : Option exif_options_t) :
    (∀ out_path : CStr,
      exif_write w ctx in_path (some out_path) opts
        = exif__run w ctx [ascii "-o", out_path, in_path] opts) ∧
    exif_write w ctx in_path none opts
      = exif__run w ctx [ascii "-overwrite_original", in_path] opts ∧
    (∀ (out_path : CStr) (l : RunLocals) (owned : Bool) (w1 : World),
      exif__run_prepare w ctx [ascii "-o", out_path, in_path] opts = .ok (l, owned, w1) →
      allocator_fresh w → wasm32_addresses w →
      GuestRan w (exif_write w ctx in_path (some out_path) opts).2 ctx.script_path
        (claimed_arguments opts [] ++ [ascii "-o", out_path, in_path])) ∧
    (∀ (l : RunLocals) (owned : Bool) (w1 : World),
      exif__run_prepare w ctx [ascii "-overwrite_original", in_path] opts = .ok (l, owned, w1) →
      allocator_fresh w → wasm32_addresses w →
      GuestRan w (exif_write w ctx in_path none opts).2 ctx.script_path
        (claimed_arguments opts [] ++ [ascii "-overwrite_original", in_path])) := by
  refine ⟨fun _ => rfl, rfl, ?_, ?_⟩
  · intro out_path l owned w1 h hf h32
    have hg := guest_ran_of_prepare h hf h32
    rw [claimed_arguments_split] at hg
    exact hg
  · intro l owned w1 h hf h32
    have hg := guest_ran_of_prepare h hf h32
    rw [claimed_arguments_split] at hg
    exact hg

/-- C11, witness: a write of `a.jpg` to `b.jpg` and a write of `a.jpg` in place. -/
theorem exif_write_positional_tail_witness :
    exif__run_prepare roomy demo_ctx [ascii "-o", ascii "b.jpg", ascii "a.jpg"] none
      = .ok (write_locals, false,
          at_entry roomy (write_mem (ascii "b.jpg") (ascii "a.jpg")) [384, 448, 512, 576, 640]) ∧
    exif__run_prepare roomy demo_ctx [ascii "-overwrite_original", ascii "a.jpg"] none
      = .ok (overwrite_locals, false,
          at_entry roomy (overwrite_mem (ascii "a.jpg")) [320, 384, 448, 512, 576, 640]) ∧
    allocator_fresh roomy ∧ wasm32_addresses roomy ∧
    GuestRan roomy (exif_write roomy demo_ctx (ascii "a.jpg") (some (ascii "b.jpg")) none).2
      demo_ctx.script_path
      (claimed_arguments none [] ++ [ascii "-o", ascii "b.jpg", ascii "a.jpg"]) ∧
    GuestRan roomy (exif_write roomy demo_ctx (ascii "a.jpg") none none).2 demo_ctx.script_path
      (claimed_arguments none [] ++ [ascii "-overwrite_original", ascii "a.jpg"]) :=
  ⟨rfl, rfl, by decide, by decide,
   (exif_write_positional_tail roomy demo_ctx (ascii "a.jpg") none).2.2.1 (ascii "b.jpg")
     write_locals false
     (at_entry roomy (write_mem (ascii "b.jpg") (ascii "a.jpg")) [384, 448, 512, 576, 640])
     rfl (by decide) (by decide),
   (exif_write_positional_tail roomy demo_ctx (ascii "a.jpg") none).2.2.2
     overwrite_locals false
     (at_entry roomy (overwrite_mem (ascii "a.jpg")) [320, 384, 448, 512, 576, 640])
     rfl (by decide) (by decide)⟩

/-- C12, failing input. The allocator returns NULL for the copy of the temp path: both
`exif_read_buf` and `exif_write_buf` report that the temp file could not be written, and the
temp file, holding the three bytes of the input, is still there when they return. -/
theorem temp_file_left_when_path_copy_fails :
    (exif_read_buf no_path_memory demo_ctx demo_input none).1
      = { success := false, data := none, data_len := 0,
          error := some ⟨4096, ascii "failed to write temp file"⟩, exit_code := -1 } ∧
    fs_read (exif_read_buf no_path_memory demo_ctx demo_input none).2.files
      (ascii "/tmp/libexif_abcdef.jpg") = some [255, 216, 255] ∧
    (exif_write_buf no_path_memory demo_ctx demo_input none).1
      = { success := false, data := none, data_len := 0,
          error := some ⟨4096, ascii "failed to write input temp file"⟩, exit_code := -1 } ∧
    fs_read (exif_write_buf no_path_memory demo_ctx demo_input none).2.files
      (ascii "/tmp/libexif_abcdef.jpg") = some [255, 216, 255] := by
  decide

/-- C15, failing input. The guest run of an `exif_write_buf` call succeeds and leaves four
bytes at the output path; `ftell` fails on that file and returns -1: the allocator's alloc is
called with size `-1 + 1 = 0` for the read-back (after 24 bytes for the temp path and 27 for
the captured output), and the four bytes are read into the block it returns. -/
theorem ftell_failure_allocs_zero :
    (exif_write_buf ftell_fails demo_ctx demo_input none).2.alloc_log = [24, 27, 0] ∧
    (exif_write_buf ftell_fails demo_ctx demo_input none).1
      = { success := true, data := some ⟨12288, [255, 216, 0, 217]⟩, data_len := 4,
          error := none, exit_code := 0 } := by
  decide!

/-- C16. Whenever `exif__write_tmpfile` succeeds for the suffix of a Named Buffer's filename,
the path it returns is `/tmp/libexif_`, the six characters `mkstemps` chose, and then: a dot
followed by exactly the text after the last dot of the filename; nothing when the filename
has no dot. -/
theorem exif__write_tmpfile_keeps_extension (w : World) (data : Bytes) (filename : CStr)
    (path : Buf) (h : (exif__write_tmpfile w data (exif__suffix_of filename)).1 = some path) :
    ∃ name, w.mkstemps_plan.headD none = some name ∧
      (∀ pre s, filename = pre ++ char_dot :: s → char_dot ∉ s →
        path.bytes = ascii "/tmp/libexif_" ++ name ++ char_dot :: s) ∧
      (char_dot ∉ filename → path.bytes = ascii "/tmp/libexif_" ++ name) := by
  have hstem : ascii "/tmp/libexif_XXXXXX" = ascii "/tmp/libexif_" ++ List.replicate 6 char_X := by
    decide
  have key : ∃ name, w.mkstemps_plan.headD none = some name ∧
      path.bytes = ascii "/tmp/libexif_" ++ name ++ extension_of (exif__suffix_of filename) := by
    unfold exif__write_tmpfile at h
    dsimp only at h
    split at h
    · cases h
    · rename_i path_buf hfd
      rw [hstem] at hfd
      obtain ⟨name, hn, hp⟩ := mkstemps_template_path w _ _ _ (by decide) hfd
      refine ⟨name, hn, ?_⟩
      split at h
      · cases h
      · unfold filled at h
        split at h
        · cases h
        · simp only [Option.some.injEq] at h
          rw [← h, ← hp]
  obtain ⟨name, hn, hp⟩ := key
  refine ⟨name, hn, ?_, ?_⟩
  · intro pre s hf hs
    rw [hp, hf, suffix_of_last_dot pre s hs]
    simp [extension_of]
  · intro hf
    rw [hp, suffix_of_none filename hf]
    simp [extension_of]

/-- C16, witness: the three bytes of `demo_input`, named `photo.jpg`, are spilled to
`/tmp/libexif_abcdef.jpg`. -/
theorem exif__write_tmpfile_keeps_extension_witness :
    (exif__write_tmpfile roomy demo_input.data (exif__suffix_of demo_input.filename)).1
      = some demo_tmp_path ∧
    ∃ name, roomy.mkstemps_plan.headD none = some name ∧
      (∀ pre s, demo_input.filename = pre ++ char_dot :: s → char_dot ∉ s →
        demo_tmp_path.bytes = ascii "/tmp/libexif_" ++ name ++ char_dot :: s) ∧
      (char_dot ∉ demo_input.filename → demo_tmp_path.bytes = ascii "/tmp/libexif_" ++ name) :=
  ⟨by decide,
   exif__write_tmpfile_keeps_extension roomy demo_input.data demo_input.filename demo_tmp_path
     (by decide)⟩

/-- C18, failing input. The allocator has memory for the module image and for the context
but returns NULL for the copy of the script's temp path: `exif_create` returns NULL, the
engine-level resources and the two blocks are released once each, and the script temp file,
with the program text in it, is still there. -/
theorem exif_create_leaves_script_file :
    (exif_create no_room_for_path demo_aot demo_script none).1 = none ∧
    (exif_create no_room_for_path demo_aot demo_script none).2.events
      = [.wasm_runtime_init, .wasm_runtime_register_natives, .wasm_runtime_load,
         .wasm_runtime_unload, .wasm_runtime_destroy] ∧
    (exif_create no_room_for_path demo_aot demo_script none).2.world.free_log = [4096, 8192] ∧
    fs_read (exif_create no_room_for_path demo_aot demo_script none).2.world.files
      (ascii "/tmp/libexif_abcdef") = some demo_script := by
  decide

/-- C19. After a call of `exif__run` that invoked the run entry point, no exception is
pending in the engine: when the run entry point failed (intentional exit or trapped
exception) whatever the state before the call, and when it returned normally provided no
exception was pending when the call started, which is what every earlier call leaves. -/
theorem exif__run_leaves_no_exception (w : World) (ctx : exif) (tail : List CStr)
    (opts : Option exif_options_t) (l : RunLocals) (owned : Bool) (w1 : World)
    (h : exif__run_prepare w ctx tail opts = .ok (l, owned, w1)) :
    (w.exception = none → (exif__run w ctx tail opts).2.exception = none) ∧
    (∀ e, (w1.guest_plan.headD default_step).outcome = .trap e →
      (exif__run w ctx tail opts).2.exception = none) := by
  refine ⟨run_exception_clear w ctx tail opts, ?_⟩
  intro e he
  rw [exif__run_of_prepare_ok h, (heap_only_cleanup _ _ _).exception]
  exact (run_invoke_exception w1 l).2 e he

/-- C19, witness: a call whose run entry point traps, and a call whose run entry point
returns; nothing is pending after either. -/
theorem exif__run_leaves_no_exception_witness :
    exif__run_prepare run_traps demo_ctx [ascii "a.jpg"] none
      = .ok (demo_locals, false, at_entry run_traps demo_mem [256]) ∧
    ((at_entry run_traps demo_mem [256]).guest_plan.headD default_step).outcome
      = .trap (some (ascii "Exception: unreachable")) ∧
    (exif__run run_traps demo_ctx [ascii "a.jpg"] none).2.exception = none ∧
    exif__run_prepare calm demo_ctx [ascii "a.jpg"] none
      = .ok (demo_locals, false, at_entry calm demo_mem [256]) ∧
    calm.exception = none ∧
    (exif__run calm demo_ctx [ascii "a.jpg"] none).2.exception = none :=
  ⟨rfl, rfl,
   (exif__run_leaves_no_exception run_traps demo_ctx [ascii "a.jpg"] none demo_locals false
      (at_entry run_traps demo_mem [256]) rfl).2 _ rfl,
   rfl, rfl,
   (exif__run_leaves_no_exception calm demo_ctx [ascii "a.jpg"] none demo_locals false
      (at_entry calm demo_mem [256]) rfl).1 rfl⟩

/-- C20, as amended. The run entry point is invoked on a truncated and rewound channel: once
it is back the channel holds its output only, and when the result is built the channel holds
exactly the bytes written during this call, whatever it held before.  The data of a
successful Result is read from these bytes: it is a prefix of them, `data_len` long; it is
NULL with `data_len` 0 when there are none, `lseek` does not report their count or the
allocator returns NULL; when the read-back is complete (`reads_back`: `lseek` reports their
count, the allocator returns the buffer and `read` delivers everything), the data is all of
them and `data_len` their count.  Hence two calls, from any two states, during which the
guest writes the same bytes and whose read-back is complete return Results of identical
content. -/
theorem exif__run_returns_this_calls_output (w : World) (ctx : exif) (tail : List CStr)
    (opts : Option exif_options_t) (l : RunLocals) (owned : Bool) (w1 : World)
    (h : exif__run_prepare w ctx tail opts = .ok (l, owned, w1)) :
    (exif__run_call w1 l).2.2.stdout = (w1.guest_plan.headD default_step).output ∧
    (run_state w1 l).stdout = written_during w1 l ∧
    ((exif__run w ctx tail opts).1.success = true →
      (exif__run w ctx tail opts).1.data_len ≤ (written_during w1 l).length ∧
      (∀ b, (exif__run w ctx tail opts).1.data = some b →
        b.bytes = (written_during w1 l).take (exif__run w ctx tail opts).1.data_len) ∧
      (written_during w1 l = [] ∨ ¬ lseek_reports w (written_during w1 l).length
          ∨ w.alloc_plan.headD 0 = 0 →
        (exif__run w ctx tail opts).1.data = none ∧
        (exif__run w ctx tail opts).1.data_len = 0) ∧
      (reads_back (run_state w1 l) →
        content (exif__run w ctx tail opts).1
          = (if written_during w1 l = [] then none else some (written_during w1 l),
             (written_during w1 l).length))) ∧
    (∀ (wb : World) (ctxb : exif) (tailb : List CStr) (optsb : Option exif_options_t)
      (lb : RunLocals) (ownedb : Bool) (w1b : World),
      exif__run_prepare wb ctxb tailb optsb = .ok (lb, ownedb, w1b) →
      (exif__run w ctx tail opts).1.success = true →
      (exif__run wb ctxb tailb optsb).1.success = true →
      reads_back (run_state w1 l) → reads_back (run_state w1b lb) →
      written_during w1b lb = written_during w1 l →
      content (exif__run wb ctxb tailb optsb).1 = content (exif__run w ctx tail opts).1) := by
  refine ⟨(run_call_channel w1 l).1, (run_state_channel w1 l).1, fun hs => ?_, ?_⟩
  · obtain ⟨s1, s2, s3⟩ := run_success_content h hs
    refine ⟨s1, s2, ?_, s3⟩
    rw [run_success_is_captured h hs]
    exact (captured_content h).2.2.1
  · intro wb ctxb tailb optsb lb ownedb w1b hb hs hsb hr hrb hw
    rw [(run_success_content h hs).2.2 hr, (run_success_content hb hsb).2.2 hrb, hw]

/-- C20, witness: two calls in a row on a channel that held fourteen bytes of an earlier
call; in each the guest prints `{}`, and each Result holds exactly these two bytes. -/
theorem exif__run_returns_this_calls_output_witness :
    exif__run_prepare prints_twice demo_ctx [ascii "a.jpg"] none
      = .ok (demo_locals, false, at_entry prints_twice demo_mem [256, 320, 384]) ∧
    (exif__run prints_twice demo_ctx [ascii "a.jpg"] none).1.success = true ∧
    reads_back (run_state (at_entry prints_twice demo_mem [256, 320, 384]) demo_locals) ∧
    content (exif__run prints_twice demo_ctx [ascii "a.jpg"] none).1 = (some (ascii "{}"), 2) ∧
    content (exif__run (exif__run prints_twice demo_ctx [ascii "a.jpg"] none).2 demo_ctx
        [ascii "a.jpg"] none).1
      = content (exif__run prints_twice demo_ctx [ascii "a.jpg"] none).1 :=
  ⟨rfl, by decide!, by decide!,
   ((exif__run_returns_this_calls_output prints_twice demo_ctx [ascii "a.jpg"] none
      demo_locals false (at_entry prints_twice demo_mem [256, 320, 384]) rfl).2.2.1
      (by decide!)).2.2.2 (by decide!),
   (exif__run_returns_this_calls_output prints_twice demo_ctx [ascii "a.jpg"] none
      demo_locals false (at_entry prints_twice demo_mem [256, 320, 384]) rfl).2.2.2
      (exif__run prints_twice demo_ctx [ascii "a.jpg"] none).2 demo_ctx [ascii "a.jpg"] none
      _ _ _ rfl (by decide!) (by decide!) (by decide!) (by decide!) (by decide!)⟩

/-- C20, counterexample. Two calls in a row during each of which the guest prints `{}`; the
`read` of the first call delivers one byte only: the first Result carries `{` with
`data_len` 1, the second `{}` with `data_len` 2. -/
theorem same_output_different_results :
    (exif__run prints_twice_short_read demo_ctx [ascii "a.jpg"] none).2.stdout = ascii "{}" ∧
    (exif__run prints_twice_short_read demo_ctx [ascii "a.jpg"] none).1
      = { success := true, data := some ⟨4096, ascii "\x7b"⟩, data_len := 1, error := none,
          exit_code := 0 } ∧
    (exif__run (exif__run prints_twice_short_read demo_ctx [ascii "a.jpg"] none).2 demo_ctx
      [ascii "a.jpg"] none).2.stdout = ascii "{}" ∧
    (exif__run (exif__run prints_twice_short_read demo_ctx [ascii "a.jpg"] none).2 demo_ctx
      [ascii "a.jpg"] none).1
      = { success := true, data := some ⟨8192, ascii "{}"⟩, data_len := 2, error := none,
          exit_code := 0 } := by
  decide!

end Libexif
